import Mathlib

/-!
# KhazarOS System Monitor: collectors and their history rings

A shallow embedding of the sampling code of the monitor
(`src/cpu/cpu_data.c`, `src/memory/memory_data.c`, `update_apps_list` of
`src/main.c`, `src/network/network_data.c`, `src/disk/disk_data.c`,
`src/gpu/gpu_data.c`) and the properties proved about it.

Conventions of the embedding.

* A `gulong` is a natural number below `2 ^ 64`; every `gulong` addition and
  subtraction of the source is written with `gadd` / `gsub`, which wrap
  modulo `2 ^ 64` the way the C operators do.
* A `gdouble` is a rational number: conversions of a `gulong` to `gdouble`,
  products and quotients are taken exactly, so the rounding of IEEE doubles is
  not part of the model.
* A C array is a function from the slot number to the stored value; `arrSet`
  is the assignment `a[i] = v`.
* The process-wide static variables of a collector are the fields of one
  state record, and an update routine is a function from the state and the
  text it reads to the next state.  A file that cannot be opened is `none`.
* Where the source takes a text apart with `strstr`, `strchr` or `strtok`, the
  text is a list of characters and the model does the same search; where it
  reads numbers with `sscanf` or `fscanf`, the numbers read are the input.
-/

namespace SysMon

/-! ## Machine arithmetic and arrays -/

/-- The constant `MAX_POINTS` of `cpu_data.h` and `memory_data.h`. -/
def MAX_POINTS : Nat := 60

/-- The constant `MAX_CPU_CORES` of `cpu_data.h`. -/
def MAX_CPU_CORES : Nat := 64

/-- Number of values of a `gulong` (64-bit `unsigned long`). -/
def GULONG_RANGE : Nat := 2 ^ 64

/-- Addition of two `gulong` values: the C operator `+`, wrapping. -/
def gadd (a b : Nat) : Nat := (a + b) % GULONG_RANGE

/-- Subtraction of two `gulong` values: the C operator `-`, wrapping. -/
def gsub (a b : Nat) : Nat := (a + (GULONG_RANGE - b % GULONG_RANGE)) % GULONG_RANGE

/-- The assignment `a[i] = v` on an array seen as a function of the slot. -/
def arrSet {α : Type} (a : Nat → α) (i : Nat) (v : α) : Nat → α :=
  fun j => if j = i then v else a j

/-! ## CPU collector (`src/cpu/cpu_data.c`) -/

/-- The eight counters `sscanf` reads from one `cpu` line of `/proc/stat`
(a counter the line does not hold stays at its initial 0). -/
structure CpuTimes where
  user : Nat
  nice : Nat
  system : Nat
  idle : Nat
  iowait : Nat
  irq : Nat
  softirq : Nat
  steal : Nat
deriving DecidableEq, Repr

/-- What `cpu_data_update` finds in an opened `/proc/stat`: `cpu` is the
content of the first line when it starts with `"cpu "` (otherwise `none`, and
the eight locals keep their zeros); `core i` is the content of the first
line that starts with `"cpu<i> "`, `none` when the search loop reaches the
end of the file without a match. -/
structure ProcStat where
  cpu : Option CpuTimes
  core : Nat → Option CpuTimes

/-- The static variables of `cpu_data.c` that `cpu_data_update` reads or
writes, with `cpu_threads` as left by `parse_cpuinfo`. The frequency
refresh at the end of the routine touches `cpu_freq_mhz` only, which is not
part of this record. -/
structure CpuState where
  cpu_usage_history : Nat → ℚ
  per_cpu_usage_history : Nat → Nat → ℚ
  current_per_cpu_usage : Nat → ℚ
  prev_cpu_stats : Nat → Nat → Nat
  cpu_usage_index : Nat
  current_cpu_usage : ℚ
  prev_cpu_total : Nat
  prev_cpu_idle : Nat
  cpu_threads : Int

/-- The static initialisers of `cpu_data.c`, with the thread count that
`parse_cpuinfo` obtained from `sysconf`. -/
def cpu_state_initial (threads : Int) : CpuState where
  cpu_usage_history := fun _ => 0
  per_cpu_usage_history := fun _ _ => 0
  current_per_cpu_usage := fun _ => 0
  prev_cpu_stats := fun _ _ => 0
  cpu_usage_index := 0
  current_cpu_usage := 0
  prev_cpu_total := 0
  prev_cpu_idle := 0
  cpu_threads := threads

/-- The sum `user + nice + system + idle + iowait + irq + softirq + steal`
in `gulong` arithmetic (lines 162 and 191). -/
def cpu_total_of (c : CpuTimes) : Nat :=
  gadd (gadd (gadd (gadd (gadd (gadd (gadd c.user c.nice) c.system) c.idle) c.iowait)
    c.irq) c.softirq) c.steal

/-- The sum `idle + iowait` in `gulong` arithmetic (lines 163 and 192). -/
def cpu_idle_total_of (c : CpuTimes) : Nat := gadd c.idle c.iowait

/-- The eight zero-initialised locals of `cpu_data_update`. -/
def CpuTimes.zero : CpuTimes := ⟨0, 0, 0, 0, 0, 0, 0, 0⟩

/-- The expression `100.0 * (total_diff - idle_diff) / total_diff` of lines
168 and 200: the inner difference is a wrapping `gulong` subtraction, the
product and the quotient are taken in `gdouble`. -/
def usage_percent (total_diff idle_diff : Nat) : ℚ :=
  100 * ((gsub total_diff idle_diff : Nat) : ℚ) / ((total_diff : Nat) : ℚ)

/-- The expression `v > 0 ? v : 0` stored in a history slot. -/
def floor_zero (v : ℚ) : ℚ := if v > 0 then v else 0

/-- The sum `prev_cpu_stats[i][0] + ... + prev_cpu_stats[i][3]` of line 194:
the previous total of core `i`. -/
def core_prev_total (s : CpuState) (i : Nat) : Nat :=
  gadd (gadd (gadd (s.prev_cpu_stats i 0) (s.prev_cpu_stats i 1))
    (s.prev_cpu_stats i 2)) (s.prev_cpu_stats i 3)

/-- Body of the per-core loop of `cpu_data_update` (lines 177 to 212) for
core `i`. -/
def per_cpu_update (f : ProcStat) (s : CpuState) (i : Nat) : CpuState :=
  match f.core i with
  | none => s
  | some c =>
    let cpu_total := cpu_total_of c
    let cpu_idle_total := cpu_idle_total_of c
    let prev_total := core_prev_total s i
    let prev_idle := s.prev_cpu_stats i 3
    let s1 : CpuState :=
      if prev_total > 0 ∧ cpu_total > prev_total then
        let total_diff := gsub cpu_total prev_total
        let idle_diff := gsub cpu_idle_total prev_idle
        let v := usage_percent total_diff idle_diff
        { s with
          current_per_cpu_usage := arrSet s.current_per_cpu_usage i v
          per_cpu_usage_history := arrSet s.per_cpu_usage_history i
            (arrSet (s.per_cpu_usage_history i) s.cpu_usage_index (floor_zero v)) }
      else s
    { s1 with
      prev_cpu_stats := arrSet s1.prev_cpu_stats i
        (arrSet (arrSet (arrSet (arrSet (s1.prev_cpu_stats i)
          0 (gadd c.user c.nice))
          1 c.system)
          2 (gadd (gadd c.irq c.softirq) c.steal))
          3 cpu_idle_total) }

/-- Number of iterations of the loop
`for (i = 0; i < cpu_threads && i < MAX_CPU_CORES; i++)`. -/
def tracked_cores (s : CpuState) : Nat := min s.cpu_threads.toNat MAX_CPU_CORES

/-- The aggregate part of `cpu_data_update` (lines 155 to 173). -/
def cpu_aggregate_update (f : ProcStat) (s : CpuState) : CpuState :=
  let c := f.cpu.getD CpuTimes.zero
  let total := cpu_total_of c
  let idle_total := cpu_idle_total_of c
  let s1 : CpuState :=
    if s.prev_cpu_total > 0 ∧ total > s.prev_cpu_total then
      let total_diff := gsub total s.prev_cpu_total
      let idle_diff := gsub idle_total s.prev_cpu_idle
      let v := usage_percent total_diff idle_diff
      { s with
        current_cpu_usage := v
        cpu_usage_history := arrSet s.cpu_usage_history s.cpu_usage_index (floor_zero v) }
    else s
  { s1 with prev_cpu_total := total, prev_cpu_idle := idle_total }

/-- The routine `cpu_data_update`: `none` is a tick on which `/proc/stat`
could not be opened (the early `return`). -/
def cpu_data_update (s : CpuState) (file : Option ProcStat) : CpuState :=
  match file with
  | none => s
  | some f =>
    let s1 := cpu_aggregate_update f s
    let s2 := (List.range (tracked_cores s1)).foldl (per_cpu_update f) s1
    { s2 with cpu_usage_index := (s2.cpu_usage_index + 1) % MAX_POINTS }

/-- A run of the CPU collector: one `cpu_data_update` per tick. -/
def cpu_run (s : CpuState) (ticks : List (Option ProcStat)) : CpuState :=
  ticks.foldl cpu_data_update s

/-- States of the CPU collector that the program can be in: the static
initialisers, then any number of ticks. -/
inductive CpuReachable : CpuState → Prop
  | init (threads : Int) : CpuReachable (cpu_state_initial threads)
  | tick (s : CpuState) (file : Option ProcStat) :
      CpuReachable s → CpuReachable (cpu_data_update s file)

/-- Whether a tick that opened `/proc/stat` writes the aggregate slot: the
guard of line 165. -/
def cpu_tick_writes (s : CpuState) (f : ProcStat) : Prop :=
  s.prev_cpu_total > 0 ∧ cpu_total_of (f.cpu.getD CpuTimes.zero) > s.prev_cpu_total

instance (s : CpuState) (f : ProcStat) : Decidable (cpu_tick_writes s f) := by
  unfold cpu_tick_writes; infer_instance

/-- The values the ticks of a run push into `cpu_usage_history`, in push
order: a tick contributes the value it stores at line 169 when the guard of
line 165 holds, and nothing otherwise. -/
def cpu_pushes : CpuState → List ProcStat → List ℚ
  | _, [] => []
  | s, f :: fs =>
    (if cpu_tick_writes s f
      then [(cpu_data_update s (some f)).cpu_usage_history s.cpu_usage_index]
      else [])
    ++ cpu_pushes (cpu_data_update s (some f)) fs

/-- Every tick of the run writes the aggregate slot. -/
def cpu_ticks_all_write : CpuState → List ProcStat → Prop
  | _, [] => True
  | s, f :: fs => cpu_tick_writes s f ∧ cpu_ticks_all_write (cpu_data_update s (some f)) fs

instance cpu_ticks_all_write_decidable :
    (s : CpuState) → (fs : List ProcStat) → Decidable (cpu_ticks_all_write s fs)
  | _, [] => isTrue trivial
  | s, f :: fs =>
    @instDecidableAnd _ _ _ (cpu_ticks_all_write_decidable (cpu_data_update s (some f)) fs)

/-- The read loop of the graphs (`draw_cpu_graph`, `draw_memory_graph`):
slot `(index + i) % MAX_POINTS` for `i = 0 .. MAX_POINTS - 1`. -/
def chronological (history : Nat → ℚ) (index : Nat) : List ℚ :=
  (List.range MAX_POINTS).map (fun i => history ((index + i) % MAX_POINTS))

/-- The getter `get_cpu_usage_by_core`. -/
def get_cpu_usage_by_core (s : CpuState) (core_id : Int) : ℚ :=
  if core_id ≥ 0 ∧ core_id < s.cpu_threads ∧ core_id < MAX_CPU_CORES then
    s.current_per_cpu_usage core_id.toNat
  else 0

/-- The getter `get_cpu_usage_history_by_core`, `none` for `NULL`. -/
def get_cpu_usage_history_by_core (s : CpuState) (core_id : Int) : Option (Nat → ℚ) :=
  if core_id ≥ 0 ∧ core_id < s.cpu_threads ∧ core_id < MAX_CPU_CORES then
    some (s.per_cpu_usage_history core_id.toNat)
  else none

/-! ## Memory collector (`src/memory/memory_data.c`) -/

/-- The seven locals the scanning loop of `memory_data_update` fills from
`/proc/meminfo`, in kB: each holds the number of the last line with its key
(`MemTotal:`, `MemFree:`, `MemAvailable:`, `Buffers:`, `Cached:`,
`SwapTotal:`, `SwapFree:`), 0 when the file has no such line. -/
structure MemInfo where
  mem_total : Nat
  mem_free : Nat
  mem_available : Nat
  buffers : Nat
  cached : Nat
  swap_total_kb : Nat
  swap_free_kb : Nat
deriving DecidableEq, Repr

/-- The static variables of `memory_data.c`. -/
structure MemState where
  memory_usage_history : Nat → ℚ
  swap_usage_history : Nat → ℚ
  memory_usage_index : Nat
  swap_usage_index : Nat
  current_memory_usage_percent : ℚ
  current_swap_usage_percent : ℚ
  total_memory : Nat
  used_memory : Nat
  free_memory : Nat
  available_memory : Nat
  buffer_memory : Nat
  cached_memory : Nat
  swap_total : Nat
  swap_used : Nat
  swap_free : Nat

/-- The static initialisers of `memory_data.c`; also the state
`memory_data_cleanup` leaves. -/
def mem_state_initial : MemState where
  memory_usage_history := fun _ => 0
  swap_usage_history := fun _ => 0
  memory_usage_index := 0
  swap_usage_index := 0
  current_memory_usage_percent := 0
  current_swap_usage_percent := 0
  total_memory := 0
  used_memory := 0
  free_memory := 0
  available_memory := 0
  buffer_memory := 0
  cached_memory := 0
  swap_total := 0
  swap_used := 0
  swap_free := 0

/-- The routine `memory_data_update`: `none` is a tick on which
`/proc/meminfo` could not be opened (the early `return`). -/
def memory_data_update (s : MemState) (file : Option MemInfo) : MemState :=
  match file with
  | none => s
  | some m =>
    -- Convert KB to MB
    let total_memory := m.mem_total / 1024
    let free_memory := m.mem_free / 1024
    let available_memory := m.mem_available / 1024
    let buffer_memory := m.buffers / 1024
    let cached_memory := m.cached / 1024
    let swap_total := m.swap_total_kb / 1024
    let swap_free := m.swap_free_kb / 1024
    -- used memory (total - free - buffers - cached), then the sanity check
    let used0 := gsub (gsub (gsub total_memory free_memory) buffer_memory) cached_memory
    let used_memory := if used0 > total_memory then total_memory else used0
    let swap_used := gsub swap_total swap_free
    let s1 : MemState :=
      { s with
        total_memory := total_memory
        free_memory := free_memory
        available_memory := available_memory
        buffer_memory := buffer_memory
        cached_memory := cached_memory
        swap_total := swap_total
        swap_free := swap_free
        used_memory := used_memory
        swap_used := swap_used }
    let s2 : MemState :=
      if total_memory > 0 then
        let p : ℚ := 100 * (used_memory : ℚ) / (total_memory : ℚ)
        { s1 with
          current_memory_usage_percent := p
          memory_usage_history := arrSet s1.memory_usage_history s1.memory_usage_index p
          memory_usage_index := (s1.memory_usage_index + 1) % MAX_POINTS }
      else s1
    if swap_total > 0 then
      let p : ℚ := 100 * (swap_used : ℚ) / (swap_total : ℚ)
      { s2 with
        current_swap_usage_percent := p
        swap_usage_history := arrSet s2.swap_usage_history s2.swap_usage_index p
        swap_usage_index := (s2.swap_usage_index + 1) % MAX_POINTS }
    else
      { s2 with current_swap_usage_percent := 0 }

/-- The routine `memory_data_cleanup`: every static variable back to zero. -/
def memory_data_cleanup (_s : MemState) : MemState := mem_state_initial

/-- States of the memory collector that the program can be in: the static
initialisers, then any number of ticks and clean-ups. -/
inductive MemReachable : MemState → Prop
  | init : MemReachable mem_state_initial
  | tick (s : MemState) (file : Option MemInfo) :
      MemReachable s → MemReachable (memory_data_update s file)
  | cleanup (s : MemState) : MemReachable s → MemReachable (memory_data_cleanup s)

/-- A run of the memory collector over ticks that all opened
`/proc/meminfo`. -/
def memory_run (s : MemState) (samples : List MemInfo) : MemState :=
  samples.foldl (fun t m => memory_data_update t (some m)) s

/-- The getter `get_used_memory`. -/
def get_used_memory (s : MemState) : Nat := s.used_memory

/-- The getter `get_total_memory`. -/
def get_total_memory (s : MemState) : Nat := s.total_memory

/-- The getter `get_swap_used`. -/
def get_swap_used (s : MemState) : Nat := s.swap_used

/-- The getter `get_swap_total`. -/
def get_swap_total (s : MemState) : Nat := s.swap_total

/-- The RAM usage percentage of one sample: the value `memory_data_update`
computes for it (the computation reads the sample only, so the state it
starts from is immaterial). -/
def ram_usage_of (m : MemInfo) : ℚ :=
  (memory_data_update mem_state_initial (some m)).current_memory_usage_percent

/-! ## Process table (`update_apps_list` of `src/main.c`) -/

/-- The struct `ProcessCpuData`: the baseline kept for one PID. -/
structure ProcessCpuData where
  prev_utime : Nat
  prev_stime : Nat
  seen_this_cycle : Bool
deriving DecidableEq, Repr

/-- What the loop body of `update_apps_list` reads for one numeric directory
of `/proc`: the PID (`atoi` of the directory name), the content of `comm`
without its newline (empty when unreadable), `utime` and `stime` of `stat`
(0 when unreadable), the `VmRSS` figure returned by `get_process_memory_kb`,
and whether a line of `cgroup` contains `system.slice`. -/
structure ProcEntry where
  pid : Nat
  proc_name : String
  utime : Nat
  stime : Nat
  kb : Nat
  is_service : Bool
deriving DecidableEq, Repr

/-- A child row of the tree store: the name, PID, CPU and memory columns. -/
structure AppChild where
  name : String
  pid : Nat
  cpu_str : String
  mem_str : String
deriving DecidableEq, Repr

/-- A top-level row of the tree store (PID column 0) with its child rows,
together with the `AggData` that `agg_hash` keeps under the same name. -/
structure AppGroup where
  name : String
  cpu_str : String
  mem_str : String
  agg_cpu : ℚ
  agg_mem : Nat
  children : List AppChild
deriving DecidableEq

/-- The static variables `update_apps_list` works on, and the tree store of
the Apps tab. `process_cpu_times_hash` is `none` while the pointer is `NULL`;
a table maps a PID to its entry. -/
structure AppsState where
  process_cpu_times_hash : Option (Nat → Option ProcessCpuData)
  prev_total_system_jiffies : Nat
  apps_search_filter : String
  tree_store : List AppGroup

/-- The function `get_total_system_jiffies`: 0 when `/proc/stat` cannot be
opened, otherwise the sum of the first eight counters of the `cpu` line. -/
def get_total_system_jiffies (file : Option ProcStat) : Nat :=
  match file with
  | none => 0
  | some f => cpu_total_of (f.cpu.getD CpuTimes.zero)

/-- The conversion `%.1f` of `printf` for a value that is not negative (the
three calls format `max (cpu_percent, 0)`, `kb / 1024.0` and sums of such
values): the value is rounded to a whole number of tenths, a tie going to the
even neighbour, and written as integer part, point, one digit. The value is
the exact rational, not its nearest double. -/
def fmt_one_decimal (x : ℚ) : String :=
  let n : Nat := (Rat.floor (x * 10)).toNat
  let frac : ℚ := x * 10 - n
  let t : Nat := if frac < 1 / 2 then n else if frac > 1 / 2 then n + 1
    else if n % 2 = 0 then n else n + 1
  toString (t / 10) ++ "." ++ toString (t % 10)

/-- The effect of `snprintf (buf, sizeof (buf), ...)` on a 16-byte buffer:
at most 15 characters of the formatted text are kept. -/
def snprintf16 (text : String) : String := String.mk (text.data.take 15)

/-- Digits at the head of a character list, as a number, and the rest. -/
def scan_digits : List Char → Nat → Nat × List Char
  | [], acc => (acc, [])
  | c :: cs, acc =>
    if c.isDigit then scan_digits cs (acc * 10 + (c.toNat - 48)) else (acc, c :: cs)

/-- The function `atof` on the texts `snprintf16` leaves in
`cpu_percent_str`: decimal digits, optionally a point and further digits; what
follows (the `%`) is ignored. -/
def atof (text : String) : ℚ :=
  let (whole, rest) := scan_digits text.data 0
  match rest with
  | '.' :: cs =>
    let (frac, rest2) := scan_digits cs 0
    (whole : ℚ) + (frac : ℚ) / (10 : ℚ) ^ (cs.length - rest2.length)
  | _ => (whole : ℚ)

/-- The callback `mark_process_unseen` applied to every entry. -/
def mark_all_unseen (h : Nat → Option ProcessCpuData) : Nat → Option ProcessCpuData :=
  fun p => (h p).map (fun d => { d with seen_this_cycle := false })

/-- The removal of every entry `collect_unseen_processes` collected. -/
def remove_unseen (h : Nat → Option ProcessCpuData) : Nat → Option ProcessCpuData :=
  fun p => match h p with
    | some d => if d.seen_this_cycle then some d else none
    | none => none

/-- The insertion or replacement `g_hash_table_insert (hash, pid, data)`;
an update through the looked-up pointer has the same effect. -/
def hash_set (h : Nat → Option ProcessCpuData) (pid : Nat) (d : ProcessCpuData) :
    Nat → Option ProcessCpuData :=
  fun p => if p = pid then some d else h p

/-- Lines 435 to 465: the text of the CPU column of one process and the
table after its baseline was stored. -/
def process_cpu_step (hash : Option (Nat → Option ProcessCpuData))
    (system_jiffies_delta : Nat) (e : ProcEntry) :
    String × Option (Nat → Option ProcessCpuData) :=
  match hash with
  | none => ("0.0%", none)
  | some h =>
    let stored : ProcessCpuData := ⟨e.utime, e.stime, true⟩
    if system_jiffies_delta > 0 then
      let current_process_total := gadd e.utime e.stime
      match h e.pid with
      | some data =>
        let process_jiffies_delta :=
          gsub current_process_total (gadd data.prev_utime data.prev_stime)
        let cpu_percent : ℚ := 100 * (process_jiffies_delta : ℚ) / (system_jiffies_delta : ℚ)
        (snprintf16 (fmt_one_decimal (if cpu_percent > 0 then cpu_percent else 0) ++ "%"),
          some (hash_set h e.pid stored))
      | none => ("0.0%", some (hash_set h e.pid stored))
    else
      ("0.0%", some (hash_set h e.pid stored))

/-- The test `g_strrstr (haystack, needle) != NULL`: the needle occurs in the
haystack. -/
def str_contains (haystack needle : List Char) : Bool :=
  haystack.tails.any (fun t => needle.isPrefixOf t)

/-- Whether the loop reaches the row-building part for an entry: it is not in
`system.slice`, and the search filter is empty or occurs in the lower-cased
name. -/
def entry_shown (filter : String) (e : ProcEntry) : Bool :=
  !e.is_service &&
    (filter.data.isEmpty || str_contains (e.proc_name.data.map Char.toLower) filter.data)

/-- Lines 489 to 530: get or create the parent row of the name, add the
process to its aggregate and append the child row. -/
def tree_add_child (tree : List AppGroup) (e : ProcEntry) (cpu_percent_str mem_str : String) :
    List AppGroup :=
  let tree1 :=
    if tree.any (fun g => g.name == e.proc_name) then tree
    else tree ++ [{ name := e.proc_name, cpu_str := "", mem_str := "", agg_cpu := 0,
                    agg_mem := 0, children := [] }]
  tree1.map (fun g =>
    if g.name == e.proc_name then
      { g with
        agg_cpu := g.agg_cpu + atof cpu_percent_str
        agg_mem := gadd g.agg_mem e.kb
        children := g.children ++ [⟨e.proc_name, e.pid, cpu_percent_str, mem_str⟩] }
    else g)

/-- The two things the `readdir` loop changes: the baseline table and the
tree store. -/
structure AppsLoop where
  hash : Option (Nat → Option ProcessCpuData)
  tree : List AppGroup

/-- One iteration of the `readdir` loop for a numeric directory (lines 404
to 531). -/
def apps_entry_step (system_jiffies_delta : Nat) (filter : String) (st : AppsLoop)
    (e : ProcEntry) : AppsLoop :=
  let mem_str := snprintf16 (fmt_one_decimal ((e.kb : ℚ) / 1024))
  let r := process_cpu_step st.hash system_jiffies_delta e
  if entry_shown filter e then
    { hash := r.2, tree := tree_add_child st.tree e r.1 mem_str }
  else
    { hash := r.2, tree := st.tree }

/-- The loop after the scan that writes the aggregated CPU and memory texts
into every parent row. -/
def set_group_texts (tree : List AppGroup) : List AppGroup :=
  tree.map (fun g =>
    { g with
      cpu_str := snprintf16 (fmt_one_decimal g.agg_cpu)
      mem_str := snprintf16 (fmt_one_decimal ((g.agg_mem : ℚ) / 1024)) })

/-- The function `update_apps_list`: `stat` is what `get_total_system_jiffies`
finds in `/proc/stat`, `proc` the numeric directories `readdir` lists in
`/proc`, in listing order (`none` when `opendir` fails). -/
def update_apps_list (s : AppsState) (stat : Option ProcStat)
    (proc : Option (List ProcEntry)) : AppsState :=
  let current_total_system_jiffies := get_total_system_jiffies stat
  let system_jiffies_delta :=
    if s.prev_total_system_jiffies > 0
        ∧ current_total_system_jiffies > s.prev_total_system_jiffies
      then gsub current_total_system_jiffies s.prev_total_system_jiffies else 0
  let hash0 := s.process_cpu_times_hash.map mark_all_unseen
  match proc with
  | none =>
    { s with
      process_cpu_times_hash := hash0
      tree_store := []
      prev_total_system_jiffies := current_total_system_jiffies }
  | some entries =>
    let st := entries.foldl (apps_entry_step system_jiffies_delta s.apps_search_filter)
      { hash := hash0, tree := [] }
    { s with
      process_cpu_times_hash := st.hash.map remove_unseen
      tree_store := set_group_texts st.tree
      prev_total_system_jiffies := current_total_system_jiffies }

/-- The child rows of the tree store with a given PID. -/
def rows_of_pid (tree : List AppGroup) (pid : Nat) : List AppChild :=
  (tree.flatMap (fun g => g.children)).filter (fun c => c.pid == pid)

/-- What the tree store must hold for the name `n` once the processes `shown`
(those of that name that reached the row-building part, in listing order)
have been added: no parent row of that name when there is none, otherwise
exactly one parent row, whose child rows are these processes in order, whose
CPU aggregate is the sum of `atof` over the CPU texts of its child rows, and
whose memory aggregate is the `gulong` sum of their `kb`. -/
def group_holds (tree : List AppGroup) (n : String) (shown : List ProcEntry) : Prop :=
  (shown = [] → tree.filter (fun g => g.name == n) = []) ∧
  (shown ≠ [] → ∃ g : AppGroup,
    tree.filter (fun g => g.name == n) = [g] ∧
    g.children.map (fun c => (c.name, c.pid)) = shown.map (fun e => (e.proc_name, e.pid)) ∧
    g.agg_cpu = (g.children.map (fun c => atof c.cpu_str)).sum ∧
    g.agg_mem = (shown.map (fun e => e.kb)).sum % GULONG_RANGE)

/-- The update `tree_add_child` applies to a parent row: a row of the name of
the process gets the process added to its aggregate and to its children,
any other row is left as it is. -/
def add_to_group (e : ProcEntry) (cpu_percent_str mem_str : String) (g : AppGroup) : AppGroup :=
  if g.name == e.proc_name then
    { g with
      agg_cpu := g.agg_cpu + atof cpu_percent_str
      agg_mem := gadd g.agg_mem e.kb
      children := g.children ++ [⟨e.proc_name, e.pid, cpu_percent_str, mem_str⟩] }
  else g

/-! ## C strings -/

/-- The test `strncmp (s, lit, strlen (lit)) == 0`: `s` starts with `lit`. -/
def has_prefix (s lit : String) : Bool := lit.data.isPrefixOf s.data

/-- The copy `strncpy (dst, src, n)` into a zero-filled buffer of more than
`n` bytes: the first `n` characters of `src`. -/
def c_strncpy (src : String) (n : Nat) : String := String.mk (src.data.take n)

/-! ## Network collector (`src/network/network_data.c`) -/

/-- The constant `MAX_INTERFACES` of `network_data.h`. -/
def MAX_INTERFACES : Nat := 8

/-- The struct `NetworkInfo`. -/
structure NetworkInfo where
  interface_name : String
  interface_type : String
  is_active : Bool
  ip_address : String
  prev_rx_bytes : Nat
  prev_tx_bytes : Nat
  current_rx_bytes : Nat
  current_tx_bytes : Nat
  rx_speed : ℚ
  tx_speed : ℚ
  mac_address : String
  mtu : Int
  link_speed_mbps : Int
  rx_history : Nat → ℚ
  tx_history : Nat → ℚ
  history_index : Nat

/-- A `NetworkInfo` after `memset (&interfaces[i], 0, sizeof (NetworkInfo))`. -/
def NetworkInfo.zero : NetworkInfo where
  interface_name := ""
  interface_type := ""
  is_active := false
  ip_address := ""
  prev_rx_bytes := 0
  prev_tx_bytes := 0
  current_rx_bytes := 0
  current_tx_bytes := 0
  rx_speed := 0
  tx_speed := 0
  mac_address := ""
  mtu := 0
  link_speed_mbps := 0
  rx_history := fun _ => 0
  tx_history := fun _ => 0
  history_index := 0

/-- The static variables of `network_data.c`: the array `interfaces` and
`interface_count`. -/
structure NetState where
  interfaces : Nat → NetworkInfo
  interface_count : Nat

/-- The static initialisers of `network_data.c`. -/
def net_state_initial : NetState := ⟨fun _ => NetworkInfo.zero, 0⟩

/-- The routine `network_data_init`. -/
def network_data_init (_s : NetState) : NetState := ⟨fun _ => NetworkInfo.zero, 0⟩

/-- The routine `network_data_cleanup`. -/
def network_data_cleanup (_s : NetState) : NetState := ⟨fun _ => NetworkInfo.zero, 0⟩

/-- The function `is_physical_interface`. -/
def is_physical_interface (name : String) : Bool :=
  if name = "lo" || has_prefix name "veth" || has_prefix name "docker"
      || has_prefix name "br-" || has_prefix name "virbr" then false
  else true

/-- What `network_data_update` obtains for one line of `/proc/net/dev` that
holds a colon (the two header lines are not part of the list): the name before
the colon without its leading blanks, the first and the ninth number after it
(`rx_bytes`, `tx_bytes`), and the answers of the adapter queries made for that
name: the hardware address and the MTU of the two `ioctl` calls (`none` when
the call or the socket fails), the number read from
`/sys/class/net/<name>/speed`, whether the `iw` probe reports a managed
wireless device, and the IPv4 address `getifaddrs` lists for it. -/
structure NetDevLine where
  name : String
  rx_bytes : Nat
  tx_bytes : Nat
  hwaddr : Option String
  ifr_mtu : Option Int
  sys_speed : Option Int
  iw_managed : Bool
  ipv4 : Option String
deriving DecidableEq, Repr

/-- The function `determine_interface_type`, returning the text it leaves in
`interface_type`. -/
def determine_interface_type (interface_name : String) (iw_managed : Bool) : String :=
  let by_name :=
    if has_prefix interface_name "wlan" || has_prefix interface_name "wlp"
        || has_prefix interface_name "wifi" then "Wi-Fi"
    else if has_prefix interface_name "eth" || has_prefix interface_name "enp"
        || has_prefix interface_name "eno" then "Ethernet"
    else if has_prefix interface_name "usb" then "USB"
    else if has_prefix interface_name "ppp" then "PPP"
    else if has_prefix interface_name "tun" then "VPN Tunnel"
    else "Unknown"
  if iw_managed then "Wi-Fi" else by_name

/-- Lines 168 to 248 of `network_data_update`: what one accepted line does to
the slot `interfaces[interface_count]` it is stored in. -/
def network_slot_update (o : NetworkInfo) (l : NetDevLine) : NetworkInfo :=
  -- Store the previous values, update current values
  let d1 : NetworkInfo :=
    { o with
      prev_rx_bytes := o.current_rx_bytes
      prev_tx_bytes := o.current_tx_bytes
      interface_name := c_strncpy l.name 63
      current_rx_bytes := l.rx_bytes
      current_tx_bytes := l.tx_bytes }
  -- Calculate speeds in KB/s
  let d2 : NetworkInfo :=
    if d1.prev_rx_bytes > 0 ∨ d1.prev_tx_bytes > 0 then
      let rx_delta := if d1.current_rx_bytes > d1.prev_rx_bytes
        then d1.current_rx_bytes - d1.prev_rx_bytes else 0
      let tx_delta := if d1.current_tx_bytes > d1.prev_tx_bytes
        then d1.current_tx_bytes - d1.prev_tx_bytes else 0
      let rx_speed : ℚ := (rx_delta : ℚ) / 1024 / 2
      let tx_speed : ℚ := (tx_delta : ℚ) / 1024 / 2
      { d1 with
        rx_speed := rx_speed
        tx_speed := tx_speed
        rx_history := arrSet d1.rx_history d1.history_index rx_speed
        tx_history := arrSet d1.tx_history d1.history_index tx_speed
        history_index := (d1.history_index + 1) % MAX_POINTS }
    else d1
  -- Adapter specifications, interface type, IP address
  { d2 with
    mac_address := l.hwaddr.getD "N/A"
    mtu := l.ifr_mtu.getD 0
    link_speed_mbps := l.sys_speed.getD (-1)
    interface_type := determine_interface_type d2.interface_name l.iw_managed
    ip_address := l.ipv4.getD "Not connected"
    is_active := d2.is_active || l.ipv4.isSome }

/-- One iteration of the line loop of `network_data_update`: nothing once
`interface_count` has reached `MAX_INTERFACES` (the loop has ended), nothing
for a name `is_physical_interface` rejects, otherwise the slot numbered
`interface_count` is updated and the count grows. -/
def network_line_step (s : NetState) (l : NetDevLine) : NetState :=
  if s.interface_count < MAX_INTERFACES then
    if is_physical_interface l.name then
      { interfaces := arrSet s.interfaces s.interface_count
          (network_slot_update (s.interfaces s.interface_count) l)
        interface_count := s.interface_count + 1 }
    else s
  else s

/-- The routine `network_data_update`: `none` is a tick on which
`/proc/net/dev` could not be opened. -/
def network_data_update (s : NetState) (file : Option (List NetDevLine)) : NetState :=
  match file with
  | none => s
  | some lines => lines.foldl network_line_step { s with interface_count := 0 }

/-- States reachable from `network_data_init` by `network_data_update`
ticks. -/
inductive NetReachable : NetState → Prop
  | init (s : NetState) : NetReachable (network_data_init s)
  | tick (s : NetState) (file : Option (List NetDevLine)) :
      NetReachable s → NetReachable (network_data_update s file)

/-- The getter `get_interface_count`. -/
def get_interface_count (s : NetState) : Nat := s.interface_count

/-- The getter `get_current_rx_speed`. -/
def get_current_rx_speed (s : NetState) (index : Int) : ℚ :=
  if index ≥ 0 ∧ index < s.interface_count then (s.interfaces index.toNat).rx_speed else 0

/-- The getter `get_current_tx_speed`. -/
def get_current_tx_speed (s : NetState) (index : Int) : ℚ :=
  if index ≥ 0 ∧ index < s.interface_count then (s.interfaces index.toNat).tx_speed else 0

/-- A slot whose two byte counters are zero reports zero speeds. -/
def slot_idle_when_empty (o : NetworkInfo) : Prop :=
  o.current_rx_bytes = 0 → o.current_tx_bytes = 0 → o.rx_speed = 0 ∧ o.tx_speed = 0

/-- The getter `get_interface_info`, `none` for `NULL`. -/
def get_interface_info (s : NetState) (index : Int) : Option NetworkInfo :=
  if index ≥ 0 ∧ index < s.interface_count then some (s.interfaces index.toNat) else none

/-- The getter `get_interface_type`. -/
def get_interface_type (s : NetState) (index : Int) : String :=
  if index ≥ 0 ∧ index < s.interface_count then (s.interfaces index.toNat).interface_type
  else "Unknown"

/-- The getter `get_rx_history`, `none` for `NULL`. -/
def get_rx_history (s : NetState) (index : Int) : Option (Nat → ℚ) :=
  if index ≥ 0 ∧ index < s.interface_count then some (s.interfaces index.toNat).rx_history
  else none

/-- The getter `get_tx_history`, `none` for `NULL`. -/
def get_tx_history (s : NetState) (index : Int) : Option (Nat → ℚ) :=
  if index ≥ 0 ∧ index < s.interface_count then some (s.interfaces index.toNat).tx_history
  else none

/-- The getter `get_history_index` of the network collector. -/
def get_history_index (s : NetState) (index : Int) : Nat :=
  if index ≥ 0 ∧ index < s.interface_count then (s.interfaces index.toNat).history_index else 0

/-- The getter `get_mac_address`. -/
def get_mac_address (s : NetState) (index : Int) : String :=
  if index ≥ 0 ∧ index < s.interface_count then (s.interfaces index.toNat).mac_address
  else "N/A"

/-- The getter `get_mtu`. -/
def get_mtu (s : NetState) (index : Int) : Int :=
  if index ≥ 0 ∧ index < s.interface_count then (s.interfaces index.toNat).mtu else 0

/-- The getter `get_link_speed`. -/
def get_link_speed (s : NetState) (index : Int) : Int :=
  if index ≥ 0 ∧ index < s.interface_count then (s.interfaces index.toNat).link_speed_mbps
  else -1

/-! ## Disk collector (`src/disk/disk_data.c`) -/

/-- The constant `MAX_DISKS` of `disk_data.h`. -/
def MAX_DISKS : Nat := 8

/-- Multiplication of two 64-bit unsigned values: the C operator `*`,
wrapping. -/
def gmul (a b : Nat) : Nat := (a * b) % GULONG_RANGE

/-- The function `strstr` on character lists: the part of the haystack that
starts at the first occurrence of the needle, `none` for `NULL`. -/
def strstr : List Char → List Char → Option (List Char)
  | [], needle => if needle.isEmpty then some [] else none
  | c :: cs, needle =>
    if needle.isPrefixOf (c :: cs) then some (c :: cs) else strstr cs needle

/-- The copy loop `while (*pos && *pos != '"' && i < cap) buf[i++] = *pos++`:
the characters copied and the text `pos` is left at. -/
def copy_until_quote : List Char → Nat → List Char × List Char
  | [], _ => ([], [])
  | c :: cs, 0 => ([], c :: cs)
  | c :: cs, cap + 1 =>
    if c = '"' then ([], c :: cs)
    else ((c :: (copy_until_quote cs cap).1), (copy_until_quote cs cap).2)

/-- The struct `DiskInfo`. -/
structure DiskInfo where
  device_name : String
  mount_point : String
  fs_type : String
  total_space : Nat
  used_space : Nat
  free_space : Nat
  usage_percent : ℚ
  usage_history : Nat → ℚ
  history_index : Nat
  prev_read_bytes : Nat
  prev_write_bytes : Nat
  current_read_bytes : Nat
  current_write_bytes : Nat
  activity_percent : ℚ
  activity_history : Nat → ℚ
  activity_history_index : Nat

/-- A `DiskInfo` after `memset (&disks[i], 0, sizeof (DiskInfo))`. -/
def DiskInfo.zero : DiskInfo where
  device_name := ""
  mount_point := ""
  fs_type := ""
  total_space := 0
  used_space := 0
  free_space := 0
  usage_percent := 0
  usage_history := fun _ => 0
  history_index := 0
  prev_read_bytes := 0
  prev_write_bytes := 0
  current_read_bytes := 0
  current_write_bytes := 0
  activity_percent := 0
  activity_history := fun _ => 0
  activity_history_index := 0

/-- The static variables of `disk_data.c`: the arrays `disks` and
`disk_types` and `disk_count`. -/
structure DiskState where
  disks : Nat → DiskInfo
  disk_count : Nat
  disk_types : Nat → String

/-- The static initialisers of `disk_data.c`. -/
def disk_state_initial : DiskState := ⟨fun _ => DiskInfo.zero, 0, fun _ => ""⟩

/-- Lines 141 to 172 of `disk_data_init`: the type text of one disk after the
search of the `lsblk -d -o NAME,ROTA --json` output for its quoted name, its
`"rm":` flag and its `"rota":` flag. -/
def classify_disk_type (output : List Char) (device_name : String) (old_type : String) :
    String :=
  match strstr output ('"' :: device_name.data ++ ['"']) with
  | none => old_type
  | some pos =>
    let is_removable :=
      match strstr pos "\"rm\":".data with
      | some rm_pos => (strstr rm_pos "\"rm\":true".data).isSome
      | none => false
    match strstr pos "\"rota\":".data with
    | none => old_type
    | some rota_pos =>
      if (strstr rota_pos "\"rota\":true".data).isSome then
        if is_removable then "USB HDD" else "HDD"
      else if (strstr rota_pos "\"rota\":false".data).isSome then
        if is_removable then "USB Flash"
        else if has_prefix device_name "nvme" then "NVMe" else "SSD"
      else old_type

/-- The routine `disk_data_init`: `lsblk_rota` is the output of
`lsblk -d -o NAME,ROTA --json`, `none` when `popen` fails. The count is reset
and the slots are cleared first; the classification loop then runs for
`i < disk_count`. -/
def disk_data_init (_s : DiskState) (lsblk_rota : Option String) : DiskState :=
  let s0 : DiskState :=
    { disks := fun _ => DiskInfo.zero, disk_count := 0, disk_types := fun _ => "Unknown" }
  match lsblk_rota with
  | none => s0
  | some output =>
    (List.range s0.disk_count).foldl
      (fun st i =>
        { st with
          disk_types := arrSet st.disk_types i
            (classify_disk_type output.data (st.disks i).device_name (st.disk_types i)) })
      s0

/-- An entry of `/etc/mtab` as `getmntent` returns it. -/
structure MntEnt where
  mnt_fsname : String
  mnt_dir : String
  mnt_type : String
deriving DecidableEq, Repr

/-- The three fields of `struct statvfs` that `disk_data_update` uses. -/
structure StatVfs where
  f_blocks : Nat
  f_bfree : Nat
  f_frsize : Nat
deriving DecidableEq, Repr

/-- A line of `/proc/diskstats` for which `sscanf` matched all 14 fields:
the device name, `sectors_read` and `sectors_written`. -/
structure DiskStatLine where
  device_name : String
  sectors_read : Nat
  sectors_written : Nat
deriving DecidableEq, Repr

/-- What one `disk_data_update` reads: the output of
`lsblk -d -o NAME,SIZE,TYPE,FSTYPE,MOUNTPOINT,LABEL,RM --json` (`none` when
`popen` fails), the entries of `/etc/mtab` (`none` when `setmntent` fails),
the answer of `statvfs` for a path (`none` for a failure), and the lines of
`/proc/diskstats` (`none` when it cannot be opened). -/
structure DiskTick where
  lsblk : Option String
  mtab : Option (List MntEnt)
  statvfs : String → Option StatVfs
  diskstats : Option (List DiskStatLine)

/-- The name part of the scanning loop of `disk_data_update` (lines 214 to
226): for every occurrence of `"name":` found from `pos` on, the extracted
disk name and the text `pos` points to afterwards. The fuel bounds the number
of iterations. -/
def lsblk_names_aux : Nat → List Char → List (String × List Char)
  | 0, _ => []
  | fuel + 1, pos =>
    match strstr pos "\"name\":".data with
    | none => []
    | some found =>
      let r : List Char × List Char :=
        match found.drop 8 with
        | '"' :: rest => copy_until_quote rest 63
        | other => ([], other)
      (String.mk r.1, r.2) :: lsblk_names_aux fuel r.2

/-- The occurrences of `"name":` after `devices_start`, with fuel for the
whole text. -/
def lsblk_names (devices_start : List Char) : List (String × List Char) :=
  lsblk_names_aux devices_start.length devices_start

/-- The pseudo filesystem types the mount table loop skips. -/
def is_pseudo_fs (mnt_type : String) : Bool :=
  mnt_type = "proc" || mnt_type = "sysfs" || mnt_type = "devtmpfs" || mnt_type = "devpts"
    || mnt_type = "tmpfs" || mnt_type = "debugfs" || mnt_type = "securityfs"
    || mnt_type = "fusectl" || mnt_type = "cgroup" || mnt_type = "cgroup2"
    || mnt_type = "pstore" || mnt_type = "efivarfs" || mnt_type = "autofs"

/-- The device name of a mount entry without a leading `/dev/`. -/
def mnt_dev_name (e : MntEnt) : String :=
  if has_prefix e.mnt_fsname "/dev/" then String.mk (e.mnt_fsname.data.drop 5)
  else e.mnt_fsname

/-- The test of line 332: the device of the mount entry starts with the disk
name. -/
def mnt_on_disk (disk_name : String) (e : MntEnt) : Bool :=
  has_prefix (mnt_dev_name e) disk_name

/-- The loop over the mount table (lines 301 to 349), from the pair
`(mount_point, fs_type)` it starts with to the pair it ends with. -/
def mtab_scan (disk_name : String) : List MntEnt → String × String → String × String
  | [], acc => acc
  | e :: es, acc =>
    if is_pseudo_fs e.mnt_type then mtab_scan disk_name es acc
    else if mnt_on_disk disk_name e then
      if e.mnt_dir = "/" || e.mnt_dir = "/home" then
        (c_strncpy e.mnt_dir 255, c_strncpy e.mnt_type 31)
      else if acc.1 = "/" then
        mtab_scan disk_name es (c_strncpy e.mnt_dir 255, c_strncpy e.mnt_type 31)
      else mtab_scan disk_name es acc
    else mtab_scan disk_name es acc

/-- The pair `(mount_point, fs_type)` after the extraction from the `lsblk`
text (lines 266 to 295): the defaults `"/"` and `"unknown"`, replaced by the
quoted values that follow `"mountpoint":` and `"fstype":` when both keys occur
after `pos`. -/
def lsblk_mount_info (pos : List Char) : String × String :=
  match strstr pos "\"fstype\":".data, strstr pos "\"mountpoint\":".data with
  | some fstype_pos, some mountpoint_pos =>
    let fs_type :=
      match fstype_pos.drop 10 with
      | '"' :: rest => String.mk (copy_until_quote rest 31).1
      | _ => "unknown"
    let mount_point :=
      match mountpoint_pos.drop 14 with
      | '"' :: rest => String.mk (copy_until_quote rest 255).1
      | _ => "/"
    (mount_point, fs_type)
  | _, _ => ("/", "unknown")

/-- Lines 265 to 351: the mount point and filesystem type found for a
disk. -/
def find_mount_point (disk_name : String) (pos : List Char) (mtab : Option (List MntEnt)) :
    String × String :=
  match mtab with
  | none => lsblk_mount_info pos
  | some entries => mtab_scan disk_name entries (lsblk_mount_info pos)

/-- Lines 356 to 381: the slot `disks[disk_count]` after a successful
`statvfs`. -/
def disk_slot_fill (d : DiskInfo) (disk_name mount_point fs_type : String) (st : StatVfs) :
    DiskInfo :=
  let total_space := gmul st.f_blocks st.f_frsize / (1024 * 1024)
  let free_space := gmul st.f_bfree st.f_frsize / (1024 * 1024)
  let used_space := gsub total_space free_space
  let usage_percent : ℚ :=
    if total_space > 0 then 100 * (used_space : ℚ) / (total_space : ℚ) else 0
  { d with
    device_name := c_strncpy disk_name 63
    mount_point := c_strncpy mount_point 255
    fs_type := c_strncpy fs_type 31
    total_space := total_space
    free_space := free_space
    used_space := used_space
    usage_percent := usage_percent
    usage_history := arrSet d.usage_history d.history_index usage_percent
    history_index := (d.history_index + 1) % MAX_POINTS }

/-- Whether the scanning loop treats the name as a physical disk (lines 231
to 259): not a loop, zram, device-mapper or optical device, and of type
`"disk"`, of a storage name, or removable; the three searches run from `pos`
to the end of the text. -/
def is_tracked_device (disk_name : String) (pos : List Char) : Bool :=
  if has_prefix disk_name "loop" || has_prefix disk_name "zram"
      || has_prefix disk_name "dm-" || has_prefix disk_name "sr" then false
  else
    let is_storage := has_prefix disk_name "sd" || has_prefix disk_name "nvme"
      || has_prefix disk_name "mmc" || has_prefix disk_name "vd" || has_prefix disk_name "hd"
    let is_removable :=
      match strstr pos "\"rm\":".data with
      | some rm_pos => (strstr rm_pos "\"rm\":true".data).isSome
      | none => false
    let type_is_disk :=
      match strstr pos "\"type\":".data with
      | some type_pos => (strstr type_pos "\"disk\"".data).isSome
      | none => false
    type_is_disk || is_storage || is_removable

/-- One iteration of the scanning loop of `disk_data_update` for a found
name: nothing once `disk_count` has reached `MAX_DISKS` (the loop has ended),
nothing for a device that is not tracked or whose `statvfs` fails, otherwise
the slot numbered `disk_count` is filled and the count grows. -/
def disk_scan_step (mtab : Option (List MntEnt)) (statvfs : String → Option StatVfs)
    (s : DiskState) (nm : String × List Char) : DiskState :=
  if s.disk_count < MAX_DISKS then
    if is_tracked_device nm.1 nm.2 then
      let m := find_mount_point nm.1 nm.2 mtab
      match statvfs m.1 with
      | some st =>
        { s with
          disks := arrSet s.disks s.disk_count
            (disk_slot_fill (s.disks s.disk_count) nm.1 m.1 m.2 st)
          disk_count := s.disk_count + 1 }
      | none => s
    else s
  else s

/-- Lines 45 to 89 of `read_disk_stats`: what a matching line of
`/proc/diskstats` does to the slot of the disk, whose type text is
`disk_type`. -/
def disk_activity_update (disk_type : String) (d : DiskInfo) (l : DiskStatLine) : DiskInfo :=
  let d1 : DiskInfo :=
    { d with
      prev_read_bytes := d.current_read_bytes
      prev_write_bytes := d.current_write_bytes
      current_read_bytes := gmul l.sectors_read 512
      current_write_bytes := gmul l.sectors_written 512 }
  if d1.prev_read_bytes > 0 ∨ d1.prev_write_bytes > 0 then
    let read_delta := if d1.current_read_bytes > d1.prev_read_bytes
      then gsub d1.current_read_bytes d1.prev_read_bytes else 0
    let write_delta := if d1.current_write_bytes > d1.prev_write_bytes
      then gsub d1.current_write_bytes d1.prev_write_bytes else 0
    let scale_factor : ℚ :=
      if disk_type = "SSD" then 2 / 10 else if disk_type = "NVMe" then 5 / 100 else 7 / 10
    let total_mb_per_sec : ℚ := ((gadd read_delta write_delta : Nat) : ℚ) / (1024 * 1024)
    let activity : ℚ := total_mb_per_sec * scale_factor
    let capped : ℚ := if activity > 100 then 100 else activity
    { d1 with
      activity_percent := capped
      activity_history := arrSet d1.activity_history d1.activity_history_index capped
      activity_history_index := (d1.activity_history_index + 1) % MAX_POINTS }
  else d1

/-- The inner loop of `read_disk_stats`: the first slot below `disk_count`
whose device name equals the name of the line. -/
def find_disk_slot (s : DiskState) (device_name : String) : Option Nat :=
  (List.range s.disk_count).find? (fun i => (s.disks i).device_name == device_name)

/-- The function `read_disk_stats`: `none` is a `/proc/diskstats` that cannot
be opened. -/
def read_disk_stats (s : DiskState) (file : Option (List DiskStatLine)) : DiskState :=
  match file with
  | none => s
  | some lines =>
    lines.foldl
      (fun st l =>
        match find_disk_slot st l.device_name with
        | some i =>
          { st with
            disks := arrSet st.disks i (disk_activity_update (st.disk_types i) (st.disks i) l) }
        | none => st)
      s

/-- The routine `disk_data_update`. -/
def disk_data_update (s : DiskState) (t : DiskTick) : DiskState :=
  -- Reset disk count
  let s0 : DiskState := { s with disk_count := 0 }
  match t.lsblk with
  | none => s0
  | some buffer =>
    match strstr buffer.data "\"blockdevices\"".data with
    | none => s0
    | some devices_start =>
      let s1 := (lsblk_names devices_start).foldl (disk_scan_step t.mtab t.statvfs) s0
      read_disk_stats s1 t.diskstats

/-- States reached by `disk_data_init` followed by `disk_data_update` ticks,
the order `create_disk_tab` uses. -/
inductive DiskAfterInit : DiskState → Prop
  | init (s : DiskState) (lsblk_rota : Option String) :
      DiskAfterInit (disk_data_init s lsblk_rota)
  | tick (s : DiskState) (t : DiskTick) :
      DiskAfterInit s → DiskAfterInit (disk_data_update s t)

/-- The getter `get_disk_count`. -/
def get_disk_count (s : DiskState) : Nat := s.disk_count

/-- The getter `get_disk_info`, `none` for `NULL`. -/
def get_disk_info (s : DiskState) (index : Int) : Option DiskInfo :=
  if index ≥ 0 ∧ index < s.disk_count then some (s.disks index.toNat) else none

/-- The getter `get_disk_size`. -/
def get_disk_size (s : DiskState) (index : Int) : Nat :=
  if index ≥ 0 ∧ index < s.disk_count then (s.disks index.toNat).total_space else 0

/-- The getter `get_disk_type`. -/
def get_disk_type (s : DiskState) (index : Int) : String :=
  if index ≥ 0 ∧ index < s.disk_count then s.disk_types index.toNat else "Unknown"

/-- The getter `get_current_disk_usage_percent`. -/
def get_current_disk_usage_percent (s : DiskState) (index : Int) : ℚ :=
  if index ≥ 0 ∧ index < s.disk_count then (s.disks index.toNat).usage_percent else 0

/-- The getter `get_disk_usage_history`, `none` for `NULL`. -/
def get_disk_usage_history (s : DiskState) (index : Int) : Option (Nat → ℚ) :=
  if index ≥ 0 ∧ index < s.disk_count then some (s.disks index.toNat).usage_history else none

/-- The getter `get_disk_usage_history_index`. -/
def get_disk_usage_history_index (s : DiskState) (index : Int) : Nat :=
  if index ≥ 0 ∧ index < s.disk_count then (s.disks index.toNat).history_index else 0

/-- The getter `get_current_disk_activity_percent`. -/
def get_current_disk_activity_percent (s : DiskState) (index : Int) : ℚ :=
  if index ≥ 0 ∧ index < s.disk_count then (s.disks index.toNat).activity_percent else 0

/-- The getter `get_disk_activity_history`, `none` for `NULL`. -/
def get_disk_activity_history (s : DiskState) (index : Int) : Option (Nat → ℚ) :=
  if index ≥ 0 ∧ index < s.disk_count then some (s.disks index.toNat).activity_history
  else none

/-- The getter `get_disk_activity_history_index`. -/
def get_disk_activity_history_index (s : DiskState) (index : Int) : Nat :=
  if index ≥ 0 ∧ index < s.disk_count then (s.disks index.toNat).activity_history_index
  else 0

/-! ## GPU collector (`src/gpu/gpu_data.c`) -/

/-- The constant `MAX_GPUS` of `gpu_data.c`. -/
def MAX_GPUS : Nat := 8

/-- The constant `GPU_MAX_POINTS` of `gpu_data.h`. -/
def GPU_MAX_POINTS : Nat := 60

/-- The function `strchr`: the text from the first occurrence of the
character on, `none` for `NULL`. -/
def strchr : List Char → Char → Option (List Char)
  | [], _ => none
  | x :: xs, c => if x = c then some (x :: xs) else strchr xs c

/-- The function `isspace` of the C locale: blank, tab, line feed, vertical
tab, form feed, carriage return. -/
def c_isspace (c : Char) : Bool :=
  c = ' ' || c = '\t' || c = '\n' || c = Char.ofNat 11 || c = Char.ofNat 12 || c = '\r'

/-- The function `trim_newline`: trailing line feeds and carriage returns are
cut off. -/
def trim_newline (s : List Char) : List Char :=
  s.rdropWhile (fun c => c = '\n' || c = '\r')

/-- The assignment `*p = '\0'` through a pointer `p` into the text `s`, where
`found` is the text `p` points to: what is left of `s`. -/
def cut_at (s found : List Char) : List Char := s.take (s.length - found.length)

/-- The loop `while (*digits && !isdigit (*digits)) digits++`. -/
def skip_to_digit (model : List Char) : List Char :=
  model.dropWhile (fun c => !c.isDigit)

/-- The effect of `snprintf (s, 128, ...)`: at most 127 characters of the
formatted text are kept. -/
def snprintf128 (text : List Char) : List Char := text.take 127

/-- The effect of `snprintf (gpu->name, sizeof (gpu->name), ...)` on the
256-byte name: at most 255 characters are kept. -/
def snprintf256 (text : List Char) : List Char := text.take 255

/-- Lines 105 to 157 of `shorten_gpu_name`: the concise name formatted from
the vendor found in the text and the bracketed model. -/
def concise_gpu_name (vendor model : List Char) : List Char :=
  if vendor.length > 0 then
    if vendor = "NVIDIA".data then
      if (strstr model "GeForce".data).isSome || (strstr model "Quadro".data).isSome
          || (strstr model "Tesla".data).isSome || (strstr model "RTX".data).isSome
          || (strstr model "GTX".data).isSome then
        snprintf128 ("NVIDIA ".data ++ model)
      else if skip_to_digit model ≠ [] then
        snprintf128 ("NVIDIA GeForce ".data ++ skip_to_digit model)
      else snprintf128 ("NVIDIA ".data ++ model)
    else if vendor = "AMD".data then
      if (strstr model "Radeon".data).isSome then snprintf128 ("AMD ".data ++ model)
      else if (strstr model "RX".data).isSome || (strstr model "Vega".data).isSome then
        snprintf128 ("AMD Radeon ".data ++ model)
      else if skip_to_digit model ≠ [] then
        snprintf128 ("AMD Radeon ".data ++ skip_to_digit model)
      else snprintf128 ("AMD ".data ++ model)
    else snprintf128 ("Intel ".data ++ model)
  else snprintf128 model

/-- The function `shorten_gpu_name` on the text of the buffer. -/
def shorten_gpu_name (s : List Char) : List Char :=
  -- Remove leading slot id and descriptor upto ':'
  let s1 : List Char :=
    match strchr s ':' with
    | some (_ :: ' ' :: rest) => rest
    | _ => s
  -- Remove descriptors like "VGA compatible controller" if still present
  let s2 : List Char :=
    if "VGA compatible controller".data.isPrefixOf s1 then
      match strstr s1 "NVIDIA".data with
      | some after => after
      | none =>
        match strstr s1 "AMD".data with
        | some after => after
        | none =>
          match strstr s1 "Advanced Micro Devices".data with
          | some after => after
          | none => s1
    else s1
  -- Extract model information from brackets and create a concise name
  let s3 : List Char :=
    match strchr s2 '[' with
    | none => s2
    | some bracket =>
      match strchr bracket ']' with
      | none => s2
      | some end_pos =>
        let len := bracket.length - end_pos.length - 1
        if len < 128 then
          let model := (bracket.drop 1).take len
          let vendor : List Char :=
            if (strstr s2 "NVIDIA".data).isSome then "NVIDIA".data
            else if (strstr s2 "AMD".data).isSome || (strstr s2 "ATI".data).isSome then
              "AMD".data
            else if (strstr s2 "Intel".data).isSome then "Intel".data
            else []
          concise_gpu_name vendor model
        else s2
  -- Remove trailing revision/parentheses
  let s4 : List Char :=
    match strchr s3 '(' with
    | some par => cut_at s3 par
    | none => s3
  -- Trim whitespace, trim trailing spaces
  (trim_newline s4).rdropWhile (fun c => c = ' ')

/-- The struct `GPUInfo`. -/
structure GPUInfo where
  name : String
  vendor : String
  driver_version : String
  usage_percent : ℚ
  vram_used_mb : ℚ
  vram_total_mb : ℚ
  vram_usage_percent : ℚ
  usage_history : Nat → ℚ
  vram_history : Nat → ℚ
  history_index : Nat
  gpu_id : Int

/-- A `GPUInfo` after `memset (.., 0, sizeof (GPUInfo))`. -/
def GPUInfo.zero : GPUInfo where
  name := ""
  vendor := ""
  driver_version := ""
  usage_percent := 0
  vram_used_mb := 0
  vram_total_mb := 0
  vram_usage_percent := 0
  usage_history := fun _ => 0
  vram_history := fun _ => 0
  history_index := 0
  gpu_id := 0

/-- The static variables of `gpu_data.c`: the array `gpu_infos` and
`gpu_count`. -/
structure GpuState where
  gpu_infos : Nat → GPUInfo
  gpu_count : Nat

/-- The static initialisers of `gpu_data.c`. -/
def gpu_state_initial : GpuState := ⟨fun _ => GPUInfo.zero, 0⟩

/-- A line of the `nvidia-smi --query-gpu=index,name,driver_version` output
for which `sscanf` matched all three fields. -/
structure NvidiaRow where
  index : Int
  name : String
  driver : String
deriving DecidableEq, Repr

/-- What the DRM loop of `gpu_data_init` finds for `/sys/class/drm/card<i>`:
whether `device/driver` exists, the target `readlink` returns for it (`none`
for a failure), and the text `fgets` reads from `device/product` (`none` when
the file cannot be opened or is empty). -/
structure DrmCard where
  driver_exists : Bool
  driver_link : Option String
  product : Option String
deriving DecidableEq, Repr

/-- What the probes of `gpu_data_init` and `get_intel_gpu_info` return. A
command output is the text `fgets` stores for its first line, `none` when
`popen` fails or nothing is printed.

* `nvidia_smi`: the lines of the `nvidia-smi` list query, each with the row
  `sscanf` parsed from it (`none` for a line it did not match); `none` when
  `popen` fails.
* `drm_count`: the number `fscanf` reads from the `ls ... | wc -l` pipe.
* `drm_card i`: the files of card `i`.
* `amdgpu_version`: the first line of `/sys/module/amdgpu/version`.
* `glx_renderer`, `glx_version`: the two `glxinfo` pipes of `gpu_data_init`.
* `lspci_intel`: `lspci -d 8086: -nn | grep -i 'VGA\|Display' | head -n1`.
* `pci_ids id`: `grep -i '<id>' /usr/share/hwdata/pci.ids | head -n1`.
* `modinfo_i915`, `dmesg_i915`, `glx_version_intel`: the three driver version
  pipes of `get_intel_gpu_info`.
* `lspci_vga`: `lspci -nn | grep -i ' vga ' | head -n1`. -/
structure GpuProbes where
  nvidia_smi : Option (List (Option NvidiaRow))
  drm_count : Option Int
  drm_card : Nat → DrmCard
  amdgpu_version : Option String
  glx_renderer : Option String
  glx_version : Option String
  lspci_intel : Option String
  pci_ids : String → Option String
  modinfo_i915 : Option String
  dmesg_i915 : Option String
  glx_version_intel : Option String
  lspci_vga : Option String

/-- The assignments `usage_history[i] = 0.0`, `vram_history[i] = 0.0` for
every slot and `history_index = 0` (the block "Init history"). -/
def GPUInfo.init_history (g : GPUInfo) : GPUInfo :=
  { g with usage_history := fun _ => 0, vram_history := fun _ => 0, history_index := 0 }

/-- The name part of `get_intel_gpu_info` (lines 183 to 242), run when the
`lspci` pipe printed `text`. -/
def intel_gpu_name (p : GpuProbes) (name : String) (text : String) : String :=
  let line := trim_newline (text.data.take 255)
  -- Extract the device ID; `*end = '\0'` cuts the line as well
  let line1 : List Char :=
    match strstr line "[8086:".data with
    | some found =>
      match strchr (found.drop 6) ']' with
      | some end_pos => cut_at line end_pos
      | none => line
    | none => line
  let name1 : String :=
    match strstr line "[8086:".data with
    | some found =>
      let device_id := (found.drop 6).takeWhile (fun c => c ≠ ']')
      match p.pci_ids (String.mk device_id) with
      | some pci_name =>
        let start := (trim_newline (pci_name.data.take 255)).dropWhile c_isspace
        if start ≠ [] then String.mk (snprintf256 ("Intel ".data ++ start)) else name
      | none => name
    | none => name
  -- If we still don't have a good name, use the original line
  if name1.length < 5 then
    let line2 : List Char :=
      match strstr line1 "VGA".data with
      | some vga_pos => cut_at line1 vga_pos
      | none => line1
    let line3 : List Char :=
      match strstr line2 "Display".data with
      | some display_pos => cut_at line2 display_pos
      | none => line2
    match strchr line3 ':' with
    | some colon =>
      if (colon.drop 1).dropWhile c_isspace ≠ [] then
        String.mk (snprintf256 ("Intel ".data ++ (colon.drop 1).dropWhile c_isspace))
      else "Intel GPU"
    | none => "Intel GPU"
  else name1

/-- The copy `strncpy (gpu->driver_version, ver, 63)` followed by
`trim_newline`. -/
def driver_version_of (ver : List Char) : String := String.mk (trim_newline (ver.take 63))

/-- The driver version part of `get_intel_gpu_info` (lines 244 to 301). -/
def intel_driver_version (p : GpuProbes) (driver_version : String) : String :=
  let v1 : String :=
    match p.modinfo_i915 with
    | some line =>
      match strstr (line.data.take 255) "version:".data with
      | some ver =>
        if (ver.drop 8).dropWhile c_isspace ≠ [] then
          driver_version_of ((ver.drop 8).dropWhile c_isspace)
        else driver_version
      | none => driver_version
    | none => driver_version
  -- If we still don't have a driver version, try dmesg
  let v2 : String :=
    if v1.length = 0 then
      match p.dmesg_i915 with
      | some line =>
        match strstr (line.data.take 511) "i915".data with
        | some ver => driver_version_of ver
        | none => v1
      | none => v1
    else v1
  -- If we still don't have a driver version, try glxinfo
  let v3 : String :=
    if v2.length = 0 then
      match p.glx_version_intel with
      | some line =>
        match strstr (line.data.take 255) "OpenGL version string:".data with
        | some ver =>
          if (ver.drop 22).dropWhile c_isspace ≠ [] then
            driver_version_of ((ver.drop 22).dropWhile c_isspace)
          else v2
        | none => v2
      | none => v2
    else v2
  -- Default if we still don't have a driver version
  if v3.length = 0 then "-" else v3

/-- The function `get_intel_gpu_info`. -/
def get_intel_gpu_info (p : GpuProbes) (gpu : GPUInfo) : GPUInfo :=
  { gpu with
    name := match p.lspci_intel with
      | some text => intel_gpu_name p gpu.name text
      | none => gpu.name
    driver_version := intel_driver_version p gpu.driver_version }

/-- Lines 318 to 330: the slot `gpu_infos[gpu_count]` as the `nvidia-smi` loop
fills it from a parsed row. -/
def nvidia_slot_fill (gpu : GPUInfo) (r : NvidiaRow) : GPUInfo :=
  ({ gpu with
      gpu_id := r.index
      name := c_strncpy r.name 255
      vendor := "NVIDIA"
      driver_version := c_strncpy r.driver 63 } : GPUInfo).init_history

/-- One iteration of the `nvidia-smi` loop of `gpu_data_init` (lines 312 to
334): nothing once `gpu_count` has reached `MAX_GPUS` (the loop has ended) and
nothing for a line `sscanf` did not match. -/
def gpu_nvidia_step (s : GpuState) (row : Option NvidiaRow) : GpuState :=
  if s.gpu_count < MAX_GPUS then
    match row with
    | some r =>
      { gpu_infos := arrSet s.gpu_infos s.gpu_count
          (nvidia_slot_fill (s.gpu_infos s.gpu_count) r)
        gpu_count := s.gpu_count + 1 }
    | none => s
  else s

/-- Lines 308 to 336: the `nvidia-smi` stage of `gpu_data_init`. -/
def gpu_init_nvidia (p : GpuProbes) (s : GpuState) : GpuState :=
  match p.nvidia_smi with
  | some lines => lines.foldl gpu_nvidia_step s
  | none => s

/-- The function `get_basename` for a buffer of `buffer_size` bytes: what
follows the last slash, cut to the buffer. -/
def get_basename (path : List Char) (buffer_size : Nat) : List Char :=
  ((path.reverse.takeWhile (fun c => c ≠ '/')).reverse).take (buffer_size - 1)

/-- Lines 368 to 416: the slot `gpu_infos[gpu_count]` as the DRM loop fills
it for card `i`, whose driver link ends in `driver`. -/
def drm_slot_fill (p : GpuProbes) (gpu : GPUInfo) (i : Nat) (driver : String) : GPUInfo :=
  -- Try to get model name
  let g1 : GPUInfo :=
    { gpu with
      gpu_id := i
      name := match (p.drm_card i).product with
        | some line => String.mk (trim_newline (line.data.take 255))
        | none => String.mk (snprintf256 (driver.data ++ " GPU ".data ++ (toString i).data)) }
  -- Set vendor based on driver
  let g2 : GPUInfo :=
    if driver = "amdgpu" then
      { g1 with
        vendor := "AMD"
        driver_version := match p.amdgpu_version with
          | some line => String.mk (trim_newline (line.data.take 63))
          | none => "-" }
    else if driver = "i915" then get_intel_gpu_info p { g1 with vendor := "Intel" }
    else { g1 with vendor := driver, driver_version := "-" }
  g2.init_history

/-- One iteration of the DRM loop of `gpu_data_init` (lines 345 to 420) for
card `i`: nothing once `gpu_count` has reached `MAX_GPUS` (the loop has
ended), nothing for a card without a driver link or with an empty driver
name. -/
def gpu_drm_step (p : GpuProbes) (s : GpuState) (i : Nat) : GpuState :=
  if s.gpu_count < MAX_GPUS then
    -- Check if the driver path exists
    if (p.drm_card i).driver_exists then
      -- Read the symlink target
      match (p.drm_card i).driver_link with
      | none => s
      | some real_path =>
        -- Extract driver name from path
        if (String.mk (get_basename (real_path.data.take 511) 64)).length > 0 then
          { gpu_infos := arrSet s.gpu_infos s.gpu_count
              (drm_slot_fill p (s.gpu_infos s.gpu_count) i
                (String.mk (get_basename (real_path.data.take 511) 64)))
            gpu_count := s.gpu_count + 1 }
        else s
    else s
  else s

/-- Lines 338 to 424: the DRM stage of `gpu_data_init`, entered whenever
`gpu_count < MAX_GPUS`. -/
def gpu_init_drm (p : GpuProbes) (s : GpuState) : GpuState :=
  if s.gpu_count < MAX_GPUS then
    match p.drm_count with
    | some count => (List.range count.toNat).foldl (gpu_drm_step p) s
    | none => s
  else s

/-- The vendor the `glxinfo` stage derives from the renderer name (lines 444
to 454). -/
def glx_vendor (name : List Char) : String :=
  if (strstr name "NVIDIA".data).isSome then "NVIDIA"
  else if (strstr name "AMD".data).isSome || (strstr name "ATI".data).isSome
      || (strstr name "Radeon".data).isSome then "AMD"
  else if (strstr name "Intel".data).isSome then "Intel"
  else "Unknown"

/-- Lines 434 to 482: the slot `gpu_infos[gpu_count]` as the `glxinfo` stage
fills it, `found` being the text from `OpenGL renderer string:` on. -/
def glx_slot_fill (p : GpuProbes) (gpu : GPUInfo) (found : List Char) : GPUInfo :=
  let renderer := (found.drop 23).dropWhile (fun c => c = ' ')
  let name := trim_newline (renderer.take 255)
  let g1 : GPUInfo := { gpu with gpu_id := 0, name := String.mk name }
  -- Determine vendor from renderer string
  let g2 : GPUInfo :=
    if glx_vendor name = "Intel" then get_intel_gpu_info p { g1 with vendor := "Intel" }
    else { g1 with vendor := glx_vendor name }
  -- Try to get driver version
  let g3 : GPUInfo :=
    { g2 with
      driver_version := match p.glx_version with
        | some vline =>
          match strstr (vline.data.take 255) "OpenGL version string:".data with
          | some version =>
            driver_version_of ((version.drop 22).dropWhile (fun c => c = ' '))
          | none => "-"
        | none => "-" }
  g3.init_history

/-- Lines 426 to 489: the `glxinfo` stage of `gpu_data_init`, entered if no
GPU was found. -/
def gpu_init_glx (p : GpuProbes) (s : GpuState) : GpuState :=
  if s.gpu_count = 0 then
    match p.glx_renderer with
    | none => s
    | some line =>
      match strstr (line.data.take 255) "OpenGL renderer string:".data with
      | none => s
      | some found =>
        { gpu_infos := arrSet s.gpu_infos s.gpu_count
            (glx_slot_fill p (s.gpu_infos s.gpu_count) found)
          gpu_count := s.gpu_count + 1 }
  else s

/-- Lines 495 to 508: the slot `gpu_infos[0]` as the Intel `lspci` stage
fills it from the line read into the name. -/
def lspci_intel_slot_fill (p : GpuProbes) (gpu : GPUInfo) (line : String) : GPUInfo :=
  (get_intel_gpu_info p
    { gpu with
      name := String.mk (trim_newline (line.data.take 255))
      vendor := "Intel"
      gpu_id := 0 }).init_history

/-- Lines 491 to 514: the Intel `lspci` stage of `gpu_data_init`. -/
def gpu_init_lspci_intel (p : GpuProbes) (s : GpuState) : GpuState :=
  if s.gpu_count = 0 then
    match p.lspci_intel with
    | none => s
    | some line =>
      { gpu_infos := arrSet s.gpu_infos 0 (lspci_intel_slot_fill p (s.gpu_infos 0) line)
        gpu_count := 1 }
  else s

/-- The vendor the `lspci` fallback derives from the shortened name (lines 525
to 535). -/
def lspci_vendor (name : List Char) : String :=
  if (strstr name "NVIDIA".data).isSome then "NVIDIA"
  else if (strstr name "AMD".data).isSome || (strstr name "Radeon".data).isSome then "AMD"
  else if (strstr name "Intel".data).isSome then "Intel"
  else "Unknown"

/-- Lines 520 to 545: the slot `gpu_infos[0]` as the `lspci` fallback fills
it from the line read into the name. -/
def lspci_slot_fill (p : GpuProbes) (gpu : GPUInfo) (line : String) : GPUInfo :=
  let name := shorten_gpu_name (trim_newline (line.data.take 255))
  let g1 : GPUInfo := { gpu with name := String.mk name }
  -- Determine vendor
  let g2 : GPUInfo :=
    if lspci_vendor name = "Intel" then get_intel_gpu_info p { g1 with vendor := "Intel" }
    else { g1 with vendor := lspci_vendor name }
  ({ g2 with driver_version := "-", gpu_id := 0 } : GPUInfo).init_history

/-- Lines 516 to 551: the `lspci` fallback of `gpu_data_init`. -/
def gpu_init_lspci (p : GpuProbes) (s : GpuState) : GpuState :=
  if s.gpu_count = 0 then
    match p.lspci_vga with
    | none => s
    | some line =>
      { gpu_infos := arrSet s.gpu_infos 0 (lspci_slot_fill p (s.gpu_infos 0) line)
        gpu_count := 1 }
  else s

/-- Lines 553 to 568: the final fallback of `gpu_data_init`, a dummy GPU. -/
def gpu_init_dummy (s : GpuState) : GpuState :=
  if s.gpu_count = 0 then
    { gpu_infos := arrSet s.gpu_infos 0
        ({ (s.gpu_infos 0) with
            name := "Unknown GPU"
            vendor := "Unknown"
            driver_version := "-"
            gpu_id := 0 } : GPUInfo).init_history
      gpu_count := 1 }
  else s

/-- Lines 570 to 573: `shorten_gpu_name` applied to every tracked GPU. -/
def gpu_shorten_names (s : GpuState) : GpuState :=
  { s with
    gpu_infos := fun i =>
      if i < s.gpu_count then
        { (s.gpu_infos i) with name := String.mk (shorten_gpu_name (s.gpu_infos i).name.data) }
      else s.gpu_infos i }

/-- The routine `gpu_data_init`: the array is cleared, the count reset, and
the stages run in the order of the source. -/
def gpu_data_init (_s : GpuState) (p : GpuProbes) : GpuState :=
  gpu_shorten_names (gpu_init_dummy (gpu_init_lspci p (gpu_init_lspci_intel p
    (gpu_init_glx p (gpu_init_drm p (gpu_init_nvidia p ⟨fun _ => GPUInfo.zero, 0⟩))))))

/-- The routine `gpu_data_cleanup`. -/
def gpu_data_cleanup (_s : GpuState) : GpuState := ⟨fun _ => GPUInfo.zero, 0⟩

/-- The four numbers `fscanf` reads from the per-GPU `nvidia-smi` query,
without the index. -/
structure NvidiaSample where
  util : Int
  mem_total : Int
  mem_used : Int
deriving DecidableEq, Repr

/-- The numbers `fscanf ("%lf")` reads from `gpu_busy_percent`,
`mem_info_vram_used` and `mem_info_vram_total` of a card, `none` for a file
that cannot be opened or holds no number. -/
structure AmdSysfs where
  gpu_busy_percent : Option ℚ
  mem_info_vram_used : Option ℚ
  mem_info_vram_total : Option ℚ
deriving DecidableEq

/-- What one `gpu_data_update` reads.

* `nvidia_smi id`: the numbers of the query for `--id=<id>`, `none` when
  `popen` fails or `fscanf` does not match four numbers.
* `amd_sysfs card`: the three sysfs files of the card.
* `intel_gpu_top`: the lines of the `intel_gpu_top -J` pipe, `none` when
  `popen` fails.
* `free_mem`: the two numbers of the `Mem:` line of `free -m`, `none` when
  the pipe gives no such line.
* `proc_meminfo`: `MemTotal` and `MemAvailable` of `/proc/meminfo` in kB (0
  for a missing line), `none` when the file cannot be opened. -/
structure GpuTick where
  nvidia_smi : Int → Option NvidiaSample
  amd_sysfs : Int → AmdSysfs
  intel_gpu_top : Option (List String)
  free_mem : Option (Nat × Nat)
  proc_meminfo : Option (Nat × Nat)

/-- The function `read_double_from_file`: the value starts at 0.0 and stays
there when the file cannot be opened or `fscanf` reads no number. -/
def read_double_from_file (file : Option ℚ) (divisor : ℚ) : ℚ :=
  (match file with
    | some value => value
    | none => 0) / divisor

/-- The conversion `(guint64) x` of a `gdouble`: the integral part for
`0 ≤ x < 2 ^ 64`. C leaves the conversion of other values undefined; the model
takes 0 for a negative value and wraps a large one. -/
def guint64_of_double (x : ℚ) : Nat :=
  if x < 0 then 0 else (Rat.floor x).toNat % GULONG_RANGE

/-- The function `update_from_amd_sysfs`. -/
def update_from_amd_sysfs (gpu : GPUInfo) (files : AmdSysfs) : GPUInfo :=
  let vram_used_kb := guint64_of_double (read_double_from_file files.mem_info_vram_used 1024)
  let vram_total_kb := guint64_of_double (read_double_from_file files.mem_info_vram_total 1024)
  let vram_used_mb : ℚ := (vram_used_kb : ℚ) / 1024
  let vram_total_mb : ℚ := (vram_total_kb : ℚ) / 1024
  { gpu with
    usage_percent := read_double_from_file files.gpu_busy_percent 1
    vram_used_mb := vram_used_mb
    vram_total_mb := vram_total_mb
    vram_usage_percent :=
      if vram_total_mb > 0 then 100 * vram_used_mb / vram_total_mb else 0 }

/-- The function `update_from_nvidia_smi`. -/
def update_from_nvidia_smi (gpu : GPUInfo) (query : Option NvidiaSample) : GPUInfo :=
  match query with
  | none => gpu
  | some q =>
    { gpu with
      usage_percent := (q.util : ℚ)
      vram_total_mb := (q.mem_total : ℚ)
      vram_used_mb := (q.mem_used : ℚ)
      vram_usage_percent :=
        if q.mem_total > 0 then 100 * (q.mem_used : ℚ) / (q.mem_total : ℚ) else 0 }

/-- The function `strtod` on decimal texts: leading white space, an optional
sign, digits, optionally a point and further digits; 0 when no digit follows.
Exponents, hexadecimal forms, infinities and NaN are not part of the model. -/
def strtod (text : List Char) : ℚ :=
  let t := text.dropWhile c_isspace
  let neg : Bool := match t with
    | '-' :: _ => true
    | _ => false
  let t1 : List Char := match t with
    | '-' :: r => r
    | '+' :: r => r
    | r => r
  let whole := scan_digits t1 0
  let v : ℚ := match whole.2 with
    | '.' :: cs =>
      (whole.1 : ℚ) + ((scan_digits cs 0).1 : ℚ) / (10 : ℚ) ^ (cs.length - (scan_digits cs 0).2.length)
    | _ => (whole.1 : ℚ)
  if neg then -v else v

/-- The first loop of `update_from_intel_gpu_top` (lines 629 to 643): the
number after `"busy":` behind `"render"` in the first line that holds
`"engines"`, `none` when nothing is assigned. -/
def intel_render_busy (lines : List String) : Option ℚ :=
  match lines.find? (fun l => (strstr (l.data.take 1023) "\"engines\"".data).isSome) with
  | none => none
  | some line =>
    match strstr (line.data.take 1023) "\"render\"".data with
    | none => none
    | some render =>
      match strstr render "\"busy\"".data with
      | none => none
      | some busy => some (strtod (busy.drop 7))

/-- The function `update_from_intel_gpu_top`. In the last branch the source
divides by `vram_total_mb` without a test; for `MemTotal` below 1024 kB that
is a division by zero, which the rational quotient does not represent. -/
def update_from_intel_gpu_top (gpu : GPUInfo) (t : GpuTick) : GPUInfo :=
  -- Try to get Intel GPU usage from intel_gpu_top if available
  let g1 : GPUInfo :=
    match t.intel_gpu_top with
    | some lines =>
      match intel_render_busy lines with
      | some busy => { gpu with usage_percent := busy }
      | none => gpu
    | none => gpu
  -- Try to get memory info
  let g2 : GPUInfo :=
    match t.free_mem with
    | some (total, used) =>
      { g1 with
        vram_total_mb := (total : ℚ)
        vram_used_mb := (used : ℚ)
        vram_usage_percent := if total > 0 then 100 * (used : ℚ) / (total : ℚ) else 0 }
    | none => g1
  -- If we couldn't get VRAM info, try to estimate from /proc/meminfo
  if g2.vram_total_mb = 0 then
    match t.proc_meminfo with
    | some (total, available) =>
      if total > 0 then
        { g2 with
          vram_total_mb := ((total / 1024 : Nat) : ℚ)
          vram_used_mb := ((gsub total available / 1024 : Nat) : ℚ)
          vram_usage_percent :=
            100 * ((gsub total available / 1024 : Nat) : ℚ) / ((total / 1024 : Nat) : ℚ) }
      else g2
    | none => g2
  else g2

/-- The test that keeps the last branch of `update_from_intel_gpu_top` away
from a division by zero. -/
def GpuTick.meminfo_divides (t : GpuTick) : Prop :=
  ∀ total available : Nat, t.proc_meminfo = some (total, available) →
    total = 0 ∨ 1024 ≤ total

/-- Lines 697 to 710 of `gpu_data_update`: the update method chosen by the
vendor. -/
def gpu_vendor_update (t : GpuTick) (gpu : GPUInfo) : GPUInfo :=
  if gpu.vendor = "NVIDIA" then update_from_nvidia_smi gpu (t.nvidia_smi gpu.gpu_id)
  else if gpu.vendor = "AMD" then update_from_amd_sysfs gpu (t.amd_sysfs gpu.gpu_id)
  else if gpu.vendor = "Intel" then update_from_intel_gpu_top gpu t
  else
    -- For other vendors, just set some dummy values
    { gpu with usage_percent := 0, vram_used_mb := 0, vram_total_mb := 0,
               vram_usage_percent := 0 }

/-- Lines 712 to 716 of `gpu_data_update`: the two tests that clamp a
percentage. -/
def gpu_clamp (x : ℚ) : ℚ :=
  let y : ℚ := if x < 0 then 0 else x
  if y > 100 then 100 else y

/-- The body of the loop of `gpu_data_update` for one GPU. -/
def gpu_update_one (t : GpuTick) (gpu : GPUInfo) : GPUInfo :=
  let g1 := gpu_vendor_update t gpu
  -- Clamp values
  let g2 : GPUInfo :=
    { g1 with
      usage_percent := gpu_clamp g1.usage_percent
      vram_usage_percent := gpu_clamp g1.vram_usage_percent }
  -- Update history
  { g2 with
    usage_history := arrSet g2.usage_history g2.history_index g2.usage_percent
    vram_history := arrSet g2.vram_history g2.history_index g2.vram_usage_percent
    history_index := (g2.history_index + 1) % GPU_MAX_POINTS }

/-- The routine `gpu_data_update`: the loop body runs for every `i` below
`gpu_count` and touches `gpu_infos[i]` only. -/
def gpu_data_update (s : GpuState) (t : GpuTick) : GpuState :=
  { s with
    gpu_infos := fun i => if i < s.gpu_count then gpu_update_one t (s.gpu_infos i)
      else s.gpu_infos i }

/-- The getter `gpu_get_count`. -/
def gpu_get_count (s : GpuState) : Nat := s.gpu_count

/-- The getter `gpu_get_info`, `none` for `NULL`. -/
def gpu_get_info (s : GpuState) (index : Int) : Option GPUInfo :=
  if index ≥ 0 ∧ index < s.gpu_count then some (s.gpu_infos index.toNat) else none

/-- States reached from the static initialisers by `gpu_data_init`,
`gpu_data_update` and `gpu_data_cleanup`, the ticks being those that satisfy
`ok`. -/
inductive GpuReachableBy (ok : GpuTick → Prop) : GpuState → Prop
  | initial : GpuReachableBy ok gpu_state_initial
  | init (s : GpuState) (p : GpuProbes) : GpuReachableBy ok s →
      GpuReachableBy ok (gpu_data_init s p)
  | update (s : GpuState) (t : GpuTick) : GpuReachableBy ok s → ok t →
      GpuReachableBy ok (gpu_data_update s t)
  | cleanup (s : GpuState) : GpuReachableBy ok s → GpuReachableBy ok (gpu_data_cleanup s)

/-- States reached with any ticks. -/
def GpuReachable (s : GpuState) : Prop := GpuReachableBy (fun _ => True) s

/-! ## CPU identity strings (`src/cpu/cpu_data.c`) -/

/-- The function `strtok`: the leading delimiters are skipped; nothing left
gives `none` (for `NULL`); otherwise the token up to the next delimiter, and
the text the next call `strtok (NULL, ..)` continues from, which starts behind
that delimiter and is empty when the token ran to the end of the text. -/
def strtok (s delims : List Char) : Option (List Char × List Char) :=
  match s.dropWhile (fun c => delims.contains c) with
  | [] => none
  | c :: cs =>
    some ((c :: cs).takeWhile (fun x => !delims.contains x),
      ((c :: cs).dropWhile (fun x => !delims.contains x)).drop 1)

/-- Lines 37 to 41 of `parse_cpuinfo` for one line `fgets` returned: the key
`strtok (line, "\t:")` and the value `strtok (NULL, "\n")` with its leading
blanks and tabs skipped, `none` when one of the two is `NULL`. -/
def cpuinfo_key_value (line : List Char) : Option (List Char × List Char) :=
  match strtok line "\t:".data with
  | none => none
  | some (key, rest) =>
    match strtok rest "\n".data with
    | none => none
    | some (value, _) => some (key, value.dropWhile (fun c => c = ' ' || c = '\t'))

/-- The eight cached identity strings of `cpu_data.c`, `none` for a `NULL`
pointer. -/
structure CpuIdentity where
  cpu_model : Option String
  cpu_cache_info : Option String
  cpu_architecture : Option String
  cpu_stepping : Option String
  cpu_family : Option String
  cpu_vendor_id : Option String
  cpu_bogomips : Option String
  cpu_address_sizes : Option String
deriving DecidableEq, Repr

/-- The static initialisers: every pointer is `NULL`. -/
def cpu_identity_initial : CpuIdentity := ⟨none, none, none, none, none, none, none, none⟩

/-- The body of the first loop of `parse_cpuinfo` (lines 37 to 49) for one
line. -/
def cpuinfo_line_step (st : CpuIdentity) (line : String) : CpuIdentity :=
  match cpuinfo_key_value line.data with
  | none => st
  | some (key, value) =>
    if has_prefix (String.mk key) "model name" && st.cpu_model.isNone then
      { st with cpu_model := some (String.mk value) }
    else if has_prefix (String.mk key) "vendor_id" && st.cpu_vendor_id.isNone then
      { st with cpu_vendor_id := some (String.mk value) }
    else if has_prefix (String.mk key) "cpu family" && st.cpu_family.isNone then
      { st with cpu_family := some (String.mk value) }
    else if has_prefix (String.mk key) "stepping" && st.cpu_stepping.isNone then
      { st with cpu_stepping := some (String.mk value) }
    else if has_prefix (String.mk key) "bogomips" && st.cpu_bogomips.isNone then
      { st with cpu_bogomips := some (String.mk value) }
    else if has_prefix (String.mk key) "address sizes" && st.cpu_address_sizes.isNone then
      { st with cpu_address_sizes := some (String.mk value) }
    else st

/-- The part of `parse_cpuinfo` that caches the identity strings (lines 32 to
51): `file` holds the texts `fgets` returns for `/proc/cpuinfo`, one per call,
and is `none` when the file cannot be opened. -/
def parse_cpuinfo (st : CpuIdentity) (file : Option (List String)) : CpuIdentity :=
  match file with
  | none => st
  | some lines => lines.foldl cpuinfo_line_step st

/-- The function `get_cache_info`: `index3` and `index2` are the two cache
size files, `none` for a file that cannot be opened, `some none` for one from
which `fgets` reads nothing, else the text `fgets` stores. -/
def get_cache_info (st : CpuIdentity) (index3 index2 : Option (Option String)) : CpuIdentity :=
  match (match index3 with
    | some fp => some fp
    | none => index2) with
  | some (some size_str) =>
    { st with
      cpu_cache_info :=
        some (String.mk ((size_str.data.take 31).takeWhile (fun c => !(c = '\n' || c = 'K')))) }
  | _ => st

/-- The function `get_architecture`: `uname_m` is the text `fgets` stores
from the `uname -m` pipe, `none` when `popen` fails or nothing is printed. -/
def get_architecture (st : CpuIdentity) (uname_m : Option String) : CpuIdentity :=
  match uname_m with
  | some arch_str =>
    { st with
      cpu_architecture :=
        some (String.mk ((arch_str.data.take 31).takeWhile (fun c => !(c = '\n')))) }
  | none => st

/-- What the identity part of `cpu_data_init` reads. -/
structure CpuIdentityFiles where
  cpuinfo : Option (List String)
  cache_index3 : Option (Option String)
  cache_index2 : Option (Option String)
  uname_m : Option String

/-- The calls `parse_cpuinfo (); get_cache_info (); get_architecture ();` of
`cpu_data_init`, as far as the identity strings go. -/
def cpu_data_init_identity (st : CpuIdentity) (files : CpuIdentityFiles) : CpuIdentity :=
  get_architecture
    (get_cache_info (parse_cpuinfo st files.cpuinfo) files.cache_index3 files.cache_index2)
    files.uname_m

/-- The getter `get_cpu_model`. -/
def get_cpu_model (st : CpuIdentity) : String := st.cpu_model.getD "N/A"

/-- The getter `get_cpu_cache_info`. -/
def get_cpu_cache_info (st : CpuIdentity) : String := st.cpu_cache_info.getD "N/A"

/-- The getter `get_cpu_architecture`. -/
def get_cpu_architecture (st : CpuIdentity) : String := st.cpu_architecture.getD "N/A"

/-- The getter `get_cpu_stepping`. -/
def get_cpu_stepping (st : CpuIdentity) : String := st.cpu_stepping.getD "N/A"

/-- The getter `get_cpu_family`. -/
def get_cpu_family (st : CpuIdentity) : String := st.cpu_family.getD "N/A"

/-- The getter `get_cpu_vendor_id`. -/
def get_cpu_vendor_id (st : CpuIdentity) : String := st.cpu_vendor_id.getD "N/A"

/-- The getter `get_cpu_bogomips`. -/
def get_cpu_bogomips (st : CpuIdentity) : String := st.cpu_bogomips.getD "N/A"

/-- The getter `get_cpu_address_sizes`. -/
def get_cpu_address_sizes (st : CpuIdentity) : String := st.cpu_address_sizes.getD "N/A"

/-- The value a line of `/proc/cpuinfo` offers for the key `lit`: the value
of the line when its key starts with `lit`. -/
def cpuinfo_field_value (lit : String) (line : String) : Option String :=
  match cpuinfo_key_value line.data with
  | some (key, value) => if has_prefix (String.mk key) lit then some (String.mk value) else none
  | none => none

/-! ## The history ring of the specification -/

/-- The push of the circular history buffer as the specification words it:
write the value into slot `write_index`, then
`write_index = (write_index + 1) % N`. A ring is the pair of the history
array and the write index. -/
def ring_push (r : (Nat → ℚ) × Nat) (v : ℚ) : (Nat → ℚ) × Nat :=
  (arrSet r.1 r.2 v, (r.2 + 1) % MAX_POINTS)

/-! ## Concrete samples used by the evaluations below -/

/-- A `/proc/stat` with the aggregate line and the line of core 0 holding the
same eight counters. -/
def stat_one_core (c : CpuTimes) : ProcStat :=
  ⟨some c, fun i => if i = 0 then some c else none⟩

/-- First of two samples on a virtual machine: 100 jiffies of steal time. -/
def steal_sample_before : CpuTimes := ⟨100, 0, 0, 800, 0, 0, 0, 100⟩

/-- Second sample: the hypervisor has taken the steal time back, so that
`idle + iowait` grew by 190 while the eight-field total grew by 100. -/
def steal_sample_after : CpuTimes := ⟨110, 0, 0, 990, 0, 0, 0, 0⟩

/-- The collector state after these two ticks on a one-thread machine. -/
def cpu_state_after_steal_drop : CpuState :=
  cpu_data_update
    (cpu_data_update (cpu_state_initial 1) (some (stat_one_core steal_sample_before)))
    (some (stat_one_core steal_sample_after))

/-- A sample with total 1000 of which 900 idle. -/
def busy_sample_before : CpuTimes := ⟨100, 0, 0, 900, 0, 0, 0, 0⟩

/-- The next sample: total 1100 of which 950 idle, half of the new 100
jiffies were busy. -/
def busy_sample_after : CpuTimes := ⟨150, 0, 0, 950, 0, 0, 0, 0⟩

/-- The seven values of a `MemInfo` fit a `gulong`. -/
def MemInfo.fits (m : MemInfo) : Prop :=
  m.mem_total < GULONG_RANGE ∧ m.mem_free < GULONG_RANGE ∧ m.mem_available < GULONG_RANGE ∧
  m.buffers < GULONG_RANGE ∧ m.cached < GULONG_RANGE ∧ m.swap_total_kb < GULONG_RANGE ∧
  m.swap_free_kb < GULONG_RANGE

instance (m : MemInfo) : Decidable m.fits := by
  unfold MemInfo.fits; infer_instance

/-- A `/proc/meminfo` whose `MemFree`, `Buffers` and `Cached` add up to more
than `MemTotal`: 16000 MB in total, 7812 MB free, 488 MB of buffers and
8789 MB of cache. -/
def meminfo_overcounted : MemInfo :=
  { mem_total := 16384000, mem_free := 8000000, mem_available := 9000000,
    buffers := 500000, cached := 9000000, swap_total_kb := 0, swap_free_kb := 0 }

/-- A `/proc/meminfo` whose `SwapFree` (2 MB) exceeds `SwapTotal` (1 MB). -/
def meminfo_swap_free_above_total : MemInfo :=
  { mem_total := 8388608, mem_free := 2097152, mem_available := 4194304,
    buffers := 0, cached := 1048576, swap_total_kb := 1024, swap_free_kb := 2048 }

/-- A `/proc/meminfo` of a machine with 100 MB of RAM of which `k` MB are
free, and 100 MB of swap of which `k` MB are free. -/
def meminfo_free_mb (k : Nat) : MemInfo :=
  { mem_total := 102400, mem_free := 1024 * k, mem_available := 1024 * k,
    buffers := 0, cached := 0, swap_total_kb := 102400, swap_free_kb := 1024 * k }

/-- Sixty-one meminfo samples of the 100 MB machine: `k` MB free at tick
`k`, for `k = 0 .. 60`. -/
def meminfo_draining : List MemInfo := (List.range 61).map meminfo_free_mb

/-- The counters at tick `k` of a machine that is busy for 10 jiffies out of
100 on odd ticks and for 60 out of 100 on even ticks. -/
def alternating_sample (k : Nat) : CpuTimes :=
  ⟨10 * k + 50 * (k / 2), 0, 0, 100 * (k + 1) - (10 * k + 50 * (k / 2)), 0, 0, 0, 0⟩

/-- One hundred and twenty-two ticks: the samples of ticks 0 to 120, then a
tick that reads the counters of tick 120 again (zero delta). -/
def ticks_ending_in_repeat : List ProcStat :=
  (List.range 121).map (fun k => stat_one_core (alternating_sample k))
    ++ [stat_one_core (alternating_sample 120)]

/-- Sixty-one ticks with growing counters. -/
def ticks_all_growing : List ProcStat :=
  (List.range 61).map (fun k => stat_one_core (alternating_sample (k + 1)))

/-- The state `activate` leaves before the first `update_apps_list`: an empty
table and a first reading of 1000 jiffies. -/
def apps_state_activated : AppsState :=
  { process_cpu_times_hash := some (fun _ => none)
    prev_total_system_jiffies := 1000
    apps_search_filter := ""
    tree_store := [] }

/-- A `/proc/stat` whose `cpu` line sums to `n` jiffies. -/
def stat_with_jiffies (n : Nat) : ProcStat := ⟨some ⟨n, 0, 0, 0, 0, 0, 0, 0⟩, fun _ => none⟩

/-- Process 42, `chrome`, first observed with `utime = 100`, `stime = 50`. -/
def chrome_first_seen : ProcEntry := ⟨42, "chrome", 100, 50, 2048, false⟩

/-- The same process one tick later with `utime = 150`, `stime = 80`. -/
def chrome_next_tick : ProcEntry := ⟨42, "chrome", 150, 80, 2048, false⟩

/-- The state after the tick that first lists process 42. -/
def apps_state_first_tick : AppsState :=
  update_apps_list apps_state_activated (some (stat_with_jiffies 1200))
    (some [chrome_first_seen])

/-- Process 42 read one tick after `chrome_first_seen` when `/proc/42/stat`
could not be read: `utime` and `stime` keep their initial zeros. -/
def chrome_stat_unreadable : ProcEntry := ⟨42, "chrome", 0, 0, 2048, false⟩

/-- Three processes named `chrome` and one named `bash`, as `/proc` lists
them. -/
def three_chromes : List ProcEntry :=
  [⟨100, "chrome", 110, 100, 1024, false⟩, ⟨150, "bash", 7, 3, 512, false⟩,
   ⟨200, "chrome", 220, 200, 2048, false⟩, ⟨300, "chrome", 330, 300, 3072, false⟩]

/-- A state in which the three `chrome` processes and `bash` have the
baselines of the previous tick, read at 1000 jiffies. -/
def apps_state_three_chromes : AppsState :=
  { process_cpu_times_hash := some (fun p =>
      if p = 100 then some ⟨100, 100, true⟩
      else if p = 150 then some ⟨7, 3, true⟩
      else if p = 200 then some ⟨200, 200, true⟩
      else if p = 300 then some ⟨300, 300, true⟩
      else none)
    prev_total_system_jiffies := 1000
    apps_search_filter := ""
    tree_store := [] }

/-- A line of `/proc/net/dev` for an interface whose adapter queries all
succeed. -/
def net_line (name : String) (rx tx : Nat) : NetDevLine :=
  ⟨name, rx, tx, some "00:11:22:33:44:55", some 1500, some 1000, false, some "192.168.1.2"⟩

/-- A first `/proc/net/dev`: `wlan0` alone, 1000000 bytes received. -/
def net_dev_wlan_only : List NetDevLine := [net_line "lo" 500 500, net_line "wlan0" 1000000 70000]

/-- The next `/proc/net/dev`: a USB network adapter `eth0` has appeared and is
listed before `wlan0`, which received 204800 bytes more (100 KB/s over the
2 seconds). -/
def net_dev_eth_then_wlan : List NetDevLine :=
  [net_line "lo" 500 500, net_line "eth0" 5096000 2000, net_line "wlan0" 1204800 70000]

/-- The text `lsblk --json` prints for one device: its name, type and
removable flag, with no filesystem of its own. -/
def lsblk_device (name type : String) (removable : Bool) : String :=
  "\x7b\"name\": \"" ++ name ++ "\", \"size\": \"931.5G\", \"type\": \"" ++ type
    ++ "\", \"fstype\": null, \"mountpoint\": null, \"label\": null, \"rm\": "
    ++ (if removable then "true" else "false") ++ "\x7d"

/-- The output of `lsblk --json` for a list of device texts. -/
def lsblk_output (devices : List String) : String :=
  "\x7b\"blockdevices\": [" ++ ", ".intercalate devices ++ "]\x7d"

/-- A mount table with the root filesystem on `sda2` and `/data` on
`sdb1`. -/
def mtab_root_and_data : List MntEnt :=
  [⟨"proc", "/proc", "proc"⟩, ⟨"/dev/sda2", "/", "ext4"⟩, ⟨"/dev/sdb1", "/data", "ext4"⟩]

/-- A mount table with the root filesystem on `sda2` and nothing of `sdb`. -/
def mtab_root_only : List MntEnt :=
  [⟨"proc", "/proc", "proc"⟩, ⟨"/dev/sda2", "/", "ext4"⟩]

/-- A `statvfs` that knows `/` (100 GiB, 40 GiB free) and `/data` (1 GiB with
the given number of free 4096-byte blocks). -/
def statvfs_with_data_free (bfree : Nat) (path : String) : Option StatVfs :=
  if path = "/" then some ⟨26214400, 10485760, 4096⟩
  else if path = "/data" then some ⟨262144, bfree, 4096⟩
  else none

/-- A tick that lists the disk `sdb` alone, with `/data` on it holding the
given number of free blocks and the given sector counters. -/
def tick_with_sdb (bfree sectors_read sectors_written : Nat) : DiskTick :=
  { lsblk := some (lsblk_output [lsblk_device "sdb" "disk" false])
    mtab := some mtab_root_and_data
    statvfs := statvfs_with_data_free bfree
    diskstats := some [⟨"sda", 500000, 300000⟩, ⟨"sdb", sectors_read, sectors_written⟩] }

/-- A tick during which `sdb` is unplugged: `lsblk` lists no device. -/
def tick_without_sdb : DiskTick :=
  { lsblk := some (lsblk_output [])
    mtab := some mtab_root_only
    statvfs := statvfs_with_data_free 0
    diskstats := some [⟨"sda", 500000, 300000⟩] }

/-- The state after `disk_data_init` and two ticks that list `sdb` half full,
its read counter growing by 40960 sectors (20 MiB) between them. -/
def disk_state_sdb_seen_twice : DiskState :=
  disk_data_update
    (disk_data_update (disk_data_init disk_state_initial (some (lsblk_output [])))
      (tick_with_sdb 131072 2048 2048))
    (tick_with_sdb 131072 43008 2048)

/-- The state after `sdb` was then absent for one tick and listed again, a
quarter full. -/
def disk_state_sdb_back : DiskState :=
  disk_data_update (disk_data_update disk_state_sdb_seen_twice tick_without_sdb)
    (tick_with_sdb 196608 43008 2048)

/-- A slot that tracks `sda`, classified `HDD`, after a tick that read 2048
sectors read and none written. -/
def hdd_slot_before : DiskInfo :=
  { DiskInfo.zero with device_name := "sda", current_read_bytes := 1048576 }

/-- The next `/proc/diskstats` line of `sda`: 40960 sectors (20 MiB) more were
read during the 2-second tick, a load of 10 MB/s. -/
def hdd_line_after : DiskStatLine := ⟨"sda", 43008, 0⟩

/-- A tick that lists the non-rotational, fixed disk `nvme0n1` with `/data` on
it. -/
def tick_with_nvme (sectors_read : Nat) : DiskTick :=
  { lsblk := some (lsblk_output [lsblk_device "nvme0n1" "disk" false])
    mtab := some [⟨"/dev/nvme0n1p1", "/data", "ext4"⟩]
    statvfs := statvfs_with_data_free 131072
    diskstats := some [⟨"nvme0n1", sectors_read, 0⟩] }

/-- An output of `lsblk -d -o NAME,ROTA --json` for that disk, in the layout
without a blank after the colon. -/
def lsblk_rota_nvme : String :=
  "\x7b\"blockdevices\": [\x7b\"name\":\"nvme0n1\", \"rota\":false\x7d]\x7d"

/-- The state after `disk_data_init` and two ticks that list `nvme0n1`, its
read counter growing by 20 MiB. -/
def disk_state_nvme : DiskState :=
  disk_data_update
    (disk_data_update (disk_data_init disk_state_initial (some lsblk_rota_nvme))
      (tick_with_nvme 2048))
    (tick_with_nvme 43008)

/-- A tick on a machine without `lsblk`: the command prints nothing. -/
def tick_lsblk_missing : DiskTick :=
  { lsblk := some ""
    mtab := some mtab_root_and_data
    statvfs := statvfs_with_data_free 131072
    diskstats := some [⟨"sdb", 43008, 2048⟩] }

/-- The fields of a slot that the scanning loop of `disk_data_update` writes
from the name, the mount point and the `statvfs` answer: name, mount point,
filesystem type, total, used and free space. -/
def DiskInfo.identity (d : DiskInfo) : String × String × String × Nat × Nat × Nat :=
  (d.device_name, d.mount_point, d.fs_type, d.total_space, d.used_space, d.free_space)

/-- The slot holds the name, the mount point found for it and the figures of
the `statvfs` answer for that mount point, for one of the names `names` found
in the `lsblk` text. -/
def slot_filled_from (t : DiskTick) (names : List (String × List Char)) (d : DiskInfo) : Prop :=
  ∃ nm ∈ names, ∃ st : StatVfs,
    t.statvfs (find_mount_point nm.1 nm.2 t.mtab).1 = some st ∧
    d.identity
      = (c_strncpy nm.1 63,
         c_strncpy (find_mount_point nm.1 nm.2 t.mtab).1 255,
         c_strncpy (find_mount_point nm.1 nm.2 t.mtab).2 31,
         gmul st.f_blocks st.f_frsize / (1024 * 1024),
         gsub (gmul st.f_blocks st.f_frsize / (1024 * 1024))
           (gmul st.f_bfree st.f_frsize / (1024 * 1024)),
         gmul st.f_bfree st.f_frsize / (1024 * 1024))

/-- The test the mount table loop makes before it prefers an entry: not a
pseudo filesystem, on the disk, mounted at `/` or `/home`. -/
def mnt_preferred (disk_name : String) (e : MntEnt) : Bool :=
  !is_pseudo_fs e.mnt_type && mnt_on_disk disk_name e
    && (e.mnt_dir = "/" || e.mnt_dir = "/home")

/-- A tick that lists `sda` and `sdb`; the root filesystem is on `sda2` and no
filesystem of `sdb` is mounted. -/
def tick_sdb_unmounted : DiskTick :=
  { lsblk := some (lsblk_output
      [lsblk_device "sda" "disk" false, lsblk_device "sdb" "disk" false])
    mtab := some mtab_root_only
    statvfs := statvfs_with_data_free 131072
    diskstats := some [⟨"sda", 500000, 300000⟩, ⟨"sdb", 2048, 2048⟩] }

/-- A machine on which every probe of `gpu_data_init` fails: no command gives
output and `/sys/class/drm` has no card. -/
def gpu_probes_none : GpuProbes where
  nvidia_smi := none
  drm_count := none
  drm_card := fun _ => ⟨false, none, none⟩
  amdgpu_version := none
  glx_renderer := none
  glx_version := none
  lspci_intel := none
  pci_ids := fun _ => none
  modinfo_i915 := none
  dmesg_i915 := none
  glx_version_intel := none
  lspci_vga := none

/-- A machine on which `nvidia-smi` prints a header-like line that `sscanf`
does not match, the DRM pipe counts two entries neither of which has a driver
link, and the other commands print nothing. -/
def gpu_probes_no_device : GpuProbes :=
  { gpu_probes_none with
    nvidia_smi := some [none]
    drm_count := some 2
    drm_card := fun i => if i = 0 then ⟨false, none, none⟩ else ⟨true, none, none⟩ }

/-- A laptop with one NVIDIA GPU that `nvidia-smi` lists and an Intel GPU
behind `/sys/class/drm/card0`, driven by `i915`. -/
def gpu_probes_hybrid : GpuProbes :=
  { gpu_probes_none with
    nvidia_smi := some [some ⟨0, "NVIDIA GeForce GTX 1050 Ti", "535.183.01"⟩]
    drm_count := some 1
    drm_card := fun i =>
      if i = 0 then ⟨true, some "../../../bus/pci/drivers/i915", none⟩
      else ⟨false, none, none⟩ }

/-- A machine with two NVIDIA GPUs that `nvidia-smi` lists (after a line it
does not match) and no DRM card. -/
def gpu_probes_two_nvidia : GpuProbes :=
  { gpu_probes_none with
    nvidia_smi := some [none, some ⟨0, "NVIDIA GeForce RTX 3090", "535.183.01"⟩,
      some ⟨1, "NVIDIA GeForce RTX 3080", "535.183.01"⟩] }

/-- A machine with one AMD GPU behind `/sys/class/drm/card0`, driven by
`amdgpu`. -/
def gpu_probes_amd : GpuProbes :=
  { gpu_probes_none with
    drm_count := some 1
    drm_card := fun i =>
      if i = 0 then ⟨true, some "../../../bus/pci/drivers/amdgpu", some "Radeon RX 580\n"⟩
      else ⟨false, none, none⟩ }

/-- A tick on which no vendor query answers. -/
def gpu_tick_none : GpuTick where
  nvidia_smi := fun _ => none
  amd_sysfs := fun _ => ⟨none, none, none⟩
  intel_gpu_top := none
  free_mem := none
  proc_meminfo := none

/-- A tick on which the sysfs files of card 0 read 57 percent busy, 2 GiB of
VRAM used and 8 GiB in total. -/
def gpu_tick_amd_busy : GpuTick :=
  { gpu_tick_none with
    amd_sysfs := fun card =>
      if card = 0 then ⟨some 57, some 2147483648, some 8589934592⟩ else ⟨none, none, none⟩ }

/-- A tick on which `nvidia-smi` reports GPU 0 at 250 percent with more
memory used than it has, and GPU 1 at a negative utilisation. -/
def gpu_tick_nvidia_wild : GpuTick :=
  { gpu_tick_none with
    nvidia_smi := fun id =>
      if id = 0 then some ⟨250, 1000, 3000⟩
      else if id = 1 then some ⟨-5, 1000, -200⟩ else none }

/-- A tick on which `nvidia-smi` reports GPU 0 at 40 percent with 2048 of
8192 MB used. -/
def gpu_tick_nvidia_busy : GpuTick :=
  { gpu_tick_none with
    nvidia_smi := fun id => if id = 0 then some ⟨40, 8192, 2048⟩ else none }

/-- The line `lspci -nn` prints for an NVIDIA GeForce GTX 1050 Ti. -/
def lspci_line_nvidia : String :=
  "01:00.0 VGA compatible controller [0300]: NVIDIA Corporation GP107 [GeForce GTX 1050 Ti] [10de:1c82] (rev a1)"

/-- The line `lspci -nn` prints for an AMD Radeon RX 580. -/
def lspci_line_amd : String :=
  "03:00.0 VGA compatible controller [0300]: AMD Ellesmere [Radeon RX 580] [1002:67df] (rev e7)"

/-- The state after `gpu_data_init` on the AMD machine and one tick that read
57 percent busy and 2048 of 8192 MB of VRAM. -/
def gpu_state_amd_busy : GpuState :=
  gpu_data_update (gpu_data_init gpu_state_initial gpu_probes_amd) gpu_tick_amd_busy

/-- The state after `gpu_data_init` on the machine with two NVIDIA GPUs and
one tick that read GPU 0 at 40 percent with 2048 of 8192 MB used. -/
def gpu_state_nvidia_busy : GpuState :=
  gpu_data_update (gpu_data_init gpu_state_initial gpu_probes_two_nvidia) gpu_tick_nvidia_busy

/-- A machine on which only the `lspci -nn` fallback answers, with the line of
the NVIDIA GeForce GTX 1050 Ti. -/
def gpu_probes_lspci_only : GpuProbes :=
  { gpu_probes_none with lspci_vga := some (lspci_line_nvidia ++ "\n") }

/-- The first lines of an x86 `/proc/cpuinfo` as the kernel prints them, one
text per `fgets` call. -/
def cpuinfo_i7 : List String :=
  ["processor\t: 0\n",
   "vendor_id\t: GenuineIntel\n",
   "cpu family\t: 6\n",
   "model\t\t: 142\n",
   "model name\t: Intel(R) Core(TM) i7-8550U CPU @ 1.80GHz\n",
   "stepping\t: 10\n",
   "bogomips\t: 3999.93\n",
   "address sizes\t: 39 bits physical, 48 bits virtual\n",
   "\n",
   "processor\t: 1\n",
   "model name\t: Another Model\n"]

/-- The files of that machine: the level 3 cache size file holds `8192K`,
`uname -m` prints `x86_64`. -/
def cpu_files_i7 : CpuIdentityFiles :=
  ⟨some cpuinfo_i7, some (some "8192K\n"), some (some "256K\n"), some "x86_64\n"⟩

/-- Files whose values are empty: a `model name` line with blanks only behind
the colon, a `stepping` line of the kernel's form with no value, a cache size
file and a `uname -m` output that hold a line feed only. -/
def cpu_files_blank : CpuIdentityFiles :=
  ⟨some ["model name: \n", "stepping\t: \n"], some (some "\n"), none, some "\n"⟩

/-! # Properties -/

/-! ## Lemmas on machine arithmetic -/

theorem gadd_lt (a b : Nat) : gadd a b < GULONG_RANGE :=
  Nat.mod_lt _ (by unfold GULONG_RANGE; norm_num)

theorem gsub_lt (a b : Nat) : gsub a b < GULONG_RANGE :=
  Nat.mod_lt _ (by unfold GULONG_RANGE; norm_num)

theorem gsub_of_le {a b : Nat} (hba : b ≤ a) (ha : a < GULONG_RANGE) : gsub a b = a - b := by
  unfold gsub GULONG_RANGE at *
  omega

theorem cpu_total_of_lt (c : CpuTimes) : cpu_total_of c < GULONG_RANGE := gadd_lt _ _

theorem cpu_idle_total_of_lt (c : CpuTimes) : cpu_idle_total_of c < GULONG_RANGE := gadd_lt _ _

theorem arrSet_same {α : Type} (a : Nat → α) (i : Nat) (v : α) : arrSet a i v i = v := by
  simp [arrSet]

theorem arrSet_other {α : Type} (a : Nat → α) {i j : Nat} (v : α) (h : j ≠ i) :
    arrSet a i v j = a j := by
  simp [arrSet, h]

/-- Without wrap-around the usage expression is the plain quotient. -/
theorem usage_percent_plain {t1 t2 i1 i2 : Nat} (ht2 : t2 < GULONG_RANGE)
    (hi2 : i2 < GULONG_RANGE) (hgrow : t1 < t2) (hidle : i1 ≤ i2)
    (hle : i2 - i1 ≤ t2 - t1) :
    usage_percent (gsub t2 t1) (gsub i2 i1)
      = 100 * (((t2 - t1) - (i2 - i1) : Nat) : ℚ) / ((t2 - t1 : Nat) : ℚ) := by
  have e1 : gsub t2 t1 = t2 - t1 := gsub_of_le (Nat.le_of_lt hgrow) ht2
  have e2 : gsub i2 i1 = i2 - i1 := gsub_of_le hidle hi2
  have e3 : gsub (t2 - t1) (i2 - i1) = (t2 - t1) - (i2 - i1) :=
    gsub_of_le hle (lt_of_le_of_lt (Nat.sub_le _ _) ht2)
  unfold usage_percent
  rw [e1, e2, e3]

/-! ## The per-core loop touches one core at a time -/

theorem per_cpu_update_index (f : ProcStat) (s : CpuState) (i : Nat) :
    (per_cpu_update f s i).cpu_usage_index = s.cpu_usage_index := by
  unfold per_cpu_update core_prev_total
  cases f.core i with
  | none => rfl
  | some c => dsimp only; split_ifs <;> rfl

theorem per_cpu_update_aggregate (f : ProcStat) (s : CpuState) (i : Nat) :
    (per_cpu_update f s i).cpu_usage_history = s.cpu_usage_history ∧
    (per_cpu_update f s i).current_cpu_usage = s.current_cpu_usage ∧
    (per_cpu_update f s i).prev_cpu_total = s.prev_cpu_total ∧
    (per_cpu_update f s i).prev_cpu_idle = s.prev_cpu_idle ∧
    (per_cpu_update f s i).cpu_threads = s.cpu_threads := by
  unfold per_cpu_update core_prev_total
  cases f.core i with
  | none => simp
  | some c => dsimp only; split_ifs <;> simp

theorem per_cpu_update_other (f : ProcStat) (s : CpuState) {i j : Nat} (h : j ≠ i) :
    (per_cpu_update f s i).current_per_cpu_usage j = s.current_per_cpu_usage j ∧
    (per_cpu_update f s i).per_cpu_usage_history j = s.per_cpu_usage_history j ∧
    (per_cpu_update f s i).prev_cpu_stats j = s.prev_cpu_stats j := by
  unfold per_cpu_update core_prev_total
  cases f.core i with
  | none => simp
  | some c => dsimp only; split_ifs <;> simp [arrSet, h]

/-- The effect of the loop body on core `i` depends on the index and on the
three per-core entries of `i` only. -/
theorem per_cpu_update_congr (f : ProcStat) (s t : CpuState) (i : Nat)
    (hx : s.cpu_usage_index = t.cpu_usage_index)
    (hc : s.current_per_cpu_usage i = t.current_per_cpu_usage i)
    (hh : s.per_cpu_usage_history i = t.per_cpu_usage_history i)
    (hp : s.prev_cpu_stats i = t.prev_cpu_stats i) :
    (per_cpu_update f s i).current_per_cpu_usage i
      = (per_cpu_update f t i).current_per_cpu_usage i ∧
    (per_cpu_update f s i).per_cpu_usage_history i
      = (per_cpu_update f t i).per_cpu_usage_history i ∧
    (per_cpu_update f s i).prev_cpu_stats i = (per_cpu_update f t i).prev_cpu_stats i := by
  unfold per_cpu_update core_prev_total
  cases f.core i with
  | none => simp [hc, hh, hp]
  | some c =>
    dsimp only
    rw [hp, hx, hh]
    split_ifs <;> simp [arrSet, hc, hh, hp]

/-- The per-core loop of `cpu_data_update` run for cores `0 .. n - 1`. -/
theorem cores_loop_succ (f : ProcStat) (s : CpuState) (n : Nat) :
    (List.range (n + 1)).foldl (per_cpu_update f) s
      = per_cpu_update f ((List.range n).foldl (per_cpu_update f) s) n := by
  rw [List.range_succ, List.foldl_append]
  rfl

theorem cores_loop_index (f : ProcStat) (s : CpuState) (n : Nat) :
    ((List.range n).foldl (per_cpu_update f) s).cpu_usage_index = s.cpu_usage_index := by
  induction n with
  | zero => rfl
  | succ n ih => rw [cores_loop_succ, per_cpu_update_index, ih]

theorem cores_loop_aggregate (f : ProcStat) (s : CpuState) (n : Nat) :
    ((List.range n).foldl (per_cpu_update f) s).cpu_usage_history = s.cpu_usage_history ∧
    ((List.range n).foldl (per_cpu_update f) s).current_cpu_usage = s.current_cpu_usage ∧
    ((List.range n).foldl (per_cpu_update f) s).prev_cpu_total = s.prev_cpu_total ∧
    ((List.range n).foldl (per_cpu_update f) s).prev_cpu_idle = s.prev_cpu_idle ∧
    ((List.range n).foldl (per_cpu_update f) s).cpu_threads = s.cpu_threads := by
  induction n with
  | zero => simp
  | succ n ih =>
    rw [cores_loop_succ]
    obtain ⟨a1, a2, a3, a4, a5⟩ :=
      per_cpu_update_aggregate f ((List.range n).foldl (per_cpu_update f) s) n
    obtain ⟨b1, b2, b3, b4, b5⟩ := ih
    exact ⟨a1.trans b1, a2.trans b2, a3.trans b3, a4.trans b4, a5.trans b5⟩

/-- Cores the loop does not reach keep their three entries. -/
theorem cores_loop_untracked (f : ProcStat) (s : CpuState) (n : Nat) {j : Nat} (h : n ≤ j) :
    ((List.range n).foldl (per_cpu_update f) s).current_per_cpu_usage j
      = s.current_per_cpu_usage j ∧
    ((List.range n).foldl (per_cpu_update f) s).per_cpu_usage_history j
      = s.per_cpu_usage_history j ∧
    ((List.range n).foldl (per_cpu_update f) s).prev_cpu_stats j = s.prev_cpu_stats j := by
  induction n with
  | zero => simp
  | succ n ih =>
    rw [cores_loop_succ]
    have hj : j ≠ n := by omega
    obtain ⟨a1, a2, a3⟩ := per_cpu_update_other f ((List.range n).foldl (per_cpu_update f) s) hj
    obtain ⟨b1, b2, b3⟩ := ih (by omega)
    exact ⟨a1.trans b1, a2.trans b2, a3.trans b3⟩

/-- For a core the loop reaches, the whole loop does to its entries what the
loop body for that core alone does. -/
theorem cores_loop_tracked (f : ProcStat) (s : CpuState) (n : Nat) {i : Nat} (h : i < n) :
    ((List.range n).foldl (per_cpu_update f) s).current_per_cpu_usage i
      = (per_cpu_update f s i).current_per_cpu_usage i ∧
    ((List.range n).foldl (per_cpu_update f) s).per_cpu_usage_history i
      = (per_cpu_update f s i).per_cpu_usage_history i ∧
    ((List.range n).foldl (per_cpu_update f) s).prev_cpu_stats i
      = (per_cpu_update f s i).prev_cpu_stats i := by
  induction n with
  | zero => omega
  | succ n ih =>
    rw [cores_loop_succ]
    by_cases hin : i = n
    · subst hin
      obtain ⟨u1, u2, u3⟩ := cores_loop_untracked f s i (le_refl i)
      exact per_cpu_update_congr f _ s i (cores_loop_index f s i) u1 u2 u3
    · obtain ⟨a1, a2, a3⟩ :=
        per_cpu_update_other f ((List.range n).foldl (per_cpu_update f) s) hin
      obtain ⟨b1, b2, b3⟩ := ih (by omega)
      exact ⟨a1.trans b1, a2.trans b2, a3.trans b3⟩

theorem cpu_aggregate_update_cores (f : ProcStat) (s : CpuState) :
    (cpu_aggregate_update f s).cpu_usage_index = s.cpu_usage_index ∧
    (cpu_aggregate_update f s).cpu_threads = s.cpu_threads ∧
    (cpu_aggregate_update f s).current_per_cpu_usage = s.current_per_cpu_usage ∧
    (cpu_aggregate_update f s).per_cpu_usage_history = s.per_cpu_usage_history ∧
    (cpu_aggregate_update f s).prev_cpu_stats = s.prev_cpu_stats := by
  unfold cpu_aggregate_update
  dsimp only
  split_ifs <;> simp

theorem tracked_cores_aggregate (f : ProcStat) (s : CpuState) :
    tracked_cores (cpu_aggregate_update f s) = tracked_cores s := by
  unfold tracked_cores
  rw [(cpu_aggregate_update_cores f s).2.1]

/-- The index after a tick that opened `/proc/stat`. -/
theorem cpu_data_update_index (s : CpuState) (f : ProcStat) :
    (cpu_data_update s (some f)).cpu_usage_index = (s.cpu_usage_index + 1) % MAX_POINTS := by
  simp only [cpu_data_update]
  rw [cores_loop_index, (cpu_aggregate_update_cores f s).1]

/-- The aggregate entries after a tick are those the aggregate part leaves. -/
theorem cpu_data_update_aggregate (s : CpuState) (f : ProcStat) :
    (cpu_data_update s (some f)).cpu_usage_history
      = (cpu_aggregate_update f s).cpu_usage_history ∧
    (cpu_data_update s (some f)).current_cpu_usage
      = (cpu_aggregate_update f s).current_cpu_usage ∧
    (cpu_data_update s (some f)).prev_cpu_total = (cpu_aggregate_update f s).prev_cpu_total ∧
    (cpu_data_update s (some f)).prev_cpu_idle = (cpu_aggregate_update f s).prev_cpu_idle ∧
    (cpu_data_update s (some f)).cpu_threads = s.cpu_threads := by
  simp only [cpu_data_update]
  obtain ⟨a1, a2, a3, a4, a5⟩ := cores_loop_aggregate f (cpu_aggregate_update f s)
    (tracked_cores (cpu_aggregate_update f s))
  exact ⟨a1, a2, a3, a4, a5.trans (cpu_aggregate_update_cores f s).2.1⟩

/-- The entries of a tracked core after a tick are those the loop body for
that core leaves when run on the state the tick started from. -/
theorem cpu_data_update_core (s : CpuState) (f : ProcStat) {i : Nat} (h : i < tracked_cores s) :
    (cpu_data_update s (some f)).current_per_cpu_usage i
      = (per_cpu_update f s i).current_per_cpu_usage i ∧
    (cpu_data_update s (some f)).per_cpu_usage_history i
      = (per_cpu_update f s i).per_cpu_usage_history i ∧
    (cpu_data_update s (some f)).prev_cpu_stats i
      = (per_cpu_update f s i).prev_cpu_stats i := by
  simp only [cpu_data_update]
  have h2 : i < tracked_cores (cpu_aggregate_update f s) := by
    rw [tracked_cores_aggregate]; exact h
  obtain ⟨a1, a2, a3⟩ := cores_loop_tracked f (cpu_aggregate_update f s) _ h2
  obtain ⟨c1, c2, c3, c4, c5⟩ := cpu_aggregate_update_cores f s
  obtain ⟨b1, b2, b3⟩ := per_cpu_update_congr f (cpu_aggregate_update f s) s i c1
    (by rw [c3]) (by rw [c4]) (by rw [c5])
  exact ⟨a1.trans b1, a2.trans b2, a3.trans b3⟩

/-! ## What the loop body does to its own core -/

theorem per_cpu_update_baseline (f : ProcStat) (s : CpuState) {i : Nat} {c : CpuTimes}
    (hc : f.core i = some c) :
    (per_cpu_update f s i).prev_cpu_stats i 0 = gadd c.user c.nice ∧
    (per_cpu_update f s i).prev_cpu_stats i 1 = c.system ∧
    (per_cpu_update f s i).prev_cpu_stats i 2 = gadd (gadd c.irq c.softirq) c.steal ∧
    (per_cpu_update f s i).prev_cpu_stats i 3 = cpu_idle_total_of c := by
  unfold per_cpu_update core_prev_total
  rw [hc]
  dsimp only
  split_ifs <;> simp [arrSet]

theorem per_cpu_update_write (f : ProcStat) (s : CpuState) {i : Nat} {c : CpuTimes}
    (hc : f.core i = some c) (hprev : 0 < core_prev_total s i)
    (hgrow : core_prev_total s i < cpu_total_of c) :
    (per_cpu_update f s i).current_per_cpu_usage i
      = usage_percent (gsub (cpu_total_of c) (core_prev_total s i))
          (gsub (cpu_idle_total_of c) (s.prev_cpu_stats i 3)) ∧
    (per_cpu_update f s i).per_cpu_usage_history i s.cpu_usage_index
      = floor_zero (usage_percent (gsub (cpu_total_of c) (core_prev_total s i))
          (gsub (cpu_idle_total_of c) (s.prev_cpu_stats i 3))) := by
  unfold core_prev_total at hprev hgrow
  unfold per_cpu_update core_prev_total
  rw [hc]
  dsimp only
  rw [if_pos ⟨hprev, hgrow⟩]
  simp [arrSet, core_prev_total]

theorem per_cpu_update_skip (f : ProcStat) (s : CpuState) {i : Nat} {c : CpuTimes}
    (hc : f.core i = some c)
    (h : core_prev_total s i = 0 ∨ cpu_total_of c ≤ core_prev_total s i) :
    (per_cpu_update f s i).current_per_cpu_usage = s.current_per_cpu_usage ∧
    (per_cpu_update f s i).per_cpu_usage_history = s.per_cpu_usage_history := by
  unfold core_prev_total at h
  unfold per_cpu_update core_prev_total
  rw [hc]
  dsimp only
  rw [if_neg (by omega)]
  simp

/-- The loop body writes no history slot other than the one at the index. -/
theorem per_cpu_update_slot (f : ProcStat) (s : CpuState) (k i : Nat) {j : Nat}
    (hj : j ≠ s.cpu_usage_index) :
    (per_cpu_update f s k).per_cpu_usage_history i j = s.per_cpu_usage_history i j := by
  unfold per_cpu_update core_prev_total
  cases f.core k with
  | none => rfl
  | some c =>
    dsimp only
    split_ifs
    · by_cases hik : i = k
      · subst hik; simp [arrSet, hj]
      · simp [arrSet, hik]
    · rfl

theorem cores_loop_slot (f : ProcStat) (s : CpuState) (n i : Nat) {j : Nat}
    (hj : j ≠ s.cpu_usage_index) :
    ((List.range n).foldl (per_cpu_update f) s).per_cpu_usage_history i j
      = s.per_cpu_usage_history i j := by
  induction n with
  | zero => rfl
  | succ n ih =>
    rw [cores_loop_succ, per_cpu_update_slot f _ n i (by rw [cores_loop_index]; exact hj), ih]

/-- The four stored components of a core add up to its eight-field total. -/
theorem core_baseline_sum (c : CpuTimes) :
    gadd (gadd (gadd (gadd c.user c.nice) c.system) (gadd (gadd c.irq c.softirq) c.steal))
      (cpu_idle_total_of c) = cpu_total_of c := by
  unfold cpu_total_of cpu_idle_total_of gadd GULONG_RANGE
  omega

/-! ## The aggregate part -/

theorem cpu_aggregate_update_baseline (f : ProcStat) (s : CpuState) :
    (cpu_aggregate_update f s).prev_cpu_total = cpu_total_of (f.cpu.getD CpuTimes.zero) ∧
    (cpu_aggregate_update f s).prev_cpu_idle = cpu_idle_total_of (f.cpu.getD CpuTimes.zero) := by
  unfold cpu_aggregate_update
  simp

theorem cpu_aggregate_update_write (f : ProcStat) (s : CpuState)
    (h : cpu_tick_writes s f) :
    (cpu_aggregate_update f s).current_cpu_usage
      = usage_percent (gsub (cpu_total_of (f.cpu.getD CpuTimes.zero)) s.prev_cpu_total)
          (gsub (cpu_idle_total_of (f.cpu.getD CpuTimes.zero)) s.prev_cpu_idle) ∧
    (cpu_aggregate_update f s).cpu_usage_history
      = arrSet s.cpu_usage_history s.cpu_usage_index
          (floor_zero (usage_percent
            (gsub (cpu_total_of (f.cpu.getD CpuTimes.zero)) s.prev_cpu_total)
            (gsub (cpu_idle_total_of (f.cpu.getD CpuTimes.zero)) s.prev_cpu_idle))) := by
  unfold cpu_tick_writes at h
  unfold cpu_aggregate_update
  dsimp only
  rw [if_pos h]
  simp

theorem cpu_aggregate_update_skip (f : ProcStat) (s : CpuState)
    (h : ¬ cpu_tick_writes s f) :
    (cpu_aggregate_update f s).current_cpu_usage = s.current_cpu_usage ∧
    (cpu_aggregate_update f s).cpu_usage_history = s.cpu_usage_history := by
  unfold cpu_tick_writes at h
  unfold cpu_aggregate_update
  dsimp only
  rw [if_neg h]
  simp

theorem cpu_aggregate_update_slot (f : ProcStat) (s : CpuState) {j : Nat}
    (hj : j ≠ s.cpu_usage_index) :
    (cpu_aggregate_update f s).cpu_usage_history j = s.cpu_usage_history j := by
  by_cases h : cpu_tick_writes s f
  · rw [(cpu_aggregate_update_write f s h).2, arrSet_other _ _ hj]
  · rw [(cpu_aggregate_update_skip f s h).2]

/-! ## Claims on the CPU collector -/

/-- C1 (evaluation at the failing input). On a one-thread machine, the tick
that reads `steal_sample_after` after `steal_sample_before` sees the total
grow by 100 and `idle + iowait` grow by 190; the `gulong` difference
`total_diff - idle_diff` wraps to `2 ^ 64 - 90`, and `cpu_data_update` stores
`100 * (2 ^ 64 - 90) / 100 = 18446744073709551526` in `current_cpu_usage`, in
`cpu_usage_history[1]`, in `current_per_cpu_usage[0]` and in
`per_cpu_usage_history[0][1]`: none of the four lies in `[0, 100]`. -/
theorem cpu_usage_wraps_above_100 :
    cpu_state_after_steal_drop.current_cpu_usage = 18446744073709551526 ∧
    cpu_state_after_steal_drop.cpu_usage_history 1 = 18446744073709551526 ∧
    cpu_state_after_steal_drop.current_per_cpu_usage 0 = 18446744073709551526 ∧
    cpu_state_after_steal_drop.per_cpu_usage_history 0 1 = 18446744073709551526 ∧
    ¬ (cpu_state_after_steal_drop.current_cpu_usage ≤ 100) ∧
    ¬ (cpu_state_after_steal_drop.cpu_usage_history 1 ≤ 100) ∧
    ¬ (cpu_state_after_steal_drop.current_per_cpu_usage 0 ≤ 100) ∧
    ¬ (cpu_state_after_steal_drop.per_cpu_usage_history 0 1 ≤ 100) := by
  have e1 : cpu_state_after_steal_drop.current_cpu_usage = 18446744073709551526 := by
    simp [cpu_state_after_steal_drop, cpu_data_update, cpu_aggregate_update, cpu_state_initial,
      stat_one_core, steal_sample_before, steal_sample_after, cpu_total_of, cpu_idle_total_of,
      gadd, gsub, GULONG_RANGE, usage_percent, tracked_cores, MAX_CPU_CORES, per_cpu_update,
      core_prev_total,
      arrSet, List.range_succ]
  have e2 : cpu_state_after_steal_drop.cpu_usage_history 1 = 18446744073709551526 := by
    simp [cpu_state_after_steal_drop, cpu_data_update, cpu_aggregate_update, cpu_state_initial,
      stat_one_core, steal_sample_before, steal_sample_after, cpu_total_of, cpu_idle_total_of,
      gadd, gsub, GULONG_RANGE, usage_percent, tracked_cores, MAX_CPU_CORES, per_cpu_update,
      core_prev_total,
      arrSet, List.range_succ, floor_zero, MAX_POINTS]
  have e3 : cpu_state_after_steal_drop.current_per_cpu_usage 0 = 18446744073709551526 := by
    simp [cpu_state_after_steal_drop, cpu_data_update, cpu_aggregate_update, cpu_state_initial,
      stat_one_core, steal_sample_before, steal_sample_after, cpu_total_of, cpu_idle_total_of,
      gadd, gsub, GULONG_RANGE, usage_percent, tracked_cores, MAX_CPU_CORES, per_cpu_update,
      core_prev_total,
      arrSet, List.range_succ]
  have e4 : cpu_state_after_steal_drop.per_cpu_usage_history 0 1 = 18446744073709551526 := by
    simp [cpu_state_after_steal_drop, cpu_data_update, cpu_aggregate_update, cpu_state_initial,
      stat_one_core, steal_sample_before, steal_sample_after, cpu_total_of, cpu_idle_total_of,
      gadd, gsub, GULONG_RANGE, usage_percent, tracked_cores, MAX_CPU_CORES, per_cpu_update,
      core_prev_total,
      arrSet, List.range_succ, floor_zero, MAX_POINTS]
  refine ⟨e1, e2, e3, e4, ?_, ?_, ?_, ?_⟩
  · rw [e1]; norm_num
  · rw [e2]; norm_num
  · rw [e3]; norm_num
  · rw [e4]; norm_num

/-- C2. For two consecutive samples read by `cpu_data_update`, when the first
total is positive, the total grew, `idle + iowait` did not decrease and grew by
no more than the total, `current_cpu_usage` after the second tick is exactly
`100 * (delta_total - delta_idle_total) / delta_total`. For every tracked core
whose line is present in both samples, the baseline stored by the first tick
sums to the core's eight-field total and has `idle + iowait` as its fourth
component, and under the same four conditions on the core's lines
`current_per_cpu_usage[i]` after the second tick is given by the same
formula. Totals are the `gulong` sums the code computes. -/
theorem cpu_usage_formula (s0 : CpuState) (f1 f2 : ProcStat)
    (hprev : 0 < cpu_total_of (f1.cpu.getD CpuTimes.zero))
    (hgrow : cpu_total_of (f1.cpu.getD CpuTimes.zero) < cpu_total_of (f2.cpu.getD CpuTimes.zero))
    (hidle : cpu_idle_total_of (f1.cpu.getD CpuTimes.zero)
      ≤ cpu_idle_total_of (f2.cpu.getD CpuTimes.zero))
    (hle : cpu_idle_total_of (f2.cpu.getD CpuTimes.zero)
        - cpu_idle_total_of (f1.cpu.getD CpuTimes.zero)
      ≤ cpu_total_of (f2.cpu.getD CpuTimes.zero) - cpu_total_of (f1.cpu.getD CpuTimes.zero)) :
    (cpu_data_update (cpu_data_update s0 (some f1)) (some f2)).current_cpu_usage
      = 100 * (((cpu_total_of (f2.cpu.getD CpuTimes.zero)
                  - cpu_total_of (f1.cpu.getD CpuTimes.zero))
                - (cpu_idle_total_of (f2.cpu.getD CpuTimes.zero)
                  - cpu_idle_total_of (f1.cpu.getD CpuTimes.zero)) : Nat) : ℚ)
          / ((cpu_total_of (f2.cpu.getD CpuTimes.zero)
                - cpu_total_of (f1.cpu.getD CpuTimes.zero) : Nat) : ℚ) ∧
    ∀ (i : Nat) (c1 c2 : CpuTimes), i < tracked_cores s0 →
      f1.core i = some c1 → f2.core i = some c2 →
      core_prev_total (cpu_data_update s0 (some f1)) i = cpu_total_of c1 ∧
      (cpu_data_update s0 (some f1)).prev_cpu_stats i 3 = cpu_idle_total_of c1 ∧
      (0 < cpu_total_of c1 → cpu_total_of c1 < cpu_total_of c2 →
        cpu_idle_total_of c1 ≤ cpu_idle_total_of c2 →
        cpu_idle_total_of c2 - cpu_idle_total_of c1 ≤ cpu_total_of c2 - cpu_total_of c1 →
        (cpu_data_update (cpu_data_update s0 (some f1)) (some f2)).current_per_cpu_usage i
          = 100 * (((cpu_total_of c2 - cpu_total_of c1)
                    - (cpu_idle_total_of c2 - cpu_idle_total_of c1) : Nat) : ℚ)
              / ((cpu_total_of c2 - cpu_total_of c1 : Nat) : ℚ)) := by
  constructor
  · obtain ⟨_, a2, a3, a4, _⟩ := cpu_data_update_aggregate s0 f1
    obtain ⟨b3, b4⟩ := cpu_aggregate_update_baseline f1 s0
    have hw : cpu_tick_writes (cpu_data_update s0 (some f1)) f2 := by
      unfold cpu_tick_writes
      rw [a3, b3]
      exact ⟨hprev, hgrow⟩
    rw [(cpu_data_update_aggregate _ f2).2.1, (cpu_aggregate_update_write f2 _ hw).1,
      a3, a4, b3, b4]
    exact usage_percent_plain (cpu_total_of_lt _) (cpu_idle_total_of_lt _) hgrow hidle hle
  · intro i c1 c2 hi h1 h2
    obtain ⟨_, _, p⟩ := cpu_data_update_core s0 f1 hi
    obtain ⟨q0, q1, q2, q3⟩ := per_cpu_update_baseline f1 s0 h1
    have hsum : core_prev_total (cpu_data_update s0 (some f1)) i = cpu_total_of c1 := by
      unfold core_prev_total
      rw [p, q0, q1, q2, q3]
      exact core_baseline_sum c1
    have hfour : (cpu_data_update s0 (some f1)).prev_cpu_stats i 3 = cpu_idle_total_of c1 := by
      rw [p, q3]
    refine ⟨hsum, hfour, ?_⟩
    intro hp hg hid hl
    have hi2 : i < tracked_cores (cpu_data_update s0 (some f1)) := by
      unfold tracked_cores
      rw [(cpu_data_update_aggregate s0 f1).2.2.2.2]
      exact hi
    rw [(cpu_data_update_core _ f2 hi2).1,
      (per_cpu_update_write f2 _ h2 (by rw [hsum]; exact hp) (by rw [hsum]; exact hg)).1,
      hsum, hfour]
    exact usage_percent_plain (cpu_total_of_lt _) (cpu_idle_total_of_lt _) hg hid hl

/-- Witness of C2: samples `busy_sample_before` and `busy_sample_after` meet
the conditions on the aggregate line and on the line of core 0, and both
usages come out as 50. -/
theorem cpu_usage_formula_witness :
    (cpu_data_update (cpu_data_update (cpu_state_initial 1)
      (some (stat_one_core busy_sample_before)))
      (some (stat_one_core busy_sample_after))).current_cpu_usage = 50 ∧
    (cpu_data_update (cpu_data_update (cpu_state_initial 1)
      (some (stat_one_core busy_sample_before)))
      (some (stat_one_core busy_sample_after))).current_per_cpu_usage 0 = 50 := by
  obtain ⟨h1, h2⟩ := cpu_usage_formula (cpu_state_initial 1) (stat_one_core busy_sample_before)
    (stat_one_core busy_sample_after) (by decide) (by decide) (by decide) (by decide)
  obtain ⟨_, _, h3⟩ := h2 0 busy_sample_before busy_sample_after (by decide) rfl rfl
  have h4 := h3 (by decide) (by decide) (by decide) (by decide)
  constructor
  · rw [h1]
    norm_num [cpu_total_of, cpu_idle_total_of, gadd, GULONG_RANGE, stat_one_core,
      busy_sample_before, busy_sample_after]
  · rw [h4]
    norm_num [cpu_total_of, cpu_idle_total_of, gadd, GULONG_RANGE, stat_one_core,
      busy_sample_before, busy_sample_after]

/-- C3. A tick that opened `/proc/stat` with no previous aggregate sample
(`prev_cpu_total = 0`) or with a total not greater than the previous one leaves
`current_cpu_usage` and every slot of `cpu_usage_history` unchanged; in every
case the new total and the new `idle + iowait` become the baseline. Likewise
for a tracked core whose line is present and whose total did not grow (or
whose previous total is 0): its current value and its whole history row are
unchanged, and its four baseline components are replaced by those of the new
line. -/
theorem cpu_no_write_without_growth (s : CpuState) (f : ProcStat) :
    ((s.prev_cpu_total = 0 ∨ cpu_total_of (f.cpu.getD CpuTimes.zero) ≤ s.prev_cpu_total) →
      (cpu_data_update s (some f)).current_cpu_usage = s.current_cpu_usage ∧
      (cpu_data_update s (some f)).cpu_usage_history = s.cpu_usage_history) ∧
    (cpu_data_update s (some f)).prev_cpu_total = cpu_total_of (f.cpu.getD CpuTimes.zero) ∧
    (cpu_data_update s (some f)).prev_cpu_idle
      = cpu_idle_total_of (f.cpu.getD CpuTimes.zero) ∧
    ∀ (i : Nat) (c : CpuTimes), i < tracked_cores s → f.core i = some c →
      (core_prev_total s i = 0 ∨ cpu_total_of c ≤ core_prev_total s i) →
      (cpu_data_update s (some f)).current_per_cpu_usage i = s.current_per_cpu_usage i ∧
      (cpu_data_update s (some f)).per_cpu_usage_history i = s.per_cpu_usage_history i ∧
      (cpu_data_update s (some f)).prev_cpu_stats i 0 = gadd c.user c.nice ∧
      (cpu_data_update s (some f)).prev_cpu_stats i 1 = c.system ∧
      (cpu_data_update s (some f)).prev_cpu_stats i 2 = gadd (gadd c.irq c.softirq) c.steal ∧
      (cpu_data_update s (some f)).prev_cpu_stats i 3 = cpu_idle_total_of c := by
  obtain ⟨a1, a2, a3, a4, _⟩ := cpu_data_update_aggregate s f
  obtain ⟨b3, b4⟩ := cpu_aggregate_update_baseline f s
  refine ⟨?_, a3.trans b3, a4.trans b4, ?_⟩
  · intro h
    have hn : ¬ cpu_tick_writes s f := by
      unfold cpu_tick_writes
      omega
    obtain ⟨e1, e2⟩ := cpu_aggregate_update_skip f s hn
    exact ⟨a2.trans e1, a1.trans e2⟩
  · intro i c hi hc h
    obtain ⟨p1, p2, p3⟩ := cpu_data_update_core s f hi
    obtain ⟨q1, q2⟩ := per_cpu_update_skip f s hc h
    obtain ⟨r0, r1, r2, r3⟩ := per_cpu_update_baseline f s hc
    refine ⟨?_, ?_, ?_, ?_, ?_, ?_⟩
    · rw [p1, q1]
    · rw [p2, q2]
    · rw [p3, r0]
    · rw [p3, r1]
    · rw [p3, r2]
    · rw [p3, r3]

/-- Witness of C3: the first tick after start-up (no previous sample, on the
aggregate line and on core 0) keeps the usages and histories at their initial
zeros and stores the baseline. -/
theorem cpu_no_write_without_growth_witness :
    (cpu_data_update (cpu_state_initial 1)
      (some (stat_one_core busy_sample_before))).current_cpu_usage = 0 ∧
    (cpu_data_update (cpu_state_initial 1)
      (some (stat_one_core busy_sample_before))).prev_cpu_total = 1000 ∧
    (cpu_data_update (cpu_state_initial 1)
      (some (stat_one_core busy_sample_before))).current_per_cpu_usage 0 = 0 ∧
    (cpu_data_update (cpu_state_initial 1)
      (some (stat_one_core busy_sample_before))).prev_cpu_stats 0 3 = 900 := by
  obtain ⟨h1, h2, _, h4⟩ := cpu_no_write_without_growth (cpu_state_initial 1)
    (stat_one_core busy_sample_before)
  obtain ⟨k1, _, _, _, _, k6⟩ := h4 0 busy_sample_before (by decide) rfl (Or.inl (by decide))
  refine ⟨(h1 (Or.inl rfl)).1, ?_, k1, ?_⟩
  · rw [h2]; decide
  · rw [k6]; decide

/-- The index stays below `MAX_POINTS` in every reachable state. -/
theorem cpu_index_in_range {s : CpuState} (h : CpuReachable s) :
    s.cpu_usage_index < MAX_POINTS := by
  induction h with
  | init threads => simp [cpu_state_initial, MAX_POINTS]
  | tick s file _ ih =>
    cases file with
    | none => exact ih
    | some f =>
      rw [cpu_data_update_index]
      exact Nat.mod_lt _ (by unfold MAX_POINTS; norm_num)

/-- C5. A tick that opened `/proc/stat` replaces `cpu_usage_index` by
`(cpu_usage_index + 1) % 60`, whatever the thread count; every slot of
`cpu_usage_history` and of every `per_cpu_usage_history[i]` other than the one
numbered by the index held before the tick keeps its value, so each history
write of the tick went to that slot; and `cpu_usage_index` is at most 59 in
every reachable state. -/
theorem cpu_index_advances_once (s : CpuState) (f : ProcStat) :
    (cpu_data_update s (some f)).cpu_usage_index = (s.cpu_usage_index + 1) % 60 ∧
    (∀ j : Nat, j ≠ s.cpu_usage_index →
      (cpu_data_update s (some f)).cpu_usage_history j = s.cpu_usage_history j ∧
      ∀ i : Nat,
        (cpu_data_update s (some f)).per_cpu_usage_history i j
          = s.per_cpu_usage_history i j) ∧
    (∀ t : CpuState, CpuReachable t → t.cpu_usage_index ≤ 59) := by
  refine ⟨cpu_data_update_index s f, ?_, ?_⟩
  · intro j hj
    constructor
    · rw [(cpu_data_update_aggregate s f).1]
      exact cpu_aggregate_update_slot f s hj
    · intro i
      simp only [cpu_data_update]
      rw [cores_loop_slot f _ _ i (by rw [(cpu_aggregate_update_cores f s).1]; exact hj),
        (cpu_aggregate_update_cores f s).2.2.2.1]
  · intro t ht
    have := cpu_index_in_range ht
    unfold MAX_POINTS at this
    omega

/-- Witness of C5: the state after one tick from start-up is reachable and
its index is within the ring. -/
theorem cpu_index_advances_once_witness :
    CpuReachable (cpu_data_update (cpu_state_initial 1)
      (some (stat_one_core busy_sample_before))) ∧
    (cpu_data_update (cpu_state_initial 1)
      (some (stat_one_core busy_sample_before))).cpu_usage_index ≤ 59 :=
  ⟨CpuReachable.tick _ _ (CpuReachable.init 1),
    (cpu_index_advances_once (cpu_state_initial 1) (stat_one_core busy_sample_before)).2.2 _
      (CpuReachable.tick _ _ (CpuReachable.init 1))⟩

/-! ## Claims on the memory collector: one tick -/

theorem memory_data_update_sizes (s : MemState) (m : MemInfo) :
    (memory_data_update s (some m)).total_memory = m.mem_total / 1024 ∧
    (memory_data_update s (some m)).used_memory
      = (if gsub (gsub (gsub (m.mem_total / 1024) (m.mem_free / 1024)) (m.buffers / 1024))
            (m.cached / 1024) > m.mem_total / 1024
          then m.mem_total / 1024
          else gsub (gsub (gsub (m.mem_total / 1024) (m.mem_free / 1024)) (m.buffers / 1024))
            (m.cached / 1024)) ∧
    (memory_data_update s (some m)).swap_total = m.swap_total_kb / 1024 ∧
    (memory_data_update s (some m)).swap_used
      = gsub (m.swap_total_kb / 1024) (m.swap_free_kb / 1024) := by
  simp only [memory_data_update]
  split_ifs <;> simp

/-- A tick with at least 1 MB of `MemTotal` pushes the percentage it
computes. -/
theorem memory_data_update_push (s : MemState) (m : MemInfo) (h : 1024 ≤ m.mem_total) :
    (memory_data_update s (some m)).current_memory_usage_percent
      = 100 * ((memory_data_update s (some m)).used_memory : ℚ)
          / ((memory_data_update s (some m)).total_memory : ℚ) ∧
    (memory_data_update s (some m)).memory_usage_history
      = arrSet s.memory_usage_history s.memory_usage_index
          (memory_data_update s (some m)).current_memory_usage_percent ∧
    (memory_data_update s (some m)).memory_usage_index
      = (s.memory_usage_index + 1) % MAX_POINTS := by
  have ht : m.mem_total / 1024 > 0 := by omega
  simp only [memory_data_update]
  rw [if_pos ht]
  split_ifs <;> simp

theorem memory_data_update_swap_push (s : MemState) (m : MemInfo) (h : 1024 ≤ m.swap_total_kb) :
    (memory_data_update s (some m)).current_swap_usage_percent
      = 100 * ((memory_data_update s (some m)).swap_used : ℚ)
          / ((memory_data_update s (some m)).swap_total : ℚ) ∧
    (memory_data_update s (some m)).swap_usage_history s.swap_usage_index
      = (memory_data_update s (some m)).current_swap_usage_percent := by
  have ht : m.swap_total_kb / 1024 > 0 := by omega
  simp only [memory_data_update]
  rw [if_pos ht]
  split_ifs <;> simp [arrSet]

/-- The percentage of a sample does not depend on the state of the tick. -/
theorem memory_percent_eq_ram_usage_of (s : MemState) (m : MemInfo) (h : 1024 ≤ m.mem_total) :
    (memory_data_update s (some m)).current_memory_usage_percent = ram_usage_of m := by
  unfold ram_usage_of
  rw [(memory_data_update_push s m h).1, (memory_data_update_push mem_state_initial m h).1]
  obtain ⟨a1, a2, _, _⟩ := memory_data_update_sizes s m
  obtain ⟨b1, b2, _, _⟩ := memory_data_update_sizes mem_state_initial m
  rw [a1, a2, b1, b2]

/-- C7 (counterexample to the claim as stated). In `meminfo_overcounted`,
after conversion to MB, `free + buffers + cached` is 17089 and exceeds the
total of 16000, and `memory_data_update` leaves `get_used_memory() = 16000`,
not 0. -/
theorem used_memory_not_floored_at_zero :
    meminfo_overcounted.fits ∧
    meminfo_overcounted.mem_free / 1024 + meminfo_overcounted.buffers / 1024
      + meminfo_overcounted.cached / 1024 > meminfo_overcounted.mem_total / 1024 ∧
    get_used_memory (memory_data_update mem_state_initial (some meminfo_overcounted)) = 16000 ∧
    get_used_memory (memory_data_update mem_state_initial (some meminfo_overcounted)) ≠ 0 := by
  decide

/-- C7 (amended). For every meminfo sample of `gulong` values in which, after
conversion from kB to MB, `free + buffers + cached` exceeds `total`, the
wrapped subtraction is above `total` and the sanity check of
`memory_data_update` sets the used memory to the total:
`get_used_memory() = get_total_memory()`. -/
theorem used_memory_capped_at_total (s : MemState) (m : MemInfo) (hm : m.fits)
    (h : m.mem_free / 1024 + m.buffers / 1024 + m.cached / 1024 > m.mem_total / 1024) :
    get_used_memory (memory_data_update s (some m))
      = get_total_memory (memory_data_update s (some m)) ∧
    get_total_memory (memory_data_update s (some m)) = m.mem_total / 1024 := by
  obtain ⟨a1, a2, _, _⟩ := memory_data_update_sizes s m
  unfold get_used_memory get_total_memory
  refine ⟨?_, a1⟩
  rw [a2, a1]
  obtain ⟨h1, h2, _, h4, h5, _, _⟩ := hm
  have hgt : gsub (gsub (gsub (m.mem_total / 1024) (m.mem_free / 1024)) (m.buffers / 1024))
      (m.cached / 1024) > m.mem_total / 1024 := by
    unfold gsub GULONG_RANGE at *
    omega
  rw [if_pos hgt]

/-- Witness of C7 (amended): `meminfo_overcounted`. -/
theorem used_memory_capped_at_total_witness :
    get_used_memory (memory_data_update mem_state_initial (some meminfo_overcounted))
      = get_total_memory (memory_data_update mem_state_initial (some meminfo_overcounted)) ∧
    get_total_memory (memory_data_update mem_state_initial (some meminfo_overcounted))
      = meminfo_overcounted.mem_total / 1024 :=
  used_memory_capped_at_total mem_state_initial meminfo_overcounted (by decide) (by decide)

/-- C8. For every meminfo sample with `MemTotal` of at least 1024 kB, whatever
the other values, after `memory_data_update` the used memory is at most the
total, `current_memory_usage_percent` lies in `[0, 100]`, and the value
written to `memory_usage_history` (at the slot the index pointed to) is that
percentage. -/
theorem memory_usage_bounded (s : MemState) (m : MemInfo) (h : 1024 ≤ m.mem_total) :
    get_used_memory (memory_data_update s (some m))
      ≤ get_total_memory (memory_data_update s (some m)) ∧
    0 ≤ (memory_data_update s (some m)).current_memory_usage_percent ∧
    (memory_data_update s (some m)).current_memory_usage_percent ≤ 100 ∧
    (memory_data_update s (some m)).memory_usage_history s.memory_usage_index
      = (memory_data_update s (some m)).current_memory_usage_percent ∧
    0 ≤ (memory_data_update s (some m)).memory_usage_history s.memory_usage_index ∧
    (memory_data_update s (some m)).memory_usage_history s.memory_usage_index ≤ 100 := by
  obtain ⟨a1, a2, _, _⟩ := memory_data_update_sizes s m
  obtain ⟨p1, p2, _⟩ := memory_data_update_push s m h
  have hle : (memory_data_update s (some m)).used_memory
      ≤ (memory_data_update s (some m)).total_memory := by
    rw [a2, a1]
    split_ifs with hc
    · exact le_refl _
    · omega
  have hpos : 0 < (memory_data_update s (some m)).total_memory := by
    rw [a1]; omega
  have hq : (0 : ℚ) < ((memory_data_update s (some m)).total_memory : ℚ) := by
    exact_mod_cast hpos
  have hu : ((memory_data_update s (some m)).used_memory : ℚ)
      ≤ ((memory_data_update s (some m)).total_memory : ℚ) := by
    exact_mod_cast hle
  have h0 : 0 ≤ (memory_data_update s (some m)).current_memory_usage_percent := by
    rw [p1]
    exact div_nonneg (mul_nonneg (by norm_num) (Nat.cast_nonneg _)) (le_of_lt hq)
  have h100 : (memory_data_update s (some m)).current_memory_usage_percent ≤ 100 := by
    rw [p1, div_le_iff₀ hq]
    linarith
  have hslot : (memory_data_update s (some m)).memory_usage_history s.memory_usage_index
      = (memory_data_update s (some m)).current_memory_usage_percent := by
    rw [p2, arrSet_same]
  refine ⟨hle, h0, h100, hslot, ?_, ?_⟩
  · rw [hslot]; exact h0
  · rw [hslot]; exact h100

/-- Witness of C8: `meminfo_overcounted` has `MemTotal` above 1024 kB. -/
theorem memory_usage_bounded_witness :
    1024 ≤ meminfo_overcounted.mem_total ∧
    (memory_data_update mem_state_initial
      (some meminfo_overcounted)).current_memory_usage_percent ≤ 100 :=
  ⟨by decide, (memory_usage_bounded mem_state_initial meminfo_overcounted (by decide)).2.2.1⟩

/-- C9 (evaluation at the failing input). With `SwapTotal: 1024 kB` and
`SwapFree: 2048 kB` the subtraction `swap_total - swap_free` wraps:
`memory_data_update` leaves `get_swap_used() = 2 ^ 64 - 1` above
`get_swap_total() = 1`, and stores `100 * (2 ^ 64 - 1)` in
`current_swap_usage_percent` and in `swap_usage_history[0]`. -/
theorem swap_usage_wraps_above_100 :
    1024 ≤ meminfo_swap_free_above_total.swap_total_kb ∧
    get_swap_used (memory_data_update mem_state_initial (some meminfo_swap_free_above_total))
      = 18446744073709551615 ∧
    get_swap_total (memory_data_update mem_state_initial (some meminfo_swap_free_above_total))
      = 1 ∧
    (memory_data_update mem_state_initial
      (some meminfo_swap_free_above_total)).current_swap_usage_percent
      = 1844674407370955161500 ∧
    (memory_data_update mem_state_initial
      (some meminfo_swap_free_above_total)).swap_usage_history 0 = 1844674407370955161500 ∧
    ¬ ((memory_data_update mem_state_initial
      (some meminfo_swap_free_above_total)).current_swap_usage_percent ≤ 100) := by
  have e1 : (memory_data_update mem_state_initial
      (some meminfo_swap_free_above_total)).current_swap_usage_percent
      = 1844674407370955161500 := by
    simp [memory_data_update, meminfo_swap_free_above_total, mem_state_initial, gsub,
      GULONG_RANGE]
    norm_num
  have e2 : (memory_data_update mem_state_initial
      (some meminfo_swap_free_above_total)).swap_usage_history 0 = 1844674407370955161500 := by
    simp [memory_data_update, meminfo_swap_free_above_total, mem_state_initial, gsub,
      GULONG_RANGE, arrSet]
    norm_num
  refine ⟨by decide, by decide, by decide, e1, e2, ?_⟩
  rw [e1]; norm_num

/-! ## The history ring -/

/-- After any number of pushes the index has advanced by that number, and the
`k`-th pushed value sits in slot `(index + k) % 60` as long as fewer than 60
pushes followed it. -/
theorem ring_push_run (vs : List ℚ) (r : (Nat → ℚ) × Nat) (hr : r.2 < MAX_POINTS) :
    (vs.foldl ring_push r).2 = (r.2 + vs.length) % MAX_POINTS ∧
    ∀ (k : Nat) (v : ℚ), vs[k]? = some v → vs.length - k ≤ MAX_POINTS →
      (vs.foldl ring_push r).1 ((r.2 + k) % MAX_POINTS) = v := by
  induction vs using List.reverseRecOn with
  | nil =>
    refine ⟨?_, by simp⟩
    simp only [List.foldl_nil, List.length_nil, Nat.add_zero]
    exact (Nat.mod_eq_of_lt hr).symm
  | append_singleton l a ih =>
    obtain ⟨ih1, ih2⟩ := ih
    rw [List.foldl_append]
    simp only [List.foldl_cons, List.foldl_nil, List.length_append, List.length_singleton]
    constructor
    · simp only [ring_push]
      rw [ih1]
      unfold MAX_POINTS at *
      omega
    · intro k v hk hlen
      by_cases hkl : k < l.length
      · rw [List.getElem?_append_left hkl] at hk
        have hne : (r.2 + k) % MAX_POINTS ≠ (List.foldl ring_push r l).2 := by
          rw [ih1]
          unfold MAX_POINTS at *
          omega
        simp only [ring_push]
        rw [arrSet_other _ _ hne]
        exact ih2 k v hk (by omega)
      · have hk2 : k = l.length := by
          by_contra hne
          have : (l ++ [a]).length ≤ k := by
            simp only [List.length_append, List.length_singleton]; omega
          rw [List.getElem?_eq_none this] at hk
          exact Option.noConfusion hk
        subst hk2
        simp only [List.getElem?_concat_length, Option.some.injEq] at hk
        subst hk
        simp only [ring_push]
        rw [ih1, arrSet_same]

/-- The chronological read of a ring that received at least 60 pushes is the
list of the last 60 pushed values, oldest first. -/
theorem ring_chronological (vs : List ℚ) (r : (Nat → ℚ) × Nat) (hr : r.2 < MAX_POINTS)
    (hlen : MAX_POINTS ≤ vs.length) :
    chronological (vs.foldl ring_push r).1 (vs.foldl ring_push r).2
      = vs.drop (vs.length - MAX_POINTS) := by
  obtain ⟨h1, h2⟩ := ring_push_run vs r hr
  apply List.ext_getElem?
  intro i
  by_cases hi : i < MAX_POINTS
  · have hk : vs.length - MAX_POINTS + i < vs.length := by omega
    rw [List.getElem?_drop, List.getElem?_eq_getElem hk]
    unfold chronological
    rw [List.getElem?_map, List.getElem?_range hi]
    simp only [Option.map_some']
    congr 1
    have hslot : ((vs.foldl ring_push r).2 + i) % MAX_POINTS
        = (r.2 + (vs.length - MAX_POINTS + i)) % MAX_POINTS := by
      rw [h1]
      unfold MAX_POINTS at *
      omega
    rw [hslot]
    exact h2 _ _ (List.getElem?_eq_getElem hk) (by omega)
  · have e1 : (chronological (vs.foldl ring_push r).1 (vs.foldl ring_push r).2)[i]? = none := by
      apply List.getElem?_eq_none
      unfold chronological
      simp only [List.length_map, List.length_range]
      omega
    have e2 : (vs.drop (vs.length - MAX_POINTS))[i]? = none := by
      apply List.getElem?_eq_none
      simp only [List.length_drop]
      omega
    rw [e1, e2]

/-! ## Claims on the memory collector: the history ring -/

theorem memory_run_cons (s : MemState) (m : MemInfo) (ms : List MemInfo) :
    memory_run s (m :: ms) = memory_run (memory_data_update s (some m)) ms := rfl

/-- Over samples that all have at least 1 MB of `MemTotal`, the memory
history and its index evolve as a ring that is pushed the usage percentage of
each sample. -/
theorem memory_run_is_ring (ms : List MemInfo) (s : MemState)
    (hall : ∀ m ∈ ms, 1024 ≤ m.mem_total) :
    ((memory_run s ms).memory_usage_history, (memory_run s ms).memory_usage_index)
      = (ms.map ram_usage_of).foldl ring_push (s.memory_usage_history, s.memory_usage_index) := by
  induction ms generalizing s with
  | nil => rfl
  | cons m ms ih =>
    have hm : 1024 ≤ m.mem_total := hall m (List.mem_cons_self _ _)
    rw [memory_run_cons, ih _ (fun x hx => hall x (List.mem_cons_of_mem _ hx))]
    obtain ⟨_, p2, p3⟩ := memory_data_update_push s m hm
    rw [p2, p3, memory_percent_eq_ram_usage_of s m hm]
    rfl

/-- One tick keeps the memory index within the ring. -/
theorem memory_data_update_index_lt (s : MemState) (file : Option MemInfo)
    (hs : s.memory_usage_index < MAX_POINTS) :
    (memory_data_update s file).memory_usage_index < MAX_POINTS := by
  cases file with
  | none => exact hs
  | some m =>
    simp only [memory_data_update]
    split_ifs <;> first
      | exact hs
      | exact Nat.mod_lt _ (by unfold MAX_POINTS; norm_num)

theorem memory_run_index_lt (ms : List MemInfo) (s : MemState)
    (hs : s.memory_usage_index < MAX_POINTS) :
    (memory_run s ms).memory_usage_index < MAX_POINTS := by
  induction ms generalizing s with
  | nil => exact hs
  | cons m ms ih =>
    rw [memory_run_cons]
    exact ih _ (memory_data_update_index_lt s (some m) hs)

/-- In every reachable state of the memory collector the index is a slot
number, so the ring property below applies from each of them. -/
theorem mem_index_in_range {s : MemState} (h : MemReachable s) :
    s.memory_usage_index < MAX_POINTS := by
  induction h with
  | init => simp [mem_state_initial, MAX_POINTS]
  | tick s file _ ih => exact memory_data_update_index_lt s file ih
  | cleanup s _ _ => simp [memory_data_cleanup, mem_state_initial, MAX_POINTS]

/-- C4. From any state whose index is a slot number, after
`memory_data_update` has run on each of `m >= 60` samples that all have
`MemTotal >= 1024 kB`, the read `memory_usage_history[(memory_usage_index + i)
% 60]`, `i = 0 .. 59`, is the list of the RAM usage percentages of the last 60
samples in sampling order; and after every prefix of the run the index is in
`[0, 59]`. -/
theorem memory_history_ring (s : MemState) (ms : List MemInfo)
    (hs : s.memory_usage_index < 60) (hlen : 60 ≤ ms.length)
    (hall : ∀ m ∈ ms, 1024 ≤ m.mem_total) :
    chronological (memory_run s ms).memory_usage_history (memory_run s ms).memory_usage_index
      = (ms.drop (ms.length - 60)).map ram_usage_of ∧
    ∀ k : Nat, (memory_run s (ms.take k)).memory_usage_index ≤ 59 := by
  constructor
  · have h := memory_run_is_ring ms s hall
    have h1 : (memory_run s ms).memory_usage_history
        = ((ms.map ram_usage_of).foldl ring_push
            (s.memory_usage_history, s.memory_usage_index)).1 := by
      rw [← h]
    have h2 : (memory_run s ms).memory_usage_index
        = ((ms.map ram_usage_of).foldl ring_push
            (s.memory_usage_history, s.memory_usage_index)).2 := by
      rw [← h]
    rw [h1, h2, ring_chronological _ _ hs (by rw [List.length_map]; exact hlen),
      List.length_map, List.map_drop]
    rfl
  · intro k
    have := memory_run_index_lt (ms.take k) s hs
    unfold MAX_POINTS at this
    omega

/-- The usage percentage of a sample in terms of its fields. -/
theorem ram_usage_of_eq (m : MemInfo) (hm : 1024 ≤ m.mem_total) :
    ram_usage_of m
      = 100 * ((if gsub (gsub (gsub (m.mem_total / 1024) (m.mem_free / 1024))
                    (m.buffers / 1024)) (m.cached / 1024) > m.mem_total / 1024
                then m.mem_total / 1024
                else gsub (gsub (gsub (m.mem_total / 1024) (m.mem_free / 1024))
                    (m.buffers / 1024)) (m.cached / 1024) : Nat) : ℚ)
          / ((m.mem_total / 1024 : Nat) : ℚ) := by
  unfold ram_usage_of
  obtain ⟨a1, a2, _, _⟩ := memory_data_update_sizes mem_state_initial m
  rw [(memory_data_update_push mem_state_initial _ hm).1, a1, a2]

theorem ram_usage_of_free_mb (k : Nat) (hk : k ≤ 100) :
    ram_usage_of (meminfo_free_mb k) = ((100 - k : Nat) : ℚ) := by
  have hm : 1024 ≤ (meminfo_free_mb k).mem_total := by
    show 1024 ≤ 102400
    omega
  have e : gsub (gsub (gsub 100 k) 0) 0 = 100 - k := by
    unfold gsub GULONG_RANGE
    omega
  have t1 : (meminfo_free_mb k).mem_total / 1024 = 100 := by
    show 102400 / 1024 = 100
    rfl
  have t2 : (meminfo_free_mb k).mem_free / 1024 = k := by
    show 1024 * k / 1024 = k
    omega
  have t3 : (meminfo_free_mb k).buffers / 1024 = 0 := by
    show 0 / 1024 = 0
    rfl
  have t4 : (meminfo_free_mb k).cached / 1024 = 0 := by
    show 0 / 1024 = 0
    rfl
  rw [ram_usage_of_eq _ hm, t1, t2, t3, t4, e, if_neg (by omega)]
  push_cast
  ring
/-- Witness of C4: the 61 samples of `meminfo_draining`, run from the initial
state; the read returns the usages of samples 1 to 60, that is 99, 98, ..., 40. -/
theorem memory_history_ring_witness :
    chronological (memory_run mem_state_initial meminfo_draining).memory_usage_history
        (memory_run mem_state_initial meminfo_draining).memory_usage_index
      = (List.range 60).map (fun i => ((99 - i : Nat) : ℚ)) := by
  have hall : ∀ m ∈ meminfo_draining, 1024 ≤ m.mem_total := by
    intro m hm
    unfold meminfo_draining at hm
    rw [List.mem_map] at hm
    obtain ⟨k, _, rfl⟩ := hm
    show 1024 ≤ 102400
    omega
  rw [(memory_history_ring mem_state_initial meminfo_draining (by decide) (by decide) hall).1]
  apply List.ext_getElem?
  intro i
  by_cases hi : i < 60
  · have h61 : 1 + i < 61 := by omega
    simp only [meminfo_draining, List.length_map, List.length_range, List.getElem?_map,
      List.getElem?_drop, List.getElem?_range hi, List.getElem?_range h61, Option.map_some',
      Nat.reduceSub]
    rw [ram_usage_of_free_mb _ (by omega)]
    congr 2
    omega
  · have e1 : ((List.drop (meminfo_draining.length - 60) meminfo_draining).map ram_usage_of)[i]?
        = none := by
      apply List.getElem?_eq_none
      simp [meminfo_draining]
      omega
    have e2 : ((List.range 60).map (fun i => ((99 - i : Nat) : ℚ)))[i]? = none := by
      apply List.getElem?_eq_none
      simp
      omega
    rw [e1, e2]

/-! ## Claims on the CPU collector: the history ring -/

theorem cpu_run_cons (s : CpuState) (f : Option ProcStat) (fs : List (Option ProcStat)) :
    cpu_run s (f :: fs) = cpu_run (cpu_data_update s f) fs := rfl

/-- Over ticks that all write, the aggregate history and the index evolve as
a ring that is pushed the value of each tick. -/
theorem cpu_run_is_ring (fs : List ProcStat) (s : CpuState)
    (hall : cpu_ticks_all_write s fs) :
    ((cpu_run s (fs.map some)).cpu_usage_history, (cpu_run s (fs.map some)).cpu_usage_index)
      = (cpu_pushes s fs).foldl ring_push (s.cpu_usage_history, s.cpu_usage_index) ∧
    (cpu_pushes s fs).length = fs.length := by
  induction fs generalizing s with
  | nil => exact ⟨rfl, rfl⟩
  | cons f fs ih =>
    obtain ⟨hw, hrest⟩ := hall
    obtain ⟨ih1, ih2⟩ := ih (cpu_data_update s (some f)) hrest
    have hh : (cpu_data_update s (some f)).cpu_usage_history
        = arrSet s.cpu_usage_history s.cpu_usage_index
            ((cpu_data_update s (some f)).cpu_usage_history s.cpu_usage_index) := by
      rw [(cpu_data_update_aggregate s f).1, (cpu_aggregate_update_write f s hw).2, arrSet_same]
    constructor
    · rw [List.map_cons, cpu_run_cons, ih1]
      simp only [cpu_pushes, if_pos hw, List.singleton_append, List.foldl_cons]
      congr 1
      simp only [ring_push]
      rw [cpu_data_update_index, ← hh]
    · simp only [cpu_pushes, if_pos hw, List.singleton_append, List.length_cons, ih2]

/-- C6 (counterexample to the claim as stated). The 122 ticks of
`ticks_ending_in_repeat`, run from the initial state, all open `/proc/stat`;
120 of them push a value; the last one has a zero delta, advances the index
and writes nothing. The chronological read then ends with 10, the value that
tick 61 pushed, while the last value pushed is 60: the read is not the list of
the last 60 pushed values. -/
theorem cpu_ring_broken_by_skipped_write :
    60 ≤ ticks_ending_in_repeat.length ∧
    (cpu_pushes (cpu_state_initial 1) ticks_ending_in_repeat).length = 120 ∧
    (chronological
        (cpu_run (cpu_state_initial 1) (ticks_ending_in_repeat.map some)).cpu_usage_history
        (cpu_run (cpu_state_initial 1) (ticks_ending_in_repeat.map some)).cpu_usage_index).getLast?
      = some 10 ∧
    (cpu_pushes (cpu_state_initial 1) ticks_ending_in_repeat).getLast? = some 60 ∧
    chronological
        (cpu_run (cpu_state_initial 1) (ticks_ending_in_repeat.map some)).cpu_usage_history
        (cpu_run (cpu_state_initial 1) (ticks_ending_in_repeat.map some)).cpu_usage_index
      ≠ (cpu_pushes (cpu_state_initial 1) ticks_ending_in_repeat).drop
          ((cpu_pushes (cpu_state_initial 1) ticks_ending_in_repeat).length - 60) := by
  decide!

/-- C6 (amended). After any sequence of at least 60 ticks that opened
`/proc/stat` and each wrote the aggregate slot (previous total positive, total
grown), started in a state whose index is a slot number, the read
`cpu_usage_history[(cpu_usage_index + i) % 60]`, `i = 0 .. 59`, is the list of
the last 60 values pushed, in push order, one value having been pushed per
tick. A tick with a zero or backward delta pushes nothing and still moves the
index: it leaves every slot of `cpu_usage_history` as it was. -/
theorem cpu_history_ring_when_all_write (s : CpuState) (fs : List ProcStat)
    (hs : s.cpu_usage_index < 60) (hlen : 60 ≤ fs.length)
    (hall : cpu_ticks_all_write s fs) :
    chronological (cpu_run s (fs.map some)).cpu_usage_history
        (cpu_run s (fs.map some)).cpu_usage_index
      = (cpu_pushes s fs).drop ((cpu_pushes s fs).length - 60) ∧
    (cpu_pushes s fs).length = fs.length ∧
    ∀ (t : CpuState) (f : ProcStat), ¬ cpu_tick_writes t f →
      (cpu_data_update t (some f)).cpu_usage_index = (t.cpu_usage_index + 1) % 60 ∧
      (cpu_data_update t (some f)).cpu_usage_history = t.cpu_usage_history ∧
      cpu_pushes t [f] = [] := by
  obtain ⟨h, hcount⟩ := cpu_run_is_ring fs s hall
  refine ⟨?_, hcount, ?_⟩
  · have h1 : (cpu_run s (fs.map some)).cpu_usage_history
        = ((cpu_pushes s fs).foldl ring_push (s.cpu_usage_history, s.cpu_usage_index)).1 := by
      rw [← h]
    have h2 : (cpu_run s (fs.map some)).cpu_usage_index
        = ((cpu_pushes s fs).foldl ring_push (s.cpu_usage_history, s.cpu_usage_index)).2 := by
      rw [← h]
    rw [h1, h2, ring_chronological _ _ hs (by rw [hcount]; exact hlen)]
    rfl
  · intro t f hn
    refine ⟨cpu_data_update_index t f, ?_, ?_⟩
    · rw [(cpu_data_update_aggregate t f).1, (cpu_aggregate_update_skip f t hn).2]
    · simp [cpu_pushes, hn]

/-- Witness of C6 (amended): from the state after the first tick, the 61
ticks of `ticks_all_growing` all write, and the read returns the values of
the last 60 of them, 60 and 10 in alternation. -/
theorem cpu_history_ring_when_all_write_witness :
    chronological
        (cpu_run (cpu_data_update (cpu_state_initial 1)
            (some (stat_one_core (alternating_sample 0))))
          (ticks_all_growing.map some)).cpu_usage_history
        (cpu_run (cpu_data_update (cpu_state_initial 1)
            (some (stat_one_core (alternating_sample 0))))
          (ticks_all_growing.map some)).cpu_usage_index
      = (List.range 60).map (fun i => if i % 2 = 0 then (60 : ℚ) else 10) :=
  (cpu_history_ring_when_all_write
    (cpu_data_update (cpu_state_initial 1) (some (stat_one_core (alternating_sample 0))))
    ticks_all_growing (by decide!) (by decide!) (by decide!)).1.trans (by decide!)

/-! ## Claims on the process table -/

/-- With a table present, the baseline of the process is stored whatever
branch computes the CPU text. -/
theorem process_cpu_step_hash (h : Nat → Option ProcessCpuData) (D : Nat) (e : ProcEntry) :
    (process_cpu_step (some h) D e).2 = some (hash_set h e.pid ⟨e.utime, e.stime, true⟩) := by
  unfold process_cpu_step
  dsimp only
  split_ifs
  · cases h e.pid <;> rfl
  · rfl

/-- A PID without an entry gets the text `0.0%`. -/
theorem process_cpu_step_new (h : Nat → Option ProcessCpuData) (D : Nat) (e : ProcEntry)
    (hnew : h e.pid = none) : (process_cpu_step (some h) D e).1 = "0.0%" := by
  unfold process_cpu_step
  dsimp only
  split_ifs
  · rw [hnew]
  · rfl

/-- A PID with an entry, on a tick with a positive system delta, gets the
formatted percentage of its own delta. -/
theorem process_cpu_step_tracked (h : Nat → Option ProcessCpuData) (D : Nat) (e : ProcEntry)
    (d : ProcessCpuData) (hd : h e.pid = some d) (hD : 0 < D)
    (hle : gadd d.prev_utime d.prev_stime ≤ gadd e.utime e.stime) :
    (process_cpu_step (some h) D e).1
      = snprintf16 (fmt_one_decimal
          (100 * ((gadd e.utime e.stime - gadd d.prev_utime d.prev_stime : Nat) : ℚ) / (D : ℚ))
          ++ "%") := by
  unfold process_cpu_step
  dsimp only
  rw [if_pos hD, hd]
  dsimp only
  rw [gsub_of_le hle (gadd_lt _ _)]
  by_cases hpos : 100 * ((gadd e.utime e.stime - gadd d.prev_utime d.prev_stime : Nat) : ℚ)
      / (D : ℚ) > 0
  · rw [if_pos hpos]
  · rw [if_neg hpos]
    have hD' : (0 : ℚ) < (D : ℚ) := by exact_mod_cast hD
    have hnn : 0 ≤ 100 * ((gadd e.utime e.stime - gadd d.prev_utime d.prev_stime : Nat) : ℚ)
        / (D : ℚ) := div_nonneg (mul_nonneg (by norm_num) (Nat.cast_nonneg _)) (le_of_lt hD')
    have hz : 100 * ((gadd e.utime e.stime - gadd d.prev_utime d.prev_stime : Nat) : ℚ)
        / (D : ℚ) = 0 := le_antisymm (not_lt.mp hpos) hnn
    rw [hz]

/-- The child rows after `tree_add_child` are the old ones and the new one. -/
theorem tree_add_child_rows (tree : List AppGroup) (e : ProcEntry) (cs ms : String)
    (c : AppChild) :
    c ∈ (tree_add_child tree e cs ms).flatMap (fun g => g.children)
      ↔ c ∈ tree.flatMap (fun g => g.children) ∨ c = ⟨e.proc_name, e.pid, cs, ms⟩ := by
  unfold tree_add_child
  simp only [List.mem_flatMap, List.mem_map]
  constructor
  · rintro ⟨g, ⟨g0, hg0, rfl⟩, hc⟩
    have hg0' : g0 ∈ tree ∨ g0.children = [] := by
      split_ifs at hg0 with hany
      · exact Or.inl hg0
      · rw [List.mem_append, List.mem_singleton] at hg0
        rcases hg0 with hg0 | hg0
        · exact Or.inl hg0
        · right; rw [hg0]
    split_ifs at hc with hname
    · simp only [List.mem_append, List.mem_singleton] at hc
      rcases hc with hc | hc
      · rcases hg0' with hin | hemp
        · exact Or.inl ⟨g0, hin, hc⟩
        · rw [hemp] at hc; exact absurd hc (List.not_mem_nil _)
      · exact Or.inr hc
    · rcases hg0' with hin | hemp
      · exact Or.inl ⟨g0, hin, hc⟩
      · rw [hemp] at hc; exact absurd hc (List.not_mem_nil _)
  · rintro (⟨g0, hg0, hc⟩ | hc)
    · have hin : g0 ∈ (if tree.any (fun g => g.name == e.proc_name) then tree
          else tree ++ [{ name := e.proc_name, cpu_str := "", mem_str := "", agg_cpu := 0,
                          agg_mem := 0, children := [] }]) := by
        split_ifs
        · exact hg0
        · exact List.mem_append_left _ hg0
      refine ⟨_, ⟨g0, hin, rfl⟩, ?_⟩
      split_ifs
      · exact List.mem_append_left _ hc
      · exact hc
    · by_cases hany : tree.any (fun g => g.name == e.proc_name) = true
      · rw [if_pos hany]
        obtain ⟨g0, hg0, hname⟩ := List.any_eq_true.mp hany
        refine ⟨_, ⟨g0, hg0, rfl⟩, ?_⟩
        rw [if_pos hname, hc]
        exact List.mem_append_right _ (List.mem_singleton_self _)
      · rw [if_neg hany]
        refine ⟨_, ⟨_, List.mem_append_right _ (List.mem_singleton_self _), rfl⟩, ?_⟩
        simp only [beq_self_eq_true, if_true, hc]
        exact List.mem_append_right _ (List.mem_singleton_self _)

theorem apps_entry_step_hash (D : Nat) (fl : String) (st : AppsLoop) (e : ProcEntry)
    (h : Nat → Option ProcessCpuData) (hh : st.hash = some h) :
    (apps_entry_step D fl st e).hash = some (hash_set h e.pid ⟨e.utime, e.stime, true⟩) := by
  unfold apps_entry_step
  dsimp only
  rw [hh]
  split_ifs <;> exact process_cpu_step_hash h D e

theorem apps_entry_step_rows (D : Nat) (fl : String) (st : AppsLoop) (e : ProcEntry)
    (c : AppChild) :
    c ∈ (apps_entry_step D fl st e).tree.flatMap (fun g => g.children)
      ↔ c ∈ st.tree.flatMap (fun g => g.children) ∨
        (entry_shown fl e = true ∧
          c = ⟨e.proc_name, e.pid, (process_cpu_step st.hash D e).1,
                snprintf16 (fmt_one_decimal ((e.kb : ℚ) / 1024))⟩) := by
  unfold apps_entry_step
  dsimp only
  split_ifs with hs
  · rw [tree_add_child_rows]
    simp [hs]
  · simp [hs]

/-- Entries of other PIDs leave the baseline of a PID and its rows alone. -/
theorem apps_loop_other (D : Nat) (fl : String) (p : Nat) (entries : List ProcEntry)
    (st : AppsLoop) (h : Nat → Option ProcessCpuData) (hh : st.hash = some h)
    (hne : ∀ x ∈ entries, x.pid ≠ p) :
    (∃ h2, (entries.foldl (apps_entry_step D fl) st).hash = some h2 ∧ h2 p = h p) ∧
    ∀ c : AppChild, c.pid = p →
      (c ∈ (entries.foldl (apps_entry_step D fl) st).tree.flatMap (fun g => g.children)
        ↔ c ∈ st.tree.flatMap (fun g => g.children)) := by
  induction entries generalizing st h with
  | nil => exact ⟨⟨h, hh, rfl⟩, fun c _ => Iff.rfl⟩
  | cons x xs ih =>
    have hx : x.pid ≠ p := hne x (List.mem_cons_self _ _)
    have hstep := apps_entry_step_hash D fl st x h hh
    obtain ⟨⟨h2, e2, v2⟩, r2⟩ := ih (apps_entry_step D fl st x) _ hstep
      (fun y hy => hne y (List.mem_cons_of_mem _ hy))
    rw [List.foldl_cons]
    refine ⟨⟨h2, e2, ?_⟩, ?_⟩
    · rw [v2]
      simp only [hash_set]
      rw [if_neg (fun hp => hx hp.symm)]
    · intro c hc
      rw [r2 c hc, apps_entry_step_rows]
      constructor
      · rintro (hin | ⟨_, rfl⟩)
        · exact hin
        · exact absurd hc hx
      · exact Or.inl

theorem set_group_texts_rows (tree : List AppGroup) :
    (set_group_texts tree).flatMap (fun g => g.children)
      = tree.flatMap (fun g => g.children) := by
  unfold set_group_texts
  induction tree with
  | nil => rfl
  | cons g gs ih => simp only [List.map_cons, List.flatMap_cons, ih]

theorem mem_rows_of_pid (tree : List AppGroup) (p : Nat) (c : AppChild) :
    c ∈ rows_of_pid tree p ↔ c ∈ tree.flatMap (fun g => g.children) ∧ c.pid = p := by
  unfold rows_of_pid
  simp

/-- The CPU text of a process depends on the table through its own entry
only. -/
theorem process_cpu_step_text_congr (h1 h2 : Nat → Option ProcessCpuData) (D : Nat)
    (e : ProcEntry) (heq : h1 e.pid = h2 e.pid) :
    (process_cpu_step (some h1) D e).1 = (process_cpu_step (some h2) D e).1 := by
  unfold process_cpu_step
  dsimp only
  rw [heq]
  split_ifs
  · cases h2 e.pid <;> rfl
  · rfl

/-- What a tick does for a PID listed once: its row, if shown, carries the text
computed from the entry the table held at the start of the tick, and the
table ends with its new baseline. -/
theorem update_apps_list_entry (s : AppsState) (h : Nat → Option ProcessCpuData)
    (stat : Option ProcStat) (pre post : List ProcEntry) (e : ProcEntry)
    (hh : s.process_cpu_times_hash = some h)
    (hpre : ∀ x ∈ pre, x.pid ≠ e.pid) (hpost : ∀ x ∈ post, x.pid ≠ e.pid) :
    (∀ c : AppChild,
      c ∈ rows_of_pid (update_apps_list s stat (some (pre ++ e :: post))).tree_store e.pid
        ↔ (entry_shown s.apps_search_filter e = true ∧
            c = ⟨e.proc_name, e.pid,
              (process_cpu_step (some (mark_all_unseen h))
                (if s.prev_total_system_jiffies > 0
                    ∧ get_total_system_jiffies stat > s.prev_total_system_jiffies
                  then gsub (get_total_system_jiffies stat) s.prev_total_system_jiffies
                  else 0) e).1,
              snprintf16 (fmt_one_decimal ((e.kb : ℚ) / 1024))⟩)) ∧
    ∃ tbl,
      (update_apps_list s stat (some (pre ++ e :: post))).process_cpu_times_hash = some tbl ∧
      tbl e.pid = some ⟨e.utime, e.stime, true⟩ := by
  simp only [update_apps_list, hh, Option.map_some']
  rw [List.foldl_append, List.foldl_cons]
  obtain ⟨⟨h1, e1, v1⟩, r1⟩ := apps_loop_other
    (if s.prev_total_system_jiffies > 0
        ∧ get_total_system_jiffies stat > s.prev_total_system_jiffies
      then gsub (get_total_system_jiffies stat) s.prev_total_system_jiffies else 0)
    s.apps_search_filter e.pid pre { hash := some (mark_all_unseen h), tree := [] }
    (mark_all_unseen h) rfl hpre
  have hstep := apps_entry_step_hash
    (if s.prev_total_system_jiffies > 0
        ∧ get_total_system_jiffies stat > s.prev_total_system_jiffies
      then gsub (get_total_system_jiffies stat) s.prev_total_system_jiffies else 0)
    s.apps_search_filter _ e h1 e1
  obtain ⟨⟨h2, e2, v2⟩, r2⟩ := apps_loop_other
    (if s.prev_total_system_jiffies > 0
        ∧ get_total_system_jiffies stat > s.prev_total_system_jiffies
      then gsub (get_total_system_jiffies stat) s.prev_total_system_jiffies else 0)
    s.apps_search_filter e.pid post _ _ hstep hpost
  constructor
  · intro c
    rw [mem_rows_of_pid, set_group_texts_rows]
    constructor
    · rintro ⟨hin, hpid⟩
      rw [r2 c hpid, apps_entry_step_rows] at hin
      rcases hin with hin | ⟨hs, hc⟩
      · rw [r1 c hpid] at hin
        simp at hin
      · refine ⟨hs, ?_⟩
        rw [hc, e1, process_cpu_step_text_congr h1 (mark_all_unseen h) _ e v1]
    · rintro ⟨hs, hc⟩
      have hpid : c.pid = e.pid := by rw [hc]
      refine ⟨?_, hpid⟩
      rw [r2 c hpid, apps_entry_step_rows]
      right
      refine ⟨hs, ?_⟩
      rw [hc, e1, process_cpu_step_text_congr h1 (mark_all_unseen h) _ e v1]
  · refine ⟨remove_unseen h2, ?_, ?_⟩
    · rw [e2]
      rfl
    · simp only [remove_unseen, v2, hash_set, if_true]

theorem get_total_system_jiffies_lt (stat : Option ProcStat) :
    get_total_system_jiffies stat < GULONG_RANGE := by
  cases stat with
  | none => unfold get_total_system_jiffies GULONG_RANGE; norm_num
  | some f => exact cpu_total_of_lt _

/-- C10. In a tick of `update_apps_list` with the baseline table present, for a
PID that `/proc` lists once: (1) if the table holds no entry for it, its row
(present when the process passes the `system.slice` and search filters) shows
CPU `0.0%`, and the table ends with the baseline `(utime, stime)`; (2) if the
table holds `(u0, s0)`, the process is read with `(u1, s1)`, `u1 + s1 >= u0 +
s0` (sums as the code computes them) and the system total advanced by `D > 0`
over a positive previous reading, its row shows `100 * ((u1 + s1) - (u0 + s0)) /
D` formatted by `"%.1f%%"` into the 16-byte buffer, and the table ends with the
baseline `(u1, s1)`; (3) baseline `(100, 50)`, sample `(150, 80)` and `D = 200`
format as `40.0%`. -/
theorem apps_cpu_percent_from_baseline (s : AppsState) (h : Nat → Option ProcessCpuData)
    (stat : Option ProcStat) (pre post : List ProcEntry) (e : ProcEntry)
    (hh : s.process_cpu_times_hash = some h)
    (hpre : ∀ x ∈ pre, x.pid ≠ e.pid) (hpost : ∀ x ∈ post, x.pid ≠ e.pid) :
    (h e.pid = none →
      (∀ c : AppChild,
        c ∈ rows_of_pid (update_apps_list s stat (some (pre ++ e :: post))).tree_store e.pid
          ↔ (entry_shown s.apps_search_filter e = true ∧
              c = ⟨e.proc_name, e.pid, "0.0%",
                    snprintf16 (fmt_one_decimal ((e.kb : ℚ) / 1024))⟩)) ∧
      ∃ tbl,
        (update_apps_list s stat (some (pre ++ e :: post))).process_cpu_times_hash = some tbl ∧
        tbl e.pid = some ⟨e.utime, e.stime, true⟩) ∧
    (∀ d : ProcessCpuData, h e.pid = some d →
      0 < s.prev_total_system_jiffies →
      s.prev_total_system_jiffies < get_total_system_jiffies stat →
      gadd d.prev_utime d.prev_stime ≤ gadd e.utime e.stime →
      (∀ c : AppChild,
        c ∈ rows_of_pid (update_apps_list s stat (some (pre ++ e :: post))).tree_store e.pid
          ↔ (entry_shown s.apps_search_filter e = true ∧
              c = ⟨e.proc_name, e.pid,
                    snprintf16 (fmt_one_decimal
                      (100 * ((gadd e.utime e.stime - gadd d.prev_utime d.prev_stime : Nat) : ℚ)
                        / ((get_total_system_jiffies stat - s.prev_total_system_jiffies : Nat)
                            : ℚ)) ++ "%"),
                    snprintf16 (fmt_one_decimal ((e.kb : ℚ) / 1024))⟩)) ∧
      ∃ tbl,
        (update_apps_list s stat (some (pre ++ e :: post))).process_cpu_times_hash = some tbl ∧
        tbl e.pid = some ⟨e.utime, e.stime, true⟩) ∧
    snprintf16 (fmt_one_decimal
      (100 * ((gadd 150 80 - gadd 100 50 : Nat) : ℚ) / ((200 : Nat) : ℚ)) ++ "%") = "40.0%" := by
  obtain ⟨hrows, htbl⟩ := update_apps_list_entry s h stat pre post e hh hpre hpost
  refine ⟨?_, ?_, by decide!⟩
  · intro hnew
    refine ⟨?_, htbl⟩
    intro c
    rw [hrows c, process_cpu_step_new _ _ e (by simp [mark_all_unseen, hnew])]
  · intro d hd hprev hgrow hle
    refine ⟨?_, htbl⟩
    intro c
    have hD : 0 < gsub (get_total_system_jiffies stat) s.prev_total_system_jiffies := by
      rw [gsub_of_le (Nat.le_of_lt hgrow) (get_total_system_jiffies_lt stat)]
      omega
    rw [hrows c, if_pos ⟨hprev, hgrow⟩,
      process_cpu_step_tracked (mark_all_unseen h) _ e
        { d with seen_this_cycle := false } (by simp [mark_all_unseen, hd]) hD hle,
      gsub_of_le (Nat.le_of_lt hgrow) (get_total_system_jiffies_lt stat)]

/-- Witness of C10: process 42 is first listed in the tick after `activate`
and shows `0.0%`; one tick later, read with `(150, 80)` while the system total
went from 1200 to 1400, it shows `40.0%`. -/
theorem apps_cpu_percent_from_baseline_witness :
    (⟨"chrome", 42, "0.0%", "2.0"⟩ : AppChild) ∈ rows_of_pid apps_state_first_tick.tree_store 42 ∧
    (⟨"chrome", 42, "40.0%", "2.0"⟩ : AppChild) ∈ rows_of_pid
      (update_apps_list apps_state_first_tick (some (stat_with_jiffies 1400))
        (some [chrome_next_tick])).tree_store 42 := by
  constructor
  · exact ((apps_cpu_percent_from_baseline apps_state_activated (fun _ => none)
      (some (stat_with_jiffies 1200)) [] [] chrome_first_seen rfl
      (fun _ hx => absurd hx (List.not_mem_nil _))
      (fun _ hx => absurd hx (List.not_mem_nil _))).1 rfl).1 _ |>.mpr ⟨by decide, by decide!⟩
  · exact ((apps_cpu_percent_from_baseline apps_state_first_tick _
      (some (stat_with_jiffies 1400)) [] [] chrome_next_tick rfl
      (fun _ hx => absurd hx (List.not_mem_nil _))
      (fun _ hx => absurd hx (List.not_mem_nil _))).2.1 ⟨100, 50, true⟩ rfl
        (by decide) (by decide) (by decide)).1 _ |>.mpr ⟨by decide, by decide!⟩

/-- C11 (evaluation at the failing input). Process 42 has the baseline
`(100, 50)`; in the next tick its `stat` cannot be read (`utime = stime = 0`)
while the system total advanced from 1200 to 1400. The `gulong` difference
`0 - 150` wraps to `2 ^ 64 - 150`, the percentage is
`100 * (2 ^ 64 - 150) / 200 = 9223372036854775733`, and the row shows the first
15 characters of its `"%.1f%%"` rendering, `922337203685477`, not `0.0%`. -/
theorem apps_cpu_wraps_on_decrease :
    rows_of_pid
        (update_apps_list apps_state_first_tick (some (stat_with_jiffies 1400))
          (some [chrome_stat_unreadable])).tree_store 42
      = [⟨"chrome", 42, "922337203685477", "2.0"⟩] ∧
    (process_cpu_step (some (fun p => if p = 42 then some ⟨100, 50, false⟩ else none)) 200
        chrome_stat_unreadable).1 ≠ "0.0%" := by
  decide!

/-- The entry the table holds for a PID after the scan: the baseline of the
last listed directory with that PID, else what it held before. -/
theorem apps_loop_hash (D : Nat) (fl : String) (entries : List ProcEntry) (st : AppsLoop)
    (h : Nat → Option ProcessCpuData) (hh : st.hash = some h) :
    ∃ h2, (entries.foldl (apps_entry_step D fl) st).hash = some h2 ∧
      ∀ p : Nat, h2 p = entries.foldl
        (fun acc e => if e.pid = p then some ⟨e.utime, e.stime, true⟩ else acc) (h p) := by
  induction entries generalizing st h with
  | nil => exact ⟨h, hh, fun _ => rfl⟩
  | cons x xs ih =>
    obtain ⟨h2, e2, v2⟩ := ih (apps_entry_step D fl st x) _ (apps_entry_step_hash D fl st x h hh)
    refine ⟨h2, e2, ?_⟩
    intro p
    rw [v2 p, List.foldl_cons]
    congr 1
    simp only [hash_set]
    by_cases hp : p = x.pid
    · rw [if_pos hp, if_pos hp.symm]
    · rw [if_neg hp, if_neg (fun hq => hp hq.symm)]

theorem last_baseline_absent (entries : List ProcEntry) (p : Nat)
    (init : Option ProcessCpuData) (hne : ∀ x ∈ entries, x.pid ≠ p) :
    entries.foldl (fun acc e => if e.pid = p then some ⟨e.utime, e.stime, true⟩ else acc) init
      = init := by
  induction entries generalizing init with
  | nil => rfl
  | cons x xs ih =>
    rw [List.foldl_cons, if_neg (hne x (List.mem_cons_self _ _))]
    exact ih init (fun y hy => hne y (List.mem_cons_of_mem _ hy))

theorem last_baseline_present (pre post : List ProcEntry) (e : ProcEntry)
    (init : Option ProcessCpuData) (hpost : ∀ x ∈ post, x.pid ≠ e.pid) :
    (pre ++ e :: post).foldl
        (fun acc x => if x.pid = e.pid then some ⟨x.utime, x.stime, true⟩ else acc) init
      = some ⟨e.utime, e.stime, true⟩ := by
  rw [List.foldl_append, List.foldl_cons, if_pos rfl]
  exact last_baseline_absent post e.pid _ hpost

theorem last_baseline_seen (entries : List ProcEntry) (p : Nat)
    (init : Option ProcessCpuData) (hex : ∃ e ∈ entries, e.pid = p) :
    ∃ d : ProcessCpuData,
      entries.foldl (fun acc e => if e.pid = p then some ⟨e.utime, e.stime, true⟩ else acc) init
        = some d ∧ d.seen_this_cycle = true := by
  induction entries using List.reverseRecOn with
  | nil =>
    obtain ⟨e, he, _⟩ := hex
    exact absurd he (List.not_mem_nil _)
  | append_singleton l x ih =>
    rw [List.foldl_append, List.foldl_cons, List.foldl_nil]
    by_cases hx : x.pid = p
    · rw [if_pos hx]
      exact ⟨_, rfl, rfl⟩
    · rw [if_neg hx]
      apply ih
      obtain ⟨e, he, hpe⟩ := hex
      rw [List.mem_append, List.mem_singleton] at he
      rcases he with he | he
      · exact ⟨e, he, hpe⟩
      · exact absurd (he ▸ hpe) hx

/-- C13. After a tick of `update_apps_list` that enumerated `/proc`, with the
baseline table present: a PID has an entry in the table exactly when the tick
enumerated it; the entry of an enumerated PID holds the `(utime, stime)` read
for it (at its last listing, should `/proc` list it twice), whether or not its
row was filtered out; and a PID that was tracked before and was not
enumerated has no entry any more. -/
theorem apps_table_tracks_enumeration (s : AppsState) (h : Nat → Option ProcessCpuData)
    (stat : Option ProcStat) (entries : List ProcEntry)
    (hh : s.process_cpu_times_hash = some h) :
    ∃ tbl, (update_apps_list s stat (some entries)).process_cpu_times_hash = some tbl ∧
      (∀ p : Nat, (tbl p).isSome = true ↔ ∃ e ∈ entries, e.pid = p) ∧
      (∀ (pre post : List ProcEntry) (e : ProcEntry), entries = pre ++ e :: post →
        (∀ x ∈ post, x.pid ≠ e.pid) → tbl e.pid = some ⟨e.utime, e.stime, true⟩) ∧
      (∀ p : Nat, (h p).isSome = true → (∀ e ∈ entries, e.pid ≠ p) → tbl p = none) := by
  simp only [update_apps_list, hh, Option.map_some']
  obtain ⟨h2, e2, v2⟩ := apps_loop_hash
    (if s.prev_total_system_jiffies > 0
        ∧ get_total_system_jiffies stat > s.prev_total_system_jiffies
      then gsub (get_total_system_jiffies stat) s.prev_total_system_jiffies else 0)
    s.apps_search_filter entries { hash := some (mark_all_unseen h), tree := [] }
    (mark_all_unseen h) rfl
  have habsent : ∀ p : Nat, (∀ e ∈ entries, e.pid ≠ p) → remove_unseen h2 p = none := by
    intro p hp
    simp only [remove_unseen]
    rw [v2 p, last_baseline_absent entries p _ hp]
    simp only [mark_all_unseen]
    cases h p <;> simp
  have hpresent : ∀ (pre post : List ProcEntry) (e : ProcEntry), entries = pre ++ e :: post →
      (∀ x ∈ post, x.pid ≠ e.pid) → remove_unseen h2 e.pid = some ⟨e.utime, e.stime, true⟩ := by
    intro pre post e he hpost
    simp only [remove_unseen]
    rw [v2 e.pid, he, last_baseline_present pre post e _ hpost]
    simp
  refine ⟨remove_unseen h2, by rw [e2]; rfl, ?_, hpresent, fun p _ hp => habsent p hp⟩
  intro p
  constructor
  · intro hsome
    by_contra hno
    have hp : ∀ e ∈ entries, e.pid ≠ p := fun e he hpe => hno ⟨e, he, hpe⟩
    rw [habsent p hp] at hsome
    exact Bool.noConfusion hsome
  · intro hex
    obtain ⟨d, hd, hseen⟩ := last_baseline_seen entries p (mark_all_unseen h p) hex
    simp only [remove_unseen]
    rw [v2 p, hd]
    simp [hseen]

/-- Witness of C13: from `apps_state_three_chromes` a tick that lists PIDs 100
and 150 only leaves PID 100 with the baseline just read and drops PID 200. -/
theorem apps_table_tracks_enumeration_witness :
    ∃ tbl,
      (update_apps_list apps_state_three_chromes (some (stat_with_jiffies 1200))
        (some (three_chromes.take 2))).process_cpu_times_hash = some tbl ∧
      tbl 100 = some ⟨110, 100, true⟩ ∧ tbl 200 = none := by
  obtain ⟨tbl, ht, _, hp, ha⟩ := apps_table_tracks_enumeration apps_state_three_chromes _
    (some (stat_with_jiffies 1200)) (three_chromes.take 2) rfl
  exact ⟨tbl, ht,
    hp [] [⟨150, "bash", 7, 3, 512, false⟩] ⟨100, "chrome", 110, 100, 1024, false⟩ rfl
      (by decide),
    ha 200 (by decide) (by decide)⟩

/-! ## Claims on the process table: grouping -/

theorem tree_add_child_eq (tree : List AppGroup) (e : ProcEntry) (cs ms : String) :
    tree_add_child tree e cs ms
      = (if tree.any (fun g => g.name == e.proc_name) then tree
          else tree ++ [{ name := e.proc_name, cpu_str := "", mem_str := "", agg_cpu := 0,
                          agg_mem := 0, children := [] }]).map (add_to_group e cs ms) := rfl

theorem add_to_group_name (e : ProcEntry) (cs ms : String) (g : AppGroup) :
    (add_to_group e cs ms g).name = g.name := by
  unfold add_to_group
  split_ifs <;> rfl

theorem add_to_group_other (e : ProcEntry) (cs ms : String) (g : AppGroup)
    (h : g.name ≠ e.proc_name) : add_to_group e cs ms g = g := by
  unfold add_to_group
  rw [if_neg (by simpa using h)]

theorem filter_map_preserving {α : Type} (p : α → Bool) (F : α → α) (l : List α)
    (hp : ∀ a, p (F a) = p a) : (l.map F).filter p = (l.filter p).map F := by
  induction l with
  | nil => rfl
  | cons a as ih =>
    simp only [List.map_cons, List.filter_cons, hp a]
    split_ifs
    · rw [List.map_cons, ih]
    · exact ih

theorem map_add_to_group_other (e : ProcEntry) (cs ms : String) (l : List AppGroup)
    (h : ∀ g ∈ l, g.name ≠ e.proc_name) : l.map (add_to_group e cs ms) = l := by
  induction l with
  | nil => rfl
  | cons g gs ih =>
    rw [List.map_cons, add_to_group_other e cs ms g (h g (List.mem_cons_self _ _)),
      ih (fun x hx => h x (List.mem_cons_of_mem _ hx))]

/-- The parent rows of a name after `tree_add_child`, in terms of those
before. -/
theorem tree_add_child_filter (tree : List AppGroup) (e : ProcEntry) (cs ms : String)
    (n : String) :
    (tree_add_child tree e cs ms).filter (fun g => g.name == n)
      = ((if tree.any (fun g => g.name == e.proc_name) then tree
          else tree ++ [{ name := e.proc_name, cpu_str := "", mem_str := "", agg_cpu := 0,
                          agg_mem := 0, children := [] }]).filter
            (fun g => g.name == n)).map (add_to_group e cs ms) := by
  rw [tree_add_child_eq]
  exact filter_map_preserving _ _ _ (fun g => by rw [add_to_group_name])

theorem group_holds_add_other (tree : List AppGroup) (e : ProcEntry) (cs ms : String)
    (n : String) (shown : List ProcEntry) (hne : e.proc_name ≠ n)
    (h : group_holds tree n shown) : group_holds (tree_add_child tree e cs ms) n shown := by
  have hfil : (tree_add_child tree e cs ms).filter (fun g => g.name == n)
      = tree.filter (fun g => g.name == n) := by
    rw [tree_add_child_filter]
    have hsame : (if tree.any (fun g => g.name == e.proc_name) then tree
          else tree ++ [{ name := e.proc_name, cpu_str := "", mem_str := "", agg_cpu := 0,
                          agg_mem := 0, children := [] }]).filter (fun g => g.name == n)
        = tree.filter (fun g => g.name == n) := by
      split_ifs
      · rfl
      · rw [List.filter_append]
        simp [List.filter_cons, hne]
    rw [hsame]
    apply map_add_to_group_other
    intro g hg
    have hgn : g.name = n := by simpa using (List.mem_filter.mp hg).2
    rw [hgn]
    exact fun hq => hne hq.symm
  unfold group_holds
  rw [hfil]
  exact h

theorem group_holds_add_same (tree : List AppGroup) (e : ProcEntry) (cs ms : String)
    (shown : List ProcEntry) (h : group_holds tree e.proc_name shown) :
    group_holds (tree_add_child tree e cs ms) e.proc_name (shown ++ [e]) := by
  obtain ⟨hnone, hsome⟩ := h
  refine ⟨fun habs => absurd habs (by simp), fun _ => ?_⟩
  rw [tree_add_child_filter]
  by_cases hs : shown = []
  · have hempty := hnone hs
    have hany : ¬ (tree.any (fun g => g.name == e.proc_name) = true) := by
      intro hany
      obtain ⟨g, hg, hgn⟩ := List.any_eq_true.mp hany
      have : g ∈ tree.filter (fun g => g.name == e.proc_name) := List.mem_filter.mpr ⟨hg, hgn⟩
      rw [hempty] at this
      exact absurd this (List.not_mem_nil _)
    rw [if_neg hany, List.filter_append, hempty, hs]
    refine ⟨add_to_group e cs ms ⟨e.proc_name, "", "", 0, 0, []⟩, ?_, ?_, ?_, ?_⟩
    · simp [List.filter_cons]
    · simp [add_to_group]
    · simp [add_to_group]
    · simp [add_to_group, gadd]
  · obtain ⟨g, hg, hch, hcpu, hmem⟩ := hsome hs
    have hgmem : g ∈ tree.filter (fun g => g.name == e.proc_name) := by
      rw [hg]; exact List.mem_singleton_self g
    have hgn : (g.name == e.proc_name) = true := (List.mem_filter.mp hgmem).2
    have hany : tree.any (fun g => g.name == e.proc_name) = true :=
      List.any_eq_true.mpr ⟨g, (List.mem_filter.mp hgmem).1, hgn⟩
    rw [if_pos hany, hg]
    refine ⟨add_to_group e cs ms g, rfl, ?_, ?_, ?_⟩
    · simp [add_to_group, hgn, hch]
    · simp [add_to_group, hgn, hcpu]
    · simp only [add_to_group, hgn, if_true, hmem, List.map_append, List.sum_append,
        List.map_cons, List.map_nil, List.sum_cons, List.sum_nil, Nat.add_zero]
      unfold gadd
      rw [Nat.mod_add_mod]

theorem apps_entry_step_tree (D : Nat) (fl : String) (st : AppsLoop) (e : ProcEntry) :
    (apps_entry_step D fl st e).tree
      = if entry_shown fl e = true
          then tree_add_child st.tree e (process_cpu_step st.hash D e).1
            (snprintf16 (fmt_one_decimal ((e.kb : ℚ) / 1024)))
          else st.tree := by
  unfold apps_entry_step
  dsimp only
  split_ifs <;> rfl

/-- The scan keeps, for every name, one parent row holding the shown
processes of that name. -/
theorem apps_loop_groups (D : Nat) (fl : String) (n : String) (entries : List ProcEntry)
    (st : AppsLoop) (shown : List ProcEntry) (h : group_holds st.tree n shown) :
    group_holds (entries.foldl (apps_entry_step D fl) st).tree n
      (shown ++ entries.filter (fun e => entry_shown fl e && e.proc_name == n)) := by
  induction entries generalizing st shown with
  | nil => simpa using h
  | cons x xs ih =>
    rw [List.foldl_cons]
    by_cases hs : entry_shown fl x = true
    · by_cases hn : x.proc_name = n
      · have hstep : group_holds (apps_entry_step D fl st x).tree n (shown ++ [x]) := by
          rw [apps_entry_step_tree, if_pos hs]
          subst hn
          exact group_holds_add_same _ _ _ _ _ h
        have := ih _ _ hstep
        simpa [List.filter_cons, hs, hn] using this
      · have hstep : group_holds (apps_entry_step D fl st x).tree n shown := by
          rw [apps_entry_step_tree, if_pos hs]
          exact group_holds_add_other _ _ _ _ _ _ hn h
        have := ih _ _ hstep
        simpa [List.filter_cons, hs, hn] using this
    · have hstep : group_holds (apps_entry_step D fl st x).tree n shown := by
        rw [apps_entry_step_tree, if_neg hs]
        exact h
      have := ih _ _ hstep
      simpa [List.filter_cons, hs] using this

theorem group_holds_empty (n : String) : group_holds [] n [] :=
  ⟨fun _ => rfl, fun h => absurd rfl h⟩

/-- C12. In every tick of `update_apps_list` that enumerated `/proc`, for
every name borne by at least one process that passes the `system.slice` and
search filters, the tree store holds exactly one parent row of that name; its
child rows are exactly the processes of that name that pass the filters, in
listing order; its CPU column is the `"%.1f"` text of the sum of the values
its child rows display (`atof` of their CPU texts); its memory column is the
`"%.1f"` text of the `gulong` sum of their `kb` divided by 1024; and three
child rows showing `5.0%`, `10.0%` and `15.0%` give `30.0`. -/
theorem apps_groups_aggregate (s : AppsState) (stat : Option ProcStat)
    (entries : List ProcEntry) (n : String)
    (hex : ∃ e ∈ entries, entry_shown s.apps_search_filter e = true ∧ e.proc_name = n) :
    (∃ g : AppGroup,
      (update_apps_list s stat (some entries)).tree_store.filter (fun g => g.name == n) = [g] ∧
      g.children.map (fun c => (c.name, c.pid))
        = (entries.filter
            (fun e => entry_shown s.apps_search_filter e && e.proc_name == n)).map
            (fun e => (e.proc_name, e.pid)) ∧
      g.cpu_str
        = snprintf16 (fmt_one_decimal (g.children.map (fun c => atof c.cpu_str)).sum) ∧
      g.mem_str
        = snprintf16 (fmt_one_decimal
            ((((entries.filter
                (fun e => entry_shown s.apps_search_filter e && e.proc_name == n)).map
                (fun e => e.kb)).sum % GULONG_RANGE : Nat) / 1024))) ∧
    snprintf16 (fmt_one_decimal ([atof "5.0%", atof "10.0%", atof "15.0%"]).sum) = "30.0" := by
  refine ⟨?_, by decide!⟩
  have hinv := apps_loop_groups
    (if s.prev_total_system_jiffies > 0
        ∧ get_total_system_jiffies stat > s.prev_total_system_jiffies
      then gsub (get_total_system_jiffies stat) s.prev_total_system_jiffies else 0)
    s.apps_search_filter n entries
    { hash := s.process_cpu_times_hash.map mark_all_unseen, tree := [] } []
    (group_holds_empty n)
  rw [List.nil_append] at hinv
  have hne : entries.filter
      (fun e => entry_shown s.apps_search_filter e && e.proc_name == n) ≠ [] := by
    obtain ⟨e, he, hs, hn⟩ := hex
    intro habs
    have : e ∈ entries.filter
        (fun e => entry_shown s.apps_search_filter e && e.proc_name == n) :=
      List.mem_filter.mpr ⟨he, by simp [hs, hn]⟩
    rw [habs] at this
    exact absurd this (List.not_mem_nil _)
  obtain ⟨g, hg, hch, hcpu, hmem⟩ := hinv.2 hne
  refine ⟨{ g with
      cpu_str := snprintf16 (fmt_one_decimal g.agg_cpu)
      mem_str := snprintf16 (fmt_one_decimal ((g.agg_mem : ℚ) / 1024)) }, ?_, hch, ?_, ?_⟩
  · simp only [update_apps_list, set_group_texts]
    rw [filter_map_preserving (fun g : AppGroup => g.name == n)
      (fun g : AppGroup => { g with
        cpu_str := snprintf16 (fmt_one_decimal g.agg_cpu)
        mem_str := snprintf16 (fmt_one_decimal ((g.agg_mem : ℚ) / 1024)) }) _ (fun _ => rfl),
      hg]
    rfl
  · simp only [hcpu]
  · simp only [hmem]

/-- Witness of C12: from `apps_state_three_chromes`, with the system total
advancing from 1000 to 1200, the three `chrome` processes show 5.0%, 10.0% and
15.0% and their parent row shows 30.0 and 6.0 MB. -/
theorem apps_groups_aggregate_witness :
    (∃ g : AppGroup,
      (update_apps_list apps_state_three_chromes (some (stat_with_jiffies 1200))
        (some three_chromes)).tree_store.filter (fun g => g.name == "chrome") = [g] ∧
      g.children.map (fun c => (c.name, c.pid))
        = [("chrome", 100), ("chrome", 200), ("chrome", 300)]) ∧
    (update_apps_list apps_state_three_chromes (some (stat_with_jiffies 1200))
      (some three_chromes)).tree_store.filter (fun g => g.name == "chrome")
      = [⟨"chrome", "30.0", "6.0", 30, 6144,
          [⟨"chrome", 100, "5.0%", "1.0"⟩, ⟨"chrome", 200, "10.0%", "2.0"⟩,
           ⟨"chrome", 300, "15.0%", "3.0"⟩]⟩] := by
  constructor
  · obtain ⟨⟨g, hg, hch, _, _⟩, _⟩ := apps_groups_aggregate apps_state_three_chromes
      (some (stat_with_jiffies 1200)) three_chromes "chrome"
      ⟨⟨100, "chrome", 110, 100, 1024, false⟩, by decide, by decide, rfl⟩
    exact ⟨g, hg, hch.trans (by decide)⟩
  · decide!

/-! ## Claims on the network collector -/

/-- C15 (evaluation at the failing input). After `network_data_init`, a tick
reads `wlan0` alone and the next tick reads `eth0` followed by `wlan0`. Slot 0
now holds `eth0` and inherits the byte counters `wlan0` left there: `eth0`,
first seen in this tick, is reported with `(5096000 - 1000000) / 1024 / 2 =
2000` KB/s. Slot 1 holds `wlan0` with an empty baseline: it is reported with 0
KB/s although its own counter grew by 204800 bytes (100 KB/s). -/
theorem net_speed_follows_slot_not_name :
    get_interface_count (network_data_update
      (network_data_update (network_data_init net_state_initial) (some net_dev_wlan_only))
      (some net_dev_eth_then_wlan)) = 2 ∧
    ((network_data_update
      (network_data_update (network_data_init net_state_initial) (some net_dev_wlan_only))
      (some net_dev_eth_then_wlan)).interfaces 0).interface_name = "eth0" ∧
    get_current_rx_speed (network_data_update
      (network_data_update (network_data_init net_state_initial) (some net_dev_wlan_only))
      (some net_dev_eth_then_wlan)) 0 = 2000 ∧
    ((network_data_update
      (network_data_update (network_data_init net_state_initial) (some net_dev_wlan_only))
      (some net_dev_eth_then_wlan)).interfaces 1).interface_name = "wlan0" ∧
    get_current_rx_speed (network_data_update
      (network_data_update (network_data_init net_state_initial) (some net_dev_wlan_only))
      (some net_dev_eth_then_wlan)) 1 = 0 ∧
    ((1204800 - 1000000 : Nat) : ℚ) / 1024 / 2 = 100 := by
  decide!

/-- What the slot update leaves in the counters of the slot. -/
theorem network_slot_update_counters (o : NetworkInfo) (l : NetDevLine) :
    (network_slot_update o l).current_rx_bytes = l.rx_bytes ∧
    (network_slot_update o l).current_tx_bytes = l.tx_bytes ∧
    (network_slot_update o l).prev_rx_bytes = o.current_rx_bytes ∧
    (network_slot_update o l).prev_tx_bytes = o.current_tx_bytes := by
  unfold network_slot_update
  dsimp only
  split_ifs <;> simp

/-- The speeds the slot update leaves: those of the two deltas when the slot
held a non-zero counter, the old ones otherwise. -/
theorem network_slot_update_speeds (o : NetworkInfo) (l : NetDevLine) :
    (network_slot_update o l).rx_speed
      = (if o.current_rx_bytes > 0 ∨ o.current_tx_bytes > 0
          then (((if l.rx_bytes > o.current_rx_bytes then l.rx_bytes - o.current_rx_bytes
            else 0 : Nat) : ℚ) / 1024 / 2)
          else o.rx_speed) ∧
    (network_slot_update o l).tx_speed
      = (if o.current_rx_bytes > 0 ∨ o.current_tx_bytes > 0
          then (((if l.tx_bytes > o.current_tx_bytes then l.tx_bytes - o.current_tx_bytes
            else 0 : Nat) : ℚ) / 1024 / 2)
          else o.tx_speed) := by
  unfold network_slot_update
  dsimp only
  split_ifs <;> simp

theorem slot_update_keeps_idle (o : NetworkInfo) (l : NetDevLine)
    (h : slot_idle_when_empty o) : slot_idle_when_empty (network_slot_update o l) := by
  obtain ⟨c1, c2, _, _⟩ := network_slot_update_counters o l
  obtain ⟨v1, v2⟩ := network_slot_update_speeds o l
  intro hr ht
  rw [c1] at hr
  rw [c2] at ht
  rw [v1, v2]
  by_cases hz : o.current_rx_bytes > 0 ∨ o.current_tx_bytes > 0
  · rw [if_pos hz, if_pos hz, if_neg (by omega), if_neg (by omega)]
    simp
  · rw [if_neg hz, if_neg hz]
    exact h (by omega) (by omega)

/-- Reading the same line twice into a slot leaves zero speeds. -/
theorem slot_update_twice (o : NetworkInfo) (l : NetDevLine) (h : slot_idle_when_empty o) :
    (network_slot_update (network_slot_update o l) l).rx_speed = 0 ∧
    (network_slot_update (network_slot_update o l) l).tx_speed = 0 := by
  obtain ⟨c1, c2, _, _⟩ := network_slot_update_counters o l
  obtain ⟨v1, v2⟩ := network_slot_update_speeds (network_slot_update o l) l
  rw [v1, v2, c1, c2]
  by_cases hz : l.rx_bytes > 0 ∨ l.tx_bytes > 0
  · rw [if_pos hz, if_pos hz, if_neg (by omega), if_neg (by omega)]
    simp
  · rw [if_neg hz, if_neg hz]
    exact slot_update_keeps_idle o l h (by rw [c1]; omega) (by rw [c2]; omega)

/-- The slots after the line loop: slot `i` at or after the starting count and
below `MAX_INTERFACES` received the accepted line number `i - count`, if there
is one; every other slot is untouched. -/
theorem network_loop_slots (lines : List NetDevLine) (s : NetState)
    (hc : s.interface_count ≤ MAX_INTERFACES) :
    (lines.foldl network_line_step s).interface_count
      = min (s.interface_count
          + (lines.filter (fun l => is_physical_interface l.name)).length) MAX_INTERFACES ∧
    ∀ i : Nat, (lines.foldl network_line_step s).interfaces i
      = match (if s.interface_count ≤ i ∧ i < MAX_INTERFACES
          then (lines.filter (fun l => is_physical_interface l.name))[i - s.interface_count]?
          else none) with
        | some l => network_slot_update (s.interfaces i) l
        | none => s.interfaces i := by
  induction lines generalizing s with
  | nil =>
    constructor
    · simp only [List.foldl_nil, List.filter_nil, List.length_nil, Nat.add_zero]
      omega
    · intro i
      simp only [List.foldl_nil, List.filter_nil]
      split_ifs <;> simp
  | cons l ls ih =>
    rw [List.foldl_cons]
    by_cases hlt : s.interface_count < MAX_INTERFACES
    · by_cases hp : is_physical_interface l.name = true
      · have hstep : network_line_step s l
            = { interfaces := arrSet s.interfaces s.interface_count
                  (network_slot_update (s.interfaces s.interface_count) l)
                interface_count := s.interface_count + 1 } := by
          unfold network_line_step
          rw [if_pos hlt, if_pos hp]
        obtain ⟨i1, i2⟩ := ih (network_line_step s l) (by rw [hstep]; exact hlt)
        rw [hstep] at i1 i2
        constructor
        · rw [hstep, i1]
          simp only [List.filter_cons, hp, if_true, List.length_cons]
          omega
        · intro i
          rw [hstep, i2 i]
          simp only [List.filter_cons, hp, if_true]
          by_cases hi : i = s.interface_count
          · subst hi
            simp [arrSet, hlt]
          · by_cases hgt : s.interface_count + 1 ≤ i ∧ i < MAX_INTERFACES
            · have hle : s.interface_count ≤ i ∧ i < MAX_INTERFACES := ⟨by omega, hgt.2⟩
              rw [if_pos hgt, if_pos hle, arrSet_other _ _ hi]
              have hidx : i - s.interface_count = (i - (s.interface_count + 1)) + 1 := by omega
              rw [hidx, List.getElem?_cons_succ]
            · have hle : ¬ (s.interface_count ≤ i ∧ i < MAX_INTERFACES) := by omega
              rw [if_neg hgt, if_neg hle, arrSet_other _ _ hi]
      · have hstep : network_line_step s l = s := by
          unfold network_line_step
          rw [if_pos hlt, if_neg hp]
        rw [hstep]
        obtain ⟨i1, i2⟩ := ih s hc
        simp only [List.filter_cons, hp]
        exact ⟨i1, i2⟩
    · have hstep : network_line_step s l = s := by
        unfold network_line_step
        rw [if_neg hlt]
      rw [hstep]
      obtain ⟨i1, i2⟩ := ih s hc
      constructor
      · rw [i1]
        have hlen : (List.filter (fun l => is_physical_interface l.name) (l :: ls)).length
            ≤ (List.filter (fun l => is_physical_interface l.name) ls).length + 1 := by
          simp only [List.filter_cons]
          split_ifs
          · exact le_refl _
          · exact Nat.le_succ _
        omega
      · intro i
        rw [i2 i]
        have hno : ¬ (s.interface_count ≤ i ∧ i < MAX_INTERFACES) := by omega
        rw [if_neg hno, if_neg hno]

/-- One tick, slot by slot: the slots below `MAX_INTERFACES` that an accepted
line reaches are updated with it, the others are untouched. -/
theorem network_data_update_slots (s : NetState) (lines : List NetDevLine) :
    (network_data_update s (some lines)).interface_count
      = min (lines.filter (fun l => is_physical_interface l.name)).length MAX_INTERFACES ∧
    ∀ i : Nat, (network_data_update s (some lines)).interfaces i
      = match (if i < MAX_INTERFACES
          then (lines.filter (fun l => is_physical_interface l.name))[i]? else none) with
        | some l => network_slot_update (s.interfaces i) l
        | none => s.interfaces i := by
  obtain ⟨h1, h2⟩ := network_loop_slots lines { s with interface_count := 0 }
    (Nat.zero_le _)
  simp only [Nat.zero_add, Nat.zero_le, true_and, Nat.sub_zero] at h1 h2
  exact ⟨h1, h2⟩

/-- In every reachable state each slot with zero counters has zero speeds. -/
theorem net_reachable_idle {s : NetState} (h : NetReachable s) (i : Nat) :
    slot_idle_when_empty (s.interfaces i) := by
  induction h generalizing i with
  | init s => exact fun _ _ => ⟨rfl, rfl⟩
  | tick s file _ ih =>
    cases file with
    | none => exact ih i
    | some lines =>
      rw [(network_data_update_slots s lines).2 i]
      split
      · exact slot_update_keeps_idle _ _ (ih i)
      · exact ih i

/-- C16. From every state reachable from `network_data_init` by
`network_data_update` ticks, two further consecutive ticks that read the same
`/proc/net/dev` leave `rx_speed = 0` and `tx_speed = 0` in every tracked slot,
whatever its byte counters (zero counters included), and the two speed
getters return 0 for every index. -/
theorem net_identical_ticks_zero_speed (s : NetState) (hs : NetReachable s)
    (lines : List NetDevLine) :
    (∀ i : Nat,
      i < get_interface_count
        (network_data_update (network_data_update s (some lines)) (some lines)) →
      ((network_data_update (network_data_update s (some lines)) (some lines)).interfaces
        i).rx_speed = 0 ∧
      ((network_data_update (network_data_update s (some lines)) (some lines)).interfaces
        i).tx_speed = 0) ∧
    ∀ index : Int,
      get_current_rx_speed
        (network_data_update (network_data_update s (some lines)) (some lines)) index = 0 ∧
      get_current_tx_speed
        (network_data_update (network_data_update s (some lines)) (some lines)) index = 0 := by
  have hslots : ∀ i : Nat,
      i < get_interface_count
        (network_data_update (network_data_update s (some lines)) (some lines)) →
      ((network_data_update (network_data_update s (some lines)) (some lines)).interfaces
        i).rx_speed = 0 ∧
      ((network_data_update (network_data_update s (some lines)) (some lines)).interfaces
        i).tx_speed = 0 := by
    intro i hi
    obtain ⟨c2, v2⟩ := network_data_update_slots (network_data_update s (some lines)) lines
    obtain ⟨_, v1⟩ := network_data_update_slots s lines
    unfold get_interface_count at hi
    rw [c2] at hi
    have hi8 : i < MAX_INTERFACES := lt_of_lt_of_le hi (Nat.min_le_right _ _)
    have hil : i < (lines.filter (fun l => is_physical_interface l.name)).length :=
      lt_of_lt_of_le hi (Nat.min_le_left _ _)
    rw [v2 i, v1 i, if_pos hi8, List.getElem?_eq_getElem hil]
    exact slot_update_twice _ _ (net_reachable_idle hs i)
  refine ⟨hslots, ?_⟩
  intro index
  unfold get_current_rx_speed get_current_tx_speed
  by_cases hidx : index ≥ 0 ∧
      index < ((network_data_update (network_data_update s (some lines))
        (some lines)).interface_count : Int)
  · rw [if_pos hidx, if_pos hidx]
    apply hslots
    unfold get_interface_count
    omega
  · rw [if_neg hidx, if_neg hidx]
    exact ⟨rfl, rfl⟩

/-- Witness of C16: the state after the two ticks of the C15 run is
reachable; reading `net_dev_eth_then_wlan` twice more leaves slot 0 and slot 1
with zero receive speed. -/
theorem net_identical_ticks_zero_speed_witness :
    get_current_rx_speed (network_data_update (network_data_update
      (network_data_update (network_data_init net_state_initial) (some net_dev_wlan_only))
      (some net_dev_eth_then_wlan)) (some net_dev_eth_then_wlan)) 0 = 0 ∧
    get_current_rx_speed (network_data_update (network_data_update
      (network_data_update (network_data_init net_state_initial) (some net_dev_wlan_only))
      (some net_dev_eth_then_wlan)) (some net_dev_eth_then_wlan)) 1 = 0 :=
  ⟨((net_identical_ticks_zero_speed _
      (NetReachable.tick _ (some net_dev_wlan_only) (NetReachable.init net_state_initial))
      net_dev_eth_then_wlan).2 0).1,
   ((net_identical_ticks_zero_speed _
      (NetReachable.tick _ (some net_dev_wlan_only) (NetReachable.init net_state_initial))
      net_dev_eth_then_wlan).2 1).1⟩

/-! ## Claims on the disk collector -/

/-- C14 (evaluation at the failing input). After `disk_data_init`, two ticks
list `sdb` half full; a third tick lists no disk (`get_disk_count () = 0`); a
fourth tick lists `sdb` again, a quarter full. At its reappearance slot 0 is
named `sdb` and still holds what was recorded before the disappearance:
`usage_history[0] = usage_history[1] = 50` next to the new
`usage_history[2] = 25`, `activity_history[0] = 14`, and the byte counters of
the second tick as activity baseline (`prev_read_bytes = 22020096`). -/
theorem disk_history_survives_absence :
    get_disk_count disk_state_sdb_seen_twice = 1 ∧
    (disk_state_sdb_seen_twice.disks 0).device_name = "sdb" ∧
    get_disk_count (disk_data_update disk_state_sdb_seen_twice tick_without_sdb) = 0 ∧
    get_disk_count disk_state_sdb_back = 1 ∧
    (disk_state_sdb_back.disks 0).device_name = "sdb" ∧
    (disk_state_sdb_back.disks 0).usage_history 0 = 50 ∧
    (disk_state_sdb_back.disks 0).usage_history 1 = 50 ∧
    (disk_state_sdb_back.disks 0).usage_history 2 = 25 ∧
    (disk_state_sdb_back.disks 0).history_index = 3 ∧
    (disk_state_sdb_back.disks 0).activity_history 0 = 14 ∧
    (disk_state_sdb_back.disks 0).prev_read_bytes = 22020096 := by
  decide!

theorem disk_scan_step_types (mtab : Option (List MntEnt)) (statvfs : String → Option StatVfs)
    (s : DiskState) (nm : String × List Char) :
    (disk_scan_step mtab statvfs s nm).disk_types = s.disk_types := by
  unfold disk_scan_step
  split_ifs
  · dsimp only
    split <;> rfl
  · rfl
  · rfl

theorem disk_scan_types (mtab : Option (List MntEnt)) (statvfs : String → Option StatVfs)
    (names : List (String × List Char)) (s : DiskState) :
    (names.foldl (disk_scan_step mtab statvfs) s).disk_types = s.disk_types := by
  induction names generalizing s with
  | nil => rfl
  | cons nm rest ih => rw [List.foldl_cons, ih, disk_scan_step_types]

theorem read_disk_stats_types (s : DiskState) (file : Option (List DiskStatLine)) :
    (read_disk_stats s file).disk_types = s.disk_types := by
  cases file with
  | none => rfl
  | some lines =>
    simp only [read_disk_stats]
    induction lines generalizing s with
    | nil => rfl
    | cons l ls ih =>
      rw [List.foldl_cons, ih]
      split <;> rfl

/-- The routine `disk_data_update` never writes `disk_types`. -/
theorem disk_data_update_types (s : DiskState) (t : DiskTick) :
    (disk_data_update s t).disk_types = s.disk_types := by
  unfold disk_data_update
  dsimp only
  split
  · rfl
  · split
    · rfl
    · rw [read_disk_stats_types, disk_scan_types]

/-- The classification loop of `disk_data_init` runs over no slot: the count
was reset just before. -/
theorem disk_data_init_types (s : DiskState) (lsblk_rota : Option String) :
    (disk_data_init s lsblk_rota).disk_types = fun _ => "Unknown" := by
  cases lsblk_rota <;> rfl

theorem disk_types_unknown {s : DiskState} (h : DiskAfterInit s) :
    s.disk_types = fun _ => "Unknown" := by
  induction h with
  | init s lsblk_rota => exact disk_data_init_types s lsblk_rota
  | tick s t _ ih => rw [disk_data_update_types, ih]

/-- C18 (evaluation at the failing input). In every state reached by
`disk_data_init` followed by `disk_data_update` ticks, `get_disk_type` returns
`Unknown` for every index: the classification loop of `disk_data_init` runs
for `i < disk_count` right after `disk_count` was set to 0, and
`disk_data_update` never writes `disk_types`. In particular the
non-rotational, fixed disk `nvme0n1`, tracked in slot 0, has the type
`Unknown` and not `NVMe`, although the classification code, had it run on the
`lsblk` output of the initialisation, yields `NVMe`; and its 20 MiB of reads in
one tick give `activity_percent = 14`, the factor 0.7 of the last branch, not
the factor 0.05 of the NVMe class. -/
theorem disk_type_never_classified :
    (∀ s : DiskState, DiskAfterInit s → ∀ index : Int, get_disk_type s index = "Unknown") ∧
    get_disk_count disk_state_nvme = 1 ∧
    (disk_state_nvme.disks 0).device_name = "nvme0n1" ∧
    get_disk_type disk_state_nvme 0 = "Unknown" ∧
    classify_disk_type lsblk_rota_nvme.data "nvme0n1" "Unknown" = "NVMe" ∧
    get_current_disk_activity_percent disk_state_nvme 0 = 14 := by
  refine ⟨?_, by decide!, by decide!, by decide!, by decide!, by decide!⟩
  intro s hs index
  unfold get_disk_type
  rw [disk_types_unknown hs]
  split_ifs <;> rfl

/-- C17 (evaluation at the failing input). For a slot whose type text is
`HDD` and whose previous counters are not both zero, `read_disk_stats` sets
`activity_percent` to `min (100, 0.7 * B / 2 ^ 20)`, where `B` is the sum of
the read and write deltas: the byte delta of the tick is not divided by the
2 seconds of the tick. With `B = 20 * 2 ^ 20` (10 MB/s over 2 seconds) the
result is 14, while `0.7 * (B / 2 ^ 20 / 2)` is 7. -/
theorem disk_activity_not_per_second :
    (∀ (d : DiskInfo) (l : DiskStatLine),
      (d.current_read_bytes > 0 ∨ d.current_write_bytes > 0) →
      (disk_activity_update "HDD" d l).activity_percent
        = min 100
            ((((gadd
                (if gmul l.sectors_read 512 > d.current_read_bytes
                  then gsub (gmul l.sectors_read 512) d.current_read_bytes else 0)
                (if gmul l.sectors_written 512 > d.current_write_bytes
                  then gsub (gmul l.sectors_written 512) d.current_write_bytes else 0)
                : Nat) : ℚ) / (1024 * 1024)) * (7 / 10))) ∧
    gmul hdd_line_after.sectors_read 512 - hdd_slot_before.current_read_bytes = 20 * 2 ^ 20 ∧
    (disk_activity_update "HDD" hdd_slot_before hdd_line_after).activity_percent = 14 ∧
    (7 / 10 : ℚ) * ((20 * 2 ^ 20 : ℚ) / 2 ^ 20 / 2) = 7 ∧
    ((read_disk_stats ⟨fun _ => hdd_slot_before, 1, fun _ => "HDD"⟩
      (some [hdd_line_after])).disks 0).activity_percent = 14 := by
  refine ⟨?_, by decide!, by decide!, by decide!, by decide!⟩
  intro d l hprev
  have hfactor : (if "HDD" = "SSD" then (2 / 10 : ℚ)
      else if "HDD" = "NVMe" then 5 / 100 else 7 / 10) = 7 / 10 := by decide!
  unfold disk_activity_update
  dsimp only
  rw [if_pos hprev]
  dsimp only
  rw [hfactor]
  generalize (((gadd
      (if gmul l.sectors_read 512 > d.current_read_bytes
        then gsub (gmul l.sectors_read 512) d.current_read_bytes else 0)
      (if gmul l.sectors_written 512 > d.current_write_bytes
        then gsub (gmul l.sectors_written 512) d.current_write_bytes else 0) : Nat) : ℚ)
      / (1024 * 1024)) * (7 / 10) = y
  by_cases hy : y > 100
  · rw [if_pos hy, min_eq_left (le_of_lt hy)]
  · rw [if_neg hy, min_eq_right (not_lt.mp hy)]

/-- C20. If `popen` fails, or the `lsblk` output holds no `"blockdevices"`,
`disk_data_update` only resets `disk_count`: the state it leaves does not
depend on `/proc/diskstats`, the mount table or `statvfs`, `get_disk_count ()`
is 0, and every indexed accessor returns its default for every index (`NULL`
for the info and history pointers, 0 for the size and the history indices,
0.0 for the percentages, `Unknown` for the type). -/
theorem disk_update_without_blockdevices (s : DiskState) (t : DiskTick)
    (h : t.lsblk = none ∨
      ∃ buffer, t.lsblk = some buffer ∧ strstr buffer.data "\"blockdevices\"".data = none) :
    disk_data_update s t = { s with disk_count := 0 } ∧
    get_disk_count (disk_data_update s t) = 0 ∧
    ∀ index : Int,
      get_disk_info (disk_data_update s t) index = none ∧
      get_disk_size (disk_data_update s t) index = 0 ∧
      get_disk_type (disk_data_update s t) index = "Unknown" ∧
      get_current_disk_usage_percent (disk_data_update s t) index = 0 ∧
      get_disk_usage_history (disk_data_update s t) index = none ∧
      get_disk_usage_history_index (disk_data_update s t) index = 0 ∧
      get_current_disk_activity_percent (disk_data_update s t) index = 0 ∧
      get_disk_activity_history (disk_data_update s t) index = none ∧
      get_disk_activity_history_index (disk_data_update s t) index = 0 := by
  have heq : disk_data_update s t = { s with disk_count := 0 } := by
    unfold disk_data_update
    rcases h with h | ⟨buffer, hb, hno⟩
    · simp only [h]
    · simp only [hb, hno]
  refine ⟨heq, by rw [heq]; rfl, ?_⟩
  intro index
  have hout : ¬ (index ≥ 0 ∧ index < (({ s with disk_count := 0 } : DiskState).disk_count : Int)) := by
    simp only [Nat.cast_zero]
    omega
  rw [heq]
  unfold get_disk_info get_disk_size get_disk_type get_current_disk_usage_percent
    get_disk_usage_history get_disk_usage_history_index get_current_disk_activity_percent
    get_disk_activity_history get_disk_activity_history_index
  simp only [if_neg hout, and_self]

/-- Witness of C20: after two ticks that tracked `sdb`, a tick on which
`lsblk` prints nothing. -/
theorem disk_update_without_blockdevices_witness :
    get_disk_count (disk_data_update disk_state_sdb_seen_twice tick_lsblk_missing) = 0 ∧
    get_disk_type (disk_data_update disk_state_sdb_seen_twice tick_lsblk_missing) 0
      = "Unknown" ∧
    get_disk_usage_history (disk_data_update disk_state_sdb_seen_twice tick_lsblk_missing) 0
      = none :=
  ⟨(disk_update_without_blockdevices disk_state_sdb_seen_twice tick_lsblk_missing
      (Or.inr ⟨"", rfl, by decide⟩)).2.1,
   ((disk_update_without_blockdevices disk_state_sdb_seen_twice tick_lsblk_missing
      (Or.inr ⟨"", rfl, by decide⟩)).2.2 0).2.2.1,
   ((disk_update_without_blockdevices disk_state_sdb_seen_twice tick_lsblk_missing
      (Or.inr ⟨"", rfl, by decide⟩)).2.2 0).2.2.2.2.1⟩

/-! ## Claims on the disk collector: the mount point -/

/-- C19 (counterexample to the claim as stated). A tick lists `sda` and `sdb`;
the mount table has the root filesystem on `/dev/sda2` and no entry of `sdb`,
and the `lsblk` text gives no quoted mount point. The disk `sdb`, tracked in
slot 1, is recorded with the mount point `/` and with the 102400 MB total and
40960 MB free of the root filesystem, which lives on `sda`. -/
theorem disk_unmounted_gets_root_statistics :
    get_disk_count (disk_data_update disk_state_initial tick_sdb_unmounted) = 2 ∧
    ((disk_data_update disk_state_initial tick_sdb_unmounted).disks 1).device_name = "sdb" ∧
    ((disk_data_update disk_state_initial tick_sdb_unmounted).disks 1).mount_point = "/" ∧
    ((disk_data_update disk_state_initial tick_sdb_unmounted).disks 1).total_space = 102400 ∧
    ((disk_data_update disk_state_initial tick_sdb_unmounted).disks 1).free_space = 40960 ∧
    (∀ e ∈ mtab_root_only, mnt_on_disk "sdb" e = false) ∧
    (⟨"/dev/sda2", "/", "ext4"⟩ : MntEnt) ∈ mtab_root_only ∧
    strstr (lsblk_output [lsblk_device "sda" "disk" false,
      lsblk_device "sdb" "disk" false]).data "\"mountpoint\": \"".data = none := by
  decide!

/-- The mount table loop stops at the first preferred entry and takes its
directory. -/
theorem mtab_scan_preferred (disk_name : String) (entries : List MntEnt) (acc : String × String)
    (e : MntEnt) (h : entries.find? (mnt_preferred disk_name) = some e) :
    (mtab_scan disk_name entries acc).1 = c_strncpy e.mnt_dir 255 := by
  induction entries generalizing acc with
  | nil => exact Option.noConfusion h
  | cons x xs ih =>
    rw [List.find?_cons] at h
    unfold mtab_scan
    by_cases hps : is_pseudo_fs x.mnt_type = true
    · have hx : mnt_preferred disk_name x = false := by simp [mnt_preferred, hps]
      rw [hx] at h
      rw [if_pos hps]
      exact ih acc h
    · rw [if_neg hps]
      by_cases hon : mnt_on_disk disk_name x = true
      · rw [if_pos hon]
        by_cases hdir : (x.mnt_dir = "/" || x.mnt_dir = "/home") = true
        · have hx : mnt_preferred disk_name x = true := by
            simp only [mnt_preferred, Bool.and_eq_true, Bool.not_eq_true']
            exact ⟨⟨by simpa using hps, hon⟩, hdir⟩
          rw [hx] at h
          rw [if_pos hdir]
          cases h
          rfl
        · have hx : mnt_preferred disk_name x = false := by
            simp only [mnt_preferred, Bool.and_eq_false_iff]
            right
            simpa using hdir
          rw [hx] at h
          rw [if_neg hdir]
          split_ifs
          · exact ih _ h
          · exact ih _ h
      · have hx : mnt_preferred disk_name x = false := by simp [mnt_preferred, hon]
        rw [hx] at h
        rw [if_neg hon]
        exact ih acc h

/-- The mount point the loop ends with is the one it started with or the
directory of an entry on the disk. -/
theorem mtab_scan_source (disk_name : String) (entries : List MntEnt) (acc : String × String) :
    (mtab_scan disk_name entries acc).1 = acc.1 ∨
    ∃ e ∈ entries, is_pseudo_fs e.mnt_type = false ∧ mnt_on_disk disk_name e = true ∧
      (mtab_scan disk_name entries acc).1 = c_strncpy e.mnt_dir 255 := by
  induction entries generalizing acc with
  | nil => exact Or.inl rfl
  | cons x xs ih =>
    have hlift : ∀ acc2 : String × String,
        ((mtab_scan disk_name xs acc2).1 = acc2.1 ∨
          ∃ e ∈ xs, is_pseudo_fs e.mnt_type = false ∧ mnt_on_disk disk_name e = true ∧
            (mtab_scan disk_name xs acc2).1 = c_strncpy e.mnt_dir 255) →
        ((mtab_scan disk_name xs acc2).1 = acc2.1 ∨
          ∃ e ∈ x :: xs, is_pseudo_fs e.mnt_type = false ∧ mnt_on_disk disk_name e = true ∧
            (mtab_scan disk_name xs acc2).1 = c_strncpy e.mnt_dir 255) := by
      rintro acc2 (h | ⟨e, he, h1, h2, h3⟩)
      · exact Or.inl h
      · exact Or.inr ⟨e, List.mem_cons_of_mem _ he, h1, h2, h3⟩
    unfold mtab_scan
    by_cases hps : is_pseudo_fs x.mnt_type = true
    · rw [if_pos hps]
      exact hlift acc (ih acc)
    · rw [if_neg hps]
      by_cases hon : mnt_on_disk disk_name x = true
      · rw [if_pos hon]
        have hx : ∀ r : String, r = c_strncpy x.mnt_dir 255 →
            ∃ e ∈ x :: xs, is_pseudo_fs e.mnt_type = false ∧ mnt_on_disk disk_name e = true ∧
              r = c_strncpy e.mnt_dir 255 :=
          fun r hr => ⟨x, List.mem_cons_self _ _, by simpa using hps, hon, hr⟩
        split_ifs
        · exact Or.inr (hx _ rfl)
        · rcases hlift _ (ih (c_strncpy x.mnt_dir 255, c_strncpy x.mnt_type 31)) with h | h
          · exact Or.inr (hx _ h)
          · exact Or.inr h
        · exact hlift acc (ih acc)
      · rw [if_neg hon]
        exact hlift acc (ih acc)

/-- With no entry on the disk the loop changes nothing. -/
theorem mtab_scan_none (disk_name : String) (entries : List MntEnt) (acc : String × String)
    (h : ∀ e ∈ entries, is_pseudo_fs e.mnt_type = false → mnt_on_disk disk_name e = false) :
    mtab_scan disk_name entries acc = acc := by
  induction entries generalizing acc with
  | nil => rfl
  | cons x xs ih =>
    unfold mtab_scan
    by_cases hps : is_pseudo_fs x.mnt_type = true
    · rw [if_pos hps]
      exact ih acc (fun e he => h e (List.mem_cons_of_mem _ he))
    · rw [if_neg hps, if_neg (by
        rw [h x (List.mem_cons_self _ _) (by simpa using hps)]
        exact Bool.false_ne_true)]
      exact ih acc (fun e he => h e (List.mem_cons_of_mem _ he))

/-- Without one of the two keys in the `lsblk` text the mount point keeps its
default. -/
theorem lsblk_mount_info_default (pos : List Char)
    (h : strstr pos "\"mountpoint\":".data = none ∨ strstr pos "\"fstype\":".data = none) :
    lsblk_mount_info pos = ("/", "unknown") := by
  unfold lsblk_mount_info
  split
  · rename_i a b ha hb
    rcases h with h | h
    · rw [h] at hb
      exact Option.noConfusion hb
    · rw [h] at ha
      exact Option.noConfusion ha
  · rfl

theorem disk_activity_update_identity (disk_type : String) (d : DiskInfo) (l : DiskStatLine) :
    (disk_activity_update disk_type d l).identity = d.identity := by
  unfold disk_activity_update
  dsimp only
  split_ifs <;> rfl

/-- The function `read_disk_stats` keeps the count and, in every slot, the
fields the scanning loop wrote. -/
theorem read_disk_stats_identity (s : DiskState) (file : Option (List DiskStatLine)) :
    (read_disk_stats s file).disk_count = s.disk_count ∧
    ∀ i : Nat, ((read_disk_stats s file).disks i).identity = (s.disks i).identity := by
  cases file with
  | none => exact ⟨rfl, fun _ => rfl⟩
  | some lines =>
    simp only [read_disk_stats]
    induction lines generalizing s with
    | nil => exact ⟨rfl, fun _ => rfl⟩
    | cons l ls ih =>
      rw [List.foldl_cons]
      split
      · rename_i j _
        obtain ⟨c, v⟩ := ih
          { s with
            disks := arrSet s.disks j (disk_activity_update (s.disk_types j) (s.disks j) l) }
        refine ⟨c, fun i => ?_⟩
        rw [v i]
        show (arrSet s.disks j (disk_activity_update (s.disk_types j) (s.disks j) l) i).identity
          = (s.disks i).identity
        by_cases hij : i = j
        · rw [hij, arrSet_same, disk_activity_update_identity]
        · rw [arrSet_other _ _ hij]
      · exact ih s

theorem disk_slot_fill_identity (d : DiskInfo) (disk_name mount_point fs_type : String)
    (st : StatVfs) :
    (disk_slot_fill d disk_name mount_point fs_type st).identity
      = (c_strncpy disk_name 63, c_strncpy mount_point 255, c_strncpy fs_type 31,
         gmul st.f_blocks st.f_frsize / (1024 * 1024),
         gsub (gmul st.f_blocks st.f_frsize / (1024 * 1024))
           (gmul st.f_bfree st.f_frsize / (1024 * 1024)),
         gmul st.f_bfree st.f_frsize / (1024 * 1024)) := rfl

/-- The scanning loop keeps every slot below the count filled from one of the
names of the tick. -/
theorem disk_scan_filled (t : DiskTick) (all : List (String × List Char))
    (names : List (String × List Char)) (s : DiskState)
    (hsub : ∀ nm ∈ names, nm ∈ all)
    (h : ∀ i : Nat, i < s.disk_count → slot_filled_from t all (s.disks i)) :
    ∀ i : Nat, i < (names.foldl (disk_scan_step t.mtab t.statvfs) s).disk_count →
      slot_filled_from t all ((names.foldl (disk_scan_step t.mtab t.statvfs) s).disks i) := by
  induction names generalizing s with
  | nil => exact h
  | cons nm rest ih =>
    rw [List.foldl_cons]
    apply ih _ (fun x hx => hsub x (List.mem_cons_of_mem _ hx))
    unfold disk_scan_step
    split_ifs with hmax htr
    · dsimp only
      split
      · rename_i st hst
        intro i hi
        show slot_filled_from t all (arrSet s.disks s.disk_count
          (disk_slot_fill (s.disks s.disk_count) nm.1 (find_mount_point nm.1 nm.2 t.mtab).1
            (find_mount_point nm.1 nm.2 t.mtab).2 st) i)
        by_cases hic : i = s.disk_count
        · rw [hic, arrSet_same]
          exact ⟨nm, hsub nm (List.mem_cons_self _ _), st, hst,
            disk_slot_fill_identity _ _ _ _ _⟩
        · rw [arrSet_other _ _ hic]
          apply h
          have hi2 : i < s.disk_count + 1 := hi
          omega
      · exact h
    · exact h
    · exact h

/-- C19 (amended). Every slot below the count after `disk_data_update` was
filled from a name of the `lsblk` text of this tick: its mount point is the one
found for that name, `statvfs` answered for it, and total, used and free space
are the figures of that answer. The mount point found is the directory of the
first entry of `/etc/mtab` that is not a pseudo filesystem, is on the disk and
is mounted at `/` or `/home`, when there is one; in every case it is the mount
point taken from the `lsblk` text or the directory of a non-pseudo entry on the
disk; and when the `lsblk` text lacks one of the keys `"mountpoint":` and
`"fstype":` and no non-pseudo entry of the mount table is on the disk, it is
the default `/`, whose `statvfs` figures are then the ones recorded. -/
theorem disk_mount_point_resolution (s : DiskState) (t : DiskTick) (i : Nat)
    (hi : i < get_disk_count (disk_data_update s t)) :
    ∃ buffer devices_start, t.lsblk = some buffer ∧
      strstr buffer.data "\"blockdevices\"".data = some devices_start ∧
      ∃ nm ∈ lsblk_names devices_start, ∃ st : StatVfs,
        t.statvfs (find_mount_point nm.1 nm.2 t.mtab).1 = some st ∧
        ((disk_data_update s t).disks i).identity
          = (c_strncpy nm.1 63,
             c_strncpy (find_mount_point nm.1 nm.2 t.mtab).1 255,
             c_strncpy (find_mount_point nm.1 nm.2 t.mtab).2 31,
             gmul st.f_blocks st.f_frsize / (1024 * 1024),
             gsub (gmul st.f_blocks st.f_frsize / (1024 * 1024))
               (gmul st.f_bfree st.f_frsize / (1024 * 1024)),
             gmul st.f_bfree st.f_frsize / (1024 * 1024)) ∧
        (∀ entries e, t.mtab = some entries →
          entries.find? (mnt_preferred nm.1) = some e →
          (find_mount_point nm.1 nm.2 t.mtab).1 = c_strncpy e.mnt_dir 255) ∧
        ((find_mount_point nm.1 nm.2 t.mtab).1 = (lsblk_mount_info nm.2).1 ∨
          ∃ entries, t.mtab = some entries ∧
            ∃ e ∈ entries, is_pseudo_fs e.mnt_type = false ∧ mnt_on_disk nm.1 e = true ∧
              (find_mount_point nm.1 nm.2 t.mtab).1 = c_strncpy e.mnt_dir 255) ∧
        ((strstr nm.2 "\"mountpoint\":".data = none ∨ strstr nm.2 "\"fstype\":".data = none) →
          (∀ entries, t.mtab = some entries →
            ∀ e ∈ entries, is_pseudo_fs e.mnt_type = false → mnt_on_disk nm.1 e = false) →
          (find_mount_point nm.1 nm.2 t.mtab).1 = "/") := by
  unfold get_disk_count at hi
  cases hb : t.lsblk with
  | none =>
    simp only [disk_data_update, hb] at hi
    exact absurd hi (Nat.not_lt_zero _)
  | some buffer =>
    cases hd : strstr buffer.data "\"blockdevices\"".data with
    | none =>
      simp only [disk_data_update, hb, hd] at hi
      exact absurd hi (Nat.not_lt_zero _)
    | some devices_start =>
      have hupd : disk_data_update s t
          = read_disk_stats ((lsblk_names devices_start).foldl
              (disk_scan_step t.mtab t.statvfs) { s with disk_count := 0 }) t.diskstats := by
        simp only [disk_data_update, hb, hd]
      rw [hupd] at hi ⊢
      obtain ⟨hc, hv⟩ := read_disk_stats_identity ((lsblk_names devices_start).foldl
        (disk_scan_step t.mtab t.statvfs) { s with disk_count := 0 }) t.diskstats
      rw [hc] at hi
      obtain ⟨nm, hnm, st, hst, hid⟩ := disk_scan_filled t (lsblk_names devices_start)
        (lsblk_names devices_start) { s with disk_count := 0 } (fun _ hx => hx)
        (fun j hj => absurd hj (Nat.not_lt_zero _)) i hi
      refine ⟨buffer, devices_start, rfl, hd, nm, hnm, st, hst, ?_, ?_, ?_, ?_⟩
      · rw [hv i]
        exact hid
      · intro entries e hm hp
        rw [hm]
        exact mtab_scan_preferred nm.1 entries _ e hp
      · cases hm : t.mtab with
        | none => exact Or.inl rfl
        | some entries =>
          rcases mtab_scan_source nm.1 entries (lsblk_mount_info nm.2) with h | h
          · exact Or.inl h
          · exact Or.inr ⟨entries, rfl, h⟩
      · intro hkeys hnone
        cases hm : t.mtab with
        | none =>
          show (lsblk_mount_info nm.2).1 = "/"
          rw [lsblk_mount_info_default nm.2 hkeys]
        | some entries =>
          show (mtab_scan nm.1 entries (lsblk_mount_info nm.2)).1 = "/"
          rw [mtab_scan_none nm.1 entries _ (hnone entries hm), lsblk_mount_info_default nm.2 hkeys]

/-- Witness of C19 (amended): the first tick that lists `sdb`, whose filesystem
is mounted at `/data`, tracks one disk with the mount point `/data`, and slot 0
is resolved as the theorem says. -/
theorem disk_mount_point_resolution_witness :
    0 < get_disk_count (disk_data_update disk_state_initial (tick_with_sdb 131072 2048 2048)) ∧
    ((disk_data_update disk_state_initial (tick_with_sdb 131072 2048 2048)).disks 0).mount_point
      = "/data" ∧
    ∃ buffer devices_start, (tick_with_sdb 131072 2048 2048).lsblk = some buffer ∧
      strstr buffer.data "\"blockdevices\"".data = some devices_start ∧
      ∃ nm ∈ lsblk_names devices_start, ∃ st : StatVfs,
        (tick_with_sdb 131072 2048 2048).statvfs
          (find_mount_point nm.1 nm.2 (tick_with_sdb 131072 2048 2048).mtab).1 = some st ∧
        ((disk_data_update disk_state_initial (tick_with_sdb 131072 2048 2048)).disks 0).identity
          = (c_strncpy nm.1 63,
             c_strncpy (find_mount_point nm.1 nm.2 (tick_with_sdb 131072 2048 2048).mtab).1 255,
             c_strncpy (find_mount_point nm.1 nm.2 (tick_with_sdb 131072 2048 2048).mtab).2 31,
             gmul st.f_blocks st.f_frsize / (1024 * 1024),
             gsub (gmul st.f_blocks st.f_frsize / (1024 * 1024))
               (gmul st.f_bfree st.f_frsize / (1024 * 1024)),
             gmul st.f_bfree st.f_frsize / (1024 * 1024)) :=
  ⟨by decide!, by decide!,
   (disk_mount_point_resolution disk_state_initial (tick_with_sdb 131072 2048 2048) 0
      (by decide!)).imp (fun _ h1 => h1.imp (fun _ h2 =>
        ⟨h2.1, h2.2.1, h2.2.2.imp (fun _ h3 =>
          ⟨h3.1, h3.2.imp (fun _ h4 => ⟨h4.1, h4.2.1⟩)⟩)⟩))⟩

/-! ## The scanning loop ends before its fuel does -/

theorem strstr_found (hay needle found : List Char) (h : strstr hay needle = some found) :
    found.length ≤ hay.length ∧ needle.length ≤ found.length := by
  induction hay with
  | nil =>
    unfold strstr at h
    split_ifs at h with he
    cases h
    exact ⟨le_refl _, by rw [List.isEmpty_iff.mp he]⟩
  | cons c cs ih =>
    unfold strstr at h
    split_ifs at h with hp
    · cases h
      exact ⟨le_refl _, (List.isPrefixOf_iff_prefix.mp hp).length_le⟩
    · obtain ⟨h1, h2⟩ := ih h
      exact ⟨Nat.le_succ_of_le h1, h2⟩

theorem copy_until_quote_length (l : List Char) (cap : Nat) :
    (copy_until_quote l cap).2.length ≤ l.length := by
  induction l generalizing cap with
  | nil => cases cap <;> exact le_refl _
  | cons c cs ih =>
    cases cap with
    | zero => exact le_refl _
    | succ n =>
      unfold copy_until_quote
      split_ifs
      · exact le_refl _
      · exact Nat.le_succ_of_le (ih n)

/-- The text the scanning loop continues from after a found name is shorter
than the text it searched. -/
theorem lsblk_name_rest_shorter (pos found : List Char)
    (h : strstr pos "\"name\":".data = some found) :
    ((match found.drop 8 with
      | '"' :: rest => copy_until_quote rest 63
      | other => ([], other) : List Char × List Char)).2.length < pos.length := by
  obtain ⟨h1, h2⟩ := strstr_found pos _ found h
  have h7 : 7 ≤ found.length := h2
  have hd : (found.drop 8).length < pos.length := by
    rw [List.length_drop]
    omega
  split
  · rename_i rest heq
    have := copy_until_quote_length rest 63
    rw [heq, List.length_cons] at hd
    omega
  · exact hd

/-- The names found do not depend on the fuel once it reaches the length of
the text: `lsblk_names` is the whole loop. -/
theorem lsblk_names_aux_fuel (fuel1 fuel2 : Nat) (pos : List Char)
    (h1 : pos.length ≤ fuel1) (h2 : pos.length ≤ fuel2) :
    lsblk_names_aux fuel1 pos = lsblk_names_aux fuel2 pos := by
  induction fuel1 generalizing fuel2 pos with
  | zero =>
    have hp : pos = [] := List.length_eq_zero.mp (Nat.le_zero.mp h1)
    subst hp
    cases fuel2 <;> rfl
  | succ n ih =>
    cases fuel2 with
    | zero =>
      have hp : pos = [] := List.length_eq_zero.mp (Nat.le_zero.mp h2)
      subst hp
      rfl
    | succ m =>
      unfold lsblk_names_aux
      cases hs : strstr pos "\"name\":".data with
      | none => rfl
      | some found =>
        have hlt := lsblk_name_rest_shorter pos found hs
        dsimp only
        rw [ih m _ (by omega) (by omega)]

/-! ## Claims on the GPU collector: discovery -/

/-- The state `gpu_data_init` starts its stages from. -/
theorem gpu_data_init_eq (s : GpuState) (p : GpuProbes) :
    gpu_data_init s p
      = gpu_shorten_names (gpu_init_dummy (gpu_init_lspci p (gpu_init_lspci_intel p
          (gpu_init_glx p (gpu_init_drm p (gpu_init_nvidia p ⟨fun _ => GPUInfo.zero, 0⟩)))))) :=
  rfl

theorem gpu_init_glx_count (p : GpuProbes) (s : GpuState) :
    (gpu_init_glx p s).gpu_count = s.gpu_count ∨
    (s.gpu_count = 0 ∧ (gpu_init_glx p s).gpu_count = 1) := by
  unfold gpu_init_glx
  split_ifs with h0
  · split
    · exact Or.inl rfl
    · split
      · exact Or.inl rfl
      · right
        refine ⟨h0, ?_⟩
        show s.gpu_count + 1 = 1
        rw [h0]
  · exact Or.inl rfl

theorem gpu_init_lspci_intel_count (p : GpuProbes) (s : GpuState) :
    (gpu_init_lspci_intel p s).gpu_count = s.gpu_count ∨
    (s.gpu_count = 0 ∧ (gpu_init_lspci_intel p s).gpu_count = 1) := by
  unfold gpu_init_lspci_intel
  split_ifs with h0
  · split
    · exact Or.inl rfl
    · exact Or.inr ⟨h0, rfl⟩
  · exact Or.inl rfl

theorem gpu_init_lspci_count (p : GpuProbes) (s : GpuState) :
    (gpu_init_lspci p s).gpu_count = s.gpu_count ∨
    (s.gpu_count = 0 ∧ (gpu_init_lspci p s).gpu_count = 1) := by
  unfold gpu_init_lspci
  split_ifs with h0
  · split
    · exact Or.inl rfl
    · exact Or.inr ⟨h0, rfl⟩
  · exact Or.inl rfl

theorem gpu_init_dummy_count (s : GpuState) :
    (gpu_init_dummy s).gpu_count = if s.gpu_count = 0 then 1 else s.gpu_count := by
  unfold gpu_init_dummy
  split_ifs <;> rfl

/-- The four fallback stages keep a count that is not 0 and turn a count of 0
into 1. -/
theorem gpu_fallback_count (p : GpuProbes) (s : GpuState) :
    (gpu_init_dummy (gpu_init_lspci p (gpu_init_lspci_intel p (gpu_init_glx p s)))).gpu_count
      = if s.gpu_count = 0 then 1 else s.gpu_count := by
  rw [gpu_init_dummy_count]
  rcases gpu_init_glx_count p s with h1 | ⟨h0, h1⟩ <;>
  rcases gpu_init_lspci_intel_count p (gpu_init_glx p s) with h2 | ⟨h20, h2⟩ <;>
  rcases gpu_init_lspci_count p (gpu_init_lspci_intel p (gpu_init_glx p s)) with h3 | ⟨h30, h3⟩ <;>
  split_ifs <;> omega

theorem gpu_nvidia_step_zero_above (s : GpuState) (row : Option NvidiaRow)
    (h : ∀ i : Nat, s.gpu_count ≤ i → s.gpu_infos i = GPUInfo.zero) :
    ∀ i : Nat, (gpu_nvidia_step s row).gpu_count ≤ i →
      (gpu_nvidia_step s row).gpu_infos i = GPUInfo.zero := by
  unfold gpu_nvidia_step
  split_ifs
  · split
    · intro i hi
      have hi2 : s.gpu_count + 1 ≤ i := hi
      show arrSet s.gpu_infos s.gpu_count _ i = GPUInfo.zero
      rw [arrSet_other _ _ (by omega)]
      exact h i (by omega)
    · exact h
  · exact h

theorem gpu_drm_step_zero_above (p : GpuProbes) (s : GpuState) (c : Nat)
    (h : ∀ i : Nat, s.gpu_count ≤ i → s.gpu_infos i = GPUInfo.zero) :
    ∀ i : Nat, (gpu_drm_step p s c).gpu_count ≤ i →
      (gpu_drm_step p s c).gpu_infos i = GPUInfo.zero := by
  unfold gpu_drm_step
  split_ifs
  · split
    · exact h
    · split_ifs
      · intro i hi
        have hi2 : s.gpu_count + 1 ≤ i := hi
        show arrSet s.gpu_infos s.gpu_count _ i = GPUInfo.zero
        rw [arrSet_other _ _ (by omega)]
        exact h i (by omega)
      · exact h
  · exact h
  · exact h

theorem foldl_invariant {α β : Type} (P : α → Prop) (f : α → β → α) (l : List β) (a : α)
    (ha : P a) (hf : ∀ x b, P x → P (f x b)) : P (l.foldl f a) := by
  induction l generalizing a with
  | nil => exact ha
  | cons b bs ih => exact ih _ (hf a b ha)

/-- After the `nvidia-smi` and DRM stages every slot from `gpu_count` on is
as `memset` left it. -/
theorem gpu_stages_zero_above (p : GpuProbes) :
    ∀ i : Nat,
      (gpu_init_drm p (gpu_init_nvidia p ⟨fun _ => GPUInfo.zero, 0⟩)).gpu_count ≤ i →
      (gpu_init_drm p (gpu_init_nvidia p ⟨fun _ => GPUInfo.zero, 0⟩)).gpu_infos i
        = GPUInfo.zero := by
  have h1 : ∀ i : Nat, (gpu_init_nvidia p ⟨fun _ => GPUInfo.zero, 0⟩).gpu_count ≤ i →
      (gpu_init_nvidia p ⟨fun _ => GPUInfo.zero, 0⟩).gpu_infos i = GPUInfo.zero := by
    unfold gpu_init_nvidia
    split
    · exact foldl_invariant
        (fun s : GpuState => ∀ i : Nat, s.gpu_count ≤ i → s.gpu_infos i = GPUInfo.zero)
        gpu_nvidia_step _ _ (fun _ _ => rfl) (fun x b hx => gpu_nvidia_step_zero_above x b hx)
    · exact fun _ _ => rfl
  unfold gpu_init_drm
  split_ifs
  · split
    · exact foldl_invariant
        (fun s : GpuState => ∀ i : Nat, s.gpu_count ≤ i → s.gpu_infos i = GPUInfo.zero)
        (gpu_drm_step p) _ _ h1 (fun x b hx => gpu_drm_step_zero_above p x b hx)
    · exact h1
  · exact h1

/-- C21. After `gpu_data_init`, `gpu_get_count ()` is at least 1 whatever the
probes return. If `gpu_count` is 0 after the `nvidia-smi` stage and the DRM
stage (both yield no device), `gpu_get_count ()` is exactly 1. If moreover the
`glxinfo` pipe gives no line with `OpenGL renderer string:` and the two `lspci`
pipes give no line, GPU 0 is the placeholder: name `Unknown GPU`, vendor
`Unknown`, driver version `-`, `gpu_id` 0, all four values 0, both histories
zero in every slot and `history_index` 0. -/
theorem gpu_init_never_empty (s : GpuState) (p : GpuProbes) :
    1 ≤ gpu_get_count (gpu_data_init s p) ∧
    ((gpu_init_drm p (gpu_init_nvidia p ⟨fun _ => GPUInfo.zero, 0⟩)).gpu_count = 0 →
      gpu_get_count (gpu_data_init s p) = 1) ∧
    ((gpu_init_drm p (gpu_init_nvidia p ⟨fun _ => GPUInfo.zero, 0⟩)).gpu_count = 0 →
      (∀ line, p.glx_renderer = some line →
        strstr (line.data.take 255) "OpenGL renderer string:".data = none) →
      p.lspci_intel = none → p.lspci_vga = none →
      gpu_get_info (gpu_data_init s p) 0
        = some { name := "Unknown GPU", vendor := "Unknown", driver_version := "-",
                 usage_percent := 0, vram_used_mb := 0, vram_total_mb := 0,
                 vram_usage_percent := 0, usage_history := fun _ => 0,
                 vram_history := fun _ => 0, history_index := 0, gpu_id := 0 }) := by
  have hcount : gpu_get_count (gpu_data_init s p)
      = if (gpu_init_drm p (gpu_init_nvidia p ⟨fun _ => GPUInfo.zero, 0⟩)).gpu_count = 0 then 1
        else (gpu_init_drm p (gpu_init_nvidia p ⟨fun _ => GPUInfo.zero, 0⟩)).gpu_count := by
    rw [gpu_data_init_eq]
    exact gpu_fallback_count p _
  refine ⟨?_, ?_, ?_⟩
  · rw [hcount]
    split_ifs <;> omega
  · intro h0
    rw [hcount, if_pos h0]
  · intro h0 hglx hintel hvga
    have hzero := gpu_stages_zero_above p 0 (by rw [h0])
    have h1 : gpu_init_glx p (gpu_init_drm p (gpu_init_nvidia p ⟨fun _ => GPUInfo.zero, 0⟩))
        = gpu_init_drm p (gpu_init_nvidia p ⟨fun _ => GPUInfo.zero, 0⟩) := by
      unfold gpu_init_glx
      rw [if_pos h0]
      cases hr : p.glx_renderer with
      | none => rfl
      | some line =>
        dsimp only
        rw [hglx line hr]
    have h2 : gpu_init_lspci_intel p
        (gpu_init_drm p (gpu_init_nvidia p ⟨fun _ => GPUInfo.zero, 0⟩))
        = gpu_init_drm p (gpu_init_nvidia p ⟨fun _ => GPUInfo.zero, 0⟩) := by
      unfold gpu_init_lspci_intel
      rw [if_pos h0, hintel]
    have h3 : gpu_init_lspci p (gpu_init_drm p (gpu_init_nvidia p ⟨fun _ => GPUInfo.zero, 0⟩))
        = gpu_init_drm p (gpu_init_nvidia p ⟨fun _ => GPUInfo.zero, 0⟩) := by
      unfold gpu_init_lspci
      rw [if_pos h0, hvga]
    have hc1 : (0 : Int) ≥ 0 ∧ (0 : Int) < ((gpu_data_init s p).gpu_count : Int) := by
      have : gpu_get_count (gpu_data_init s p) = 1 := by rw [hcount, if_pos h0]
      unfold gpu_get_count at this
      rw [this]
      exact ⟨le_refl _, by norm_num⟩
    unfold gpu_get_info
    rw [if_pos hc1]
    rw [gpu_data_init_eq, h1, h2, h3]
    unfold gpu_init_dummy
    rw [if_pos h0, hzero]
    simp only [gpu_shorten_names, Int.toNat_zero, Nat.lt_one_iff, if_true, arrSet_same]
    have hname : String.mk (shorten_gpu_name "Unknown GPU".data) = "Unknown GPU" := by decide
    simp only [GPUInfo.init_history, GPUInfo.zero, hname]

/-- Witness of C21: on a machine where `nvidia-smi` prints a line that does
not parse, the DRM count is 2 with no usable driver link, and nothing else
answers, one GPU is tracked and it is named `Unknown GPU`. -/
theorem gpu_init_never_empty_witness :
    gpu_get_count (gpu_data_init gpu_state_initial gpu_probes_no_device) = 1 ∧
    (gpu_get_info (gpu_data_init gpu_state_initial gpu_probes_no_device) 0).map
      (fun g => (g.name, g.vendor, g.driver_version, g.gpu_id, g.history_index))
      = some ("Unknown GPU", "Unknown", "-", 0, 0) :=
  ⟨(gpu_init_never_empty gpu_state_initial gpu_probes_no_device).2.1 (by decide),
   by
    rw [(gpu_init_never_empty gpu_state_initial gpu_probes_no_device).2.2 (by decide)
      (fun line h => Option.noConfusion h) rfl rfl]
    rfl⟩

/-! ## Claims on the GPU collector: the order of the discovery methods -/

/-- C22 (counterexample to the claim as stated). On a laptop where
`nvidia-smi` lists one GPU and `/sys/class/drm/card0` is driven by `i915`,
`gpu_data_init` tracks two GPUs: slot 0 from `nvidia-smi` with vendor `NVIDIA`
and slot 1 from the DRM enumeration with vendor `Intel`. -/
theorem gpu_init_adds_drm_after_nvidia :
    gpu_probes_hybrid.nvidia_smi
      = some [some ⟨0, "NVIDIA GeForce GTX 1050 Ti", "535.183.01"⟩] ∧
    gpu_get_count (gpu_data_init gpu_state_initial gpu_probes_hybrid) = 2 ∧
    ((gpu_data_init gpu_state_initial gpu_probes_hybrid).gpu_infos 0).vendor = "NVIDIA" ∧
    ((gpu_data_init gpu_state_initial gpu_probes_hybrid).gpu_infos 1).vendor = "Intel" ∧
    ((gpu_data_init gpu_state_initial gpu_probes_hybrid).gpu_infos 1).name = "i915 GPU 0" := by
  decide

/-- The slots after the `nvidia-smi` loop: slot `i` at or after the starting
count and below `MAX_GPUS` received the parsed row number `i - count`, if there
is one; every other slot is untouched. -/
theorem gpu_nvidia_loop_slots (lines : List (Option NvidiaRow)) (s : GpuState)
    (hc : s.gpu_count ≤ MAX_GPUS) :
    (lines.foldl gpu_nvidia_step s).gpu_count
      = min (s.gpu_count + (lines.filterMap id).length) MAX_GPUS ∧
    ∀ i : Nat, (lines.foldl gpu_nvidia_step s).gpu_infos i
      = match (if s.gpu_count ≤ i ∧ i < MAX_GPUS
          then (lines.filterMap id)[i - s.gpu_count]? else none) with
        | some r => nvidia_slot_fill (s.gpu_infos i) r
        | none => s.gpu_infos i := by
  induction lines generalizing s with
  | nil =>
    constructor
    · simp only [List.foldl_nil, List.filterMap_nil, List.length_nil, Nat.add_zero]
      omega
    · intro i
      simp only [List.foldl_nil, List.filterMap_nil]
      split_ifs <;> simp
  | cons l ls ih =>
    rw [List.foldl_cons]
    cases l with
    | none =>
      have hstep : gpu_nvidia_step s none = s := by
        unfold gpu_nvidia_step
        split_ifs <;> rfl
      rw [hstep]
      obtain ⟨i1, i2⟩ := ih s hc
      simp only [List.filterMap_cons_none, id_eq]
      exact ⟨i1, i2⟩
    | some r =>
      by_cases hlt : s.gpu_count < MAX_GPUS
      · have hstep : gpu_nvidia_step s (some r)
            = { gpu_infos := arrSet s.gpu_infos s.gpu_count
                  (nvidia_slot_fill (s.gpu_infos s.gpu_count) r)
                gpu_count := s.gpu_count + 1 } := by
          unfold gpu_nvidia_step
          rw [if_pos hlt]
        obtain ⟨i1, i2⟩ := ih (gpu_nvidia_step s (some r)) (by rw [hstep]; exact hlt)
        rw [hstep] at i1 i2
        dsimp only at i1 i2
        have hfm : (some r :: ls).filterMap id = r :: ls.filterMap id := rfl
        constructor
        · rw [hstep, i1, hfm, List.length_cons]
          rw [Nat.add_right_comm, Nat.add_assoc]
        · intro i
          rw [hstep, i2 i, hfm]
          by_cases hi : i = s.gpu_count
          · subst hi
            simp [arrSet, hlt]
          · by_cases hgt : s.gpu_count + 1 ≤ i ∧ i < MAX_GPUS
            · have hle : s.gpu_count ≤ i ∧ i < MAX_GPUS := ⟨by omega, hgt.2⟩
              rw [if_pos hgt, if_pos hle, arrSet_other _ _ hi]
              have hidx : i - s.gpu_count = (i - (s.gpu_count + 1)) + 1 := by omega
              rw [hidx, List.getElem?_cons_succ]
            · have hle : ¬ (s.gpu_count ≤ i ∧ i < MAX_GPUS) := by omega
              rw [if_neg hgt, if_neg hle, arrSet_other _ _ hi]
      · have hstep : gpu_nvidia_step s (some r) = s := by
          unfold gpu_nvidia_step
          rw [if_neg hlt]
        rw [hstep]
        obtain ⟨i1, i2⟩ := ih s hc
        have hfm : (some r :: ls).filterMap id = r :: ls.filterMap id := rfl
        constructor
        · rw [i1, hfm, List.length_cons]
          omega
        · intro i
          rw [i2 i]
          have hno : ¬ (s.gpu_count ≤ i ∧ i < MAX_GPUS) := by omega
          rw [if_neg hno, if_neg hno]

/-- One iteration of the DRM loop never lowers the count, never takes it
above `MAX_GPUS` and leaves the slots below the count, like those from
`MAX_GPUS` on, as they are. -/
theorem gpu_drm_step_frame (p : GpuProbes) (s : GpuState) (c : Nat)
    (hc : s.gpu_count ≤ MAX_GPUS) :
    s.gpu_count ≤ (gpu_drm_step p s c).gpu_count ∧
    (gpu_drm_step p s c).gpu_count ≤ MAX_GPUS ∧
    ∀ i : Nat, (i < s.gpu_count ∨ MAX_GPUS ≤ i) →
      (gpu_drm_step p s c).gpu_infos i = s.gpu_infos i := by
  unfold gpu_drm_step
  split_ifs with hlt
  · split
    · exact ⟨le_refl _, hc, fun _ _ => rfl⟩
    · split_ifs
      · refine ⟨Nat.le_succ _, hlt, fun i hi => ?_⟩
        show arrSet s.gpu_infos s.gpu_count _ i = s.gpu_infos i
        rw [arrSet_other _ _ (by omega)]
      · exact ⟨le_refl _, hc, fun _ _ => rfl⟩
  · exact ⟨le_refl _, hc, fun _ _ => rfl⟩
  · exact ⟨le_refl _, hc, fun _ _ => rfl⟩

theorem gpu_drm_loop_frame (p : GpuProbes) (cards : List Nat) (s : GpuState)
    (hc : s.gpu_count ≤ MAX_GPUS) :
    s.gpu_count ≤ (cards.foldl (gpu_drm_step p) s).gpu_count ∧
    (cards.foldl (gpu_drm_step p) s).gpu_count ≤ MAX_GPUS ∧
    ∀ i : Nat, (i < s.gpu_count ∨ MAX_GPUS ≤ i) →
      (cards.foldl (gpu_drm_step p) s).gpu_infos i = s.gpu_infos i := by
  induction cards generalizing s with
  | nil => exact ⟨le_refl _, hc, fun _ _ => rfl⟩
  | cons c cs ih =>
    rw [List.foldl_cons]
    obtain ⟨a1, a2, a3⟩ := gpu_drm_step_frame p s c hc
    obtain ⟨b1, b2, b3⟩ := ih (gpu_drm_step p s c) a2
    refine ⟨le_trans a1 b1, b2, fun i hi => ?_⟩
    rw [b3 i (by omega), a3 i hi]

/-- The DRM stage: the count does not fall, stays within `MAX_GPUS`, and the
slots below the count it started from, like those from `MAX_GPUS` on, are
untouched. -/
theorem gpu_init_drm_frame (p : GpuProbes) (s : GpuState) (hc : s.gpu_count ≤ MAX_GPUS) :
    s.gpu_count ≤ (gpu_init_drm p s).gpu_count ∧
    (gpu_init_drm p s).gpu_count ≤ MAX_GPUS ∧
    ∀ i : Nat, (i < s.gpu_count ∨ MAX_GPUS ≤ i) →
      (gpu_init_drm p s).gpu_infos i = s.gpu_infos i := by
  unfold gpu_init_drm
  split_ifs
  · split
    · exact gpu_drm_loop_frame p _ s hc
    · exact ⟨le_refl _, hc, fun _ _ => rfl⟩
  · exact ⟨le_refl _, hc, fun _ _ => rfl⟩

/-- The `nvidia-smi` stage from the cleared array. -/
theorem gpu_init_nvidia_slots (p : GpuProbes) (lines : List (Option NvidiaRow))
    (hl : p.nvidia_smi = some lines) :
    (gpu_init_nvidia p ⟨fun _ => GPUInfo.zero, 0⟩).gpu_count
      = min (lines.filterMap id).length MAX_GPUS ∧
    ∀ i : Nat, (gpu_init_nvidia p ⟨fun _ => GPUInfo.zero, 0⟩).gpu_infos i
      = match (if i < MAX_GPUS then (lines.filterMap id)[i]? else none) with
        | some r => nvidia_slot_fill GPUInfo.zero r
        | none => GPUInfo.zero := by
  unfold gpu_init_nvidia
  rw [hl]
  obtain ⟨h1, h2⟩ := gpu_nvidia_loop_slots lines ⟨fun _ => GPUInfo.zero, 0⟩ (Nat.zero_le _)
  simp only [Nat.zero_add, Nat.zero_le, true_and, Nat.sub_zero] at h1 h2
  exact ⟨h1, h2⟩

/-- Once a GPU is tracked the four fallback stages change nothing. -/
theorem gpu_fallback_skipped (p : GpuProbes) (s : GpuState) (h : 1 ≤ s.gpu_count) :
    gpu_init_dummy (gpu_init_lspci p (gpu_init_lspci_intel p (gpu_init_glx p s))) = s := by
  have h0 : ¬ s.gpu_count = 0 := by omega
  have h1 : gpu_init_glx p s = s := by
    unfold gpu_init_glx
    rw [if_neg h0]
  have h2 : gpu_init_lspci_intel p s = s := by
    unfold gpu_init_lspci_intel
    rw [if_neg h0]
  have h3 : gpu_init_lspci p s = s := by
    unfold gpu_init_lspci
    rw [if_neg h0]
  have h4 : gpu_init_dummy s = s := by
    unfold gpu_init_dummy
    rw [if_neg h0]
  rw [h1, h2, h3, h4]

/-- C22 (amended). If `nvidia-smi` reports `k ≥ 1` parsable rows,
`gpu_data_init` is the `nvidia-smi` stage followed by the DRM stage and the
name shortening: the `glxinfo` stage, both `lspci` stages and the placeholder
add nothing. The `nvidia-smi` stage tracks `min (k, 8)` GPUs; slot `i` below
that number holds row `i` with vendor `NVIDIA`, its `gpu_id` and its driver
version; the DRM stage appends its devices behind them, so that
`min (k, 8) ≤ gpu_get_count () ≤ 8`, and `gpu_get_count () = min (k, 8)` when
the DRM count cannot be read. -/
theorem gpu_init_nvidia_then_drm (s : GpuState) (p : GpuProbes)
    (lines : List (Option NvidiaRow)) (hl : p.nvidia_smi = some lines)
    (hk : 1 ≤ (lines.filterMap id).length) :
    gpu_data_init s p
      = gpu_shorten_names (gpu_init_drm p (gpu_init_nvidia p ⟨fun _ => GPUInfo.zero, 0⟩)) ∧
    (gpu_init_nvidia p ⟨fun _ => GPUInfo.zero, 0⟩).gpu_count
      = min (lines.filterMap id).length MAX_GPUS ∧
    min (lines.filterMap id).length MAX_GPUS ≤ gpu_get_count (gpu_data_init s p) ∧
    gpu_get_count (gpu_data_init s p) ≤ MAX_GPUS ∧
    (∀ i : Nat, i < min (lines.filterMap id).length MAX_GPUS →
      ∃ r, (lines.filterMap id)[i]? = some r ∧
        ((gpu_data_init s p).gpu_infos i).vendor = "NVIDIA" ∧
        ((gpu_data_init s p).gpu_infos i).gpu_id = r.index ∧
        ((gpu_data_init s p).gpu_infos i).driver_version = c_strncpy r.driver 63 ∧
        ((gpu_data_init s p).gpu_infos i).name
          = String.mk (shorten_gpu_name (c_strncpy r.name 255).data)) ∧
    (p.drm_count = none →
      gpu_get_count (gpu_data_init s p) = min (lines.filterMap id).length MAX_GPUS) := by
  obtain ⟨n1, n2⟩ := gpu_init_nvidia_slots p lines hl
  have hn8 : (gpu_init_nvidia p ⟨fun _ => GPUInfo.zero, 0⟩).gpu_count ≤ MAX_GPUS := by
    rw [n1]
    exact Nat.min_le_right _ _
  obtain ⟨d1, d2, d3⟩ := gpu_init_drm_frame p _ hn8
  have hpos : 1 ≤ (gpu_init_drm p (gpu_init_nvidia p ⟨fun _ => GPUInfo.zero, 0⟩)).gpu_count := by
    have : 1 ≤ min (lines.filterMap id).length MAX_GPUS := by
      unfold MAX_GPUS
      omega
    omega
  have heq : gpu_data_init s p
      = gpu_shorten_names (gpu_init_drm p (gpu_init_nvidia p ⟨fun _ => GPUInfo.zero, 0⟩)) := by
    rw [gpu_data_init_eq, gpu_fallback_skipped p _ hpos]
  have hcnt : gpu_get_count (gpu_data_init s p)
      = (gpu_init_drm p (gpu_init_nvidia p ⟨fun _ => GPUInfo.zero, 0⟩)).gpu_count := by
    rw [heq]
    rfl
  refine ⟨heq, n1, ?_, ?_, ?_, ?_⟩
  · rw [hcnt, ← n1]
    exact d1
  · rw [hcnt]
    exact d2
  · intro i hi
    have hi8 : i < MAX_GPUS := lt_of_lt_of_le hi (Nat.min_le_right _ _)
    have hil : i < (lines.filterMap id).length := lt_of_lt_of_le hi (Nat.min_le_left _ _)
    have hslot : (gpu_init_drm p (gpu_init_nvidia p ⟨fun _ => GPUInfo.zero, 0⟩)).gpu_infos i
        = nvidia_slot_fill GPUInfo.zero ((lines.filterMap id)[i]) := by
      rw [d3 i (Or.inl (by rw [n1]; exact hi)), n2 i, if_pos hi8, List.getElem?_eq_getElem hil]
    have hlt : i < (gpu_init_drm p (gpu_init_nvidia p ⟨fun _ => GPUInfo.zero, 0⟩)).gpu_count := by
      rw [n1] at d1
      omega
    refine ⟨(lines.filterMap id)[i], List.getElem?_eq_getElem hil, ?_⟩
    rw [heq]
    simp only [gpu_shorten_names, if_pos hlt, hslot]
    exact ⟨rfl, rfl, rfl, rfl⟩
  · intro hd
    rw [hcnt, ← n1]
    unfold gpu_init_drm
    rw [hd]
    split_ifs <;> rfl

/-- Witness of C22 (amended): with two parsable `nvidia-smi` rows after a line
that does not parse, and no DRM card, two GPUs are tracked and slot 1 holds the
second row. -/
theorem gpu_init_nvidia_then_drm_witness :
    gpu_get_count (gpu_data_init gpu_state_initial gpu_probes_two_nvidia) = 2 ∧
    ∃ r, (([none, some ⟨0, "NVIDIA GeForce RTX 3090", "535.183.01"⟩,
        some ⟨1, "NVIDIA GeForce RTX 3080", "535.183.01"⟩] :
          List (Option NvidiaRow)).filterMap id)[1]? = some r ∧
      ((gpu_data_init gpu_state_initial gpu_probes_two_nvidia).gpu_infos 1).vendor = "NVIDIA" ∧
      ((gpu_data_init gpu_state_initial gpu_probes_two_nvidia).gpu_infos 1).gpu_id = r.index ∧
      ((gpu_data_init gpu_state_initial gpu_probes_two_nvidia).gpu_infos 1).driver_version
        = c_strncpy r.driver 63 ∧
      ((gpu_data_init gpu_state_initial gpu_probes_two_nvidia).gpu_infos 1).name
        = String.mk (shorten_gpu_name (c_strncpy r.name 255).data) :=
  ⟨(gpu_init_nvidia_then_drm gpu_state_initial gpu_probes_two_nvidia _ rfl
      (by decide)).2.2.2.2.2 rfl,
   (gpu_init_nvidia_then_drm gpu_state_initial gpu_probes_two_nvidia _ rfl
      (by decide)).2.2.2.2.1 1 (by decide)⟩

/-! ## Claims on the GPU collector: one tick -/

theorem gpu_clamp_range (x : ℚ) : 0 ≤ gpu_clamp x ∧ gpu_clamp x ≤ 100 := by
  unfold gpu_clamp
  dsimp only
  split_ifs with h1 h2 h3
  · exact ⟨by norm_num, le_refl _⟩
  · exact ⟨le_refl _, by norm_num⟩
  · exact ⟨by norm_num, le_refl _⟩
  · exact ⟨not_lt.mp h1, not_lt.mp h3⟩

theorem update_from_intel_gpu_top_history (gpu : GPUInfo) (t : GpuTick) :
    (update_from_intel_gpu_top gpu t).history_index = gpu.history_index ∧
    (update_from_intel_gpu_top gpu t).usage_history = gpu.usage_history ∧
    (update_from_intel_gpu_top gpu t).vram_history = gpu.vram_history := by
  unfold update_from_intel_gpu_top
  dsimp only
  repeat' split
  all_goals exact ⟨rfl, rfl, rfl⟩

/-- No vendor query touches the histories or their index. -/
theorem gpu_vendor_update_history (t : GpuTick) (gpu : GPUInfo) :
    (gpu_vendor_update t gpu).history_index = gpu.history_index ∧
    (gpu_vendor_update t gpu).usage_history = gpu.usage_history ∧
    (gpu_vendor_update t gpu).vram_history = gpu.vram_history := by
  unfold gpu_vendor_update
  split_ifs
  · unfold update_from_nvidia_smi
    split <;> exact ⟨rfl, rfl, rfl⟩
  · exact ⟨rfl, rfl, rfl⟩
  · exact update_from_intel_gpu_top_history gpu t
  · exact ⟨rfl, rfl, rfl⟩

/-- What the loop body of `gpu_data_update` leaves in one GPU. -/
theorem gpu_update_one_spec (t : GpuTick) (gpu : GPUInfo) :
    (gpu_update_one t gpu).usage_percent = gpu_clamp (gpu_vendor_update t gpu).usage_percent ∧
    (gpu_update_one t gpu).vram_usage_percent
      = gpu_clamp (gpu_vendor_update t gpu).vram_usage_percent ∧
    (gpu_update_one t gpu).usage_history
      = arrSet gpu.usage_history gpu.history_index
          (gpu_clamp (gpu_vendor_update t gpu).usage_percent) ∧
    (gpu_update_one t gpu).vram_history
      = arrSet gpu.vram_history gpu.history_index
          (gpu_clamp (gpu_vendor_update t gpu).vram_usage_percent) ∧
    (gpu_update_one t gpu).history_index = (gpu.history_index + 1) % GPU_MAX_POINTS := by
  obtain ⟨h1, h2, h3⟩ := gpu_vendor_update_history t gpu
  unfold gpu_update_one
  dsimp only
  rw [h1, h2, h3]
  exact ⟨rfl, rfl, rfl, rfl, rfl⟩

/-- The histories are zero in every slot after `gpu_data_init`. -/
theorem gpu_data_init_histories (s : GpuState) (p : GpuProbes) (i j : Nat) :
    ((gpu_data_init s p).gpu_infos i).usage_history j = 0 ∧
    ((gpu_data_init s p).gpu_infos i).vram_history j = 0 := by
  have hn : ∀ (x : GpuState) (row : Option NvidiaRow),
      (∀ i j : Nat, (x.gpu_infos i).usage_history j = 0 ∧ (x.gpu_infos i).vram_history j = 0) →
      ∀ i j : Nat, ((gpu_nvidia_step x row).gpu_infos i).usage_history j = 0 ∧
        ((gpu_nvidia_step x row).gpu_infos i).vram_history j = 0 := by
    intro x row hx i j
    unfold gpu_nvidia_step
    split_ifs
    · split
      · show (arrSet x.gpu_infos x.gpu_count _ i).usage_history j = 0 ∧
          (arrSet x.gpu_infos x.gpu_count _ i).vram_history j = 0
        by_cases hi : i = x.gpu_count
        · rw [hi, arrSet_same]
          exact ⟨rfl, rfl⟩
        · rw [arrSet_other _ _ hi]
          exact hx i j
      · exact hx i j
    · exact hx i j
  have hd : ∀ (x : GpuState) (c : Nat),
      (∀ i j : Nat, (x.gpu_infos i).usage_history j = 0 ∧ (x.gpu_infos i).vram_history j = 0) →
      ∀ i j : Nat, ((gpu_drm_step p x c).gpu_infos i).usage_history j = 0 ∧
        ((gpu_drm_step p x c).gpu_infos i).vram_history j = 0 := by
    intro x c hx i j
    unfold gpu_drm_step
    split_ifs
    · split
      · exact hx i j
      · split_ifs
        · show (arrSet x.gpu_infos x.gpu_count _ i).usage_history j = 0 ∧
            (arrSet x.gpu_infos x.gpu_count _ i).vram_history j = 0
          by_cases hi : i = x.gpu_count
          · rw [hi, arrSet_same]
            exact ⟨rfl, rfl⟩
          · rw [arrSet_other _ _ hi]
            exact hx i j
        · exact hx i j
    · exact hx i j
    · exact hx i j
  have h1 : ∀ i j : Nat,
      (((gpu_init_nvidia p ⟨fun _ => GPUInfo.zero, 0⟩).gpu_infos i).usage_history j = 0 ∧
       ((gpu_init_nvidia p ⟨fun _ => GPUInfo.zero, 0⟩).gpu_infos i).vram_history j = 0) := by
    unfold gpu_init_nvidia
    split
    · exact foldl_invariant
        (fun x : GpuState => ∀ i j : Nat,
          (x.gpu_infos i).usage_history j = 0 ∧ (x.gpu_infos i).vram_history j = 0)
        gpu_nvidia_step _ _ (fun _ _ => ⟨rfl, rfl⟩) hn
    · exact fun _ _ => ⟨rfl, rfl⟩
  have h2 : ∀ i j : Nat,
      (((gpu_init_drm p (gpu_init_nvidia p ⟨fun _ => GPUInfo.zero, 0⟩)).gpu_infos i).usage_history j
          = 0 ∧
       ((gpu_init_drm p (gpu_init_nvidia p ⟨fun _ => GPUInfo.zero, 0⟩)).gpu_infos i).vram_history j
          = 0) := by
    unfold gpu_init_drm
    split_ifs
    · split
      · exact foldl_invariant
          (fun x : GpuState => ∀ i j : Nat,
            (x.gpu_infos i).usage_history j = 0 ∧ (x.gpu_infos i).vram_history j = 0)
          (gpu_drm_step p) _ _ h1 hd
      · exact h1
    · exact h1
  have hset : ∀ (x : GpuState) (k : Nat) (g : GPUInfo) (c : Nat),
      (∀ i j : Nat, (x.gpu_infos i).usage_history j = 0 ∧ (x.gpu_infos i).vram_history j = 0) →
      (∀ j : Nat, g.usage_history j = 0 ∧ g.vram_history j = 0) →
      ∀ i j : Nat,
        ((⟨arrSet x.gpu_infos k g, c⟩ : GpuState).gpu_infos i).usage_history j = 0 ∧
        ((⟨arrSet x.gpu_infos k g, c⟩ : GpuState).gpu_infos i).vram_history j = 0 := by
    intro x k g c hx hg i j
    show (arrSet x.gpu_infos k g i).usage_history j = 0 ∧
      (arrSet x.gpu_infos k g i).vram_history j = 0
    by_cases hi : i = k
    · rw [hi, arrSet_same]
      exact hg j
    · rw [arrSet_other _ _ hi]
      exact hx i j
  have h3 : ∀ i j : Nat,
      (((gpu_init_glx p (gpu_init_drm p
          (gpu_init_nvidia p ⟨fun _ => GPUInfo.zero, 0⟩))).gpu_infos i).usage_history j = 0 ∧
       ((gpu_init_glx p (gpu_init_drm p
          (gpu_init_nvidia p ⟨fun _ => GPUInfo.zero, 0⟩))).gpu_infos i).vram_history j = 0) := by
    unfold gpu_init_glx
    split_ifs
    · split
      · exact h2
      · split
        · exact h2
        · exact hset _ _ _ _ h2 (fun _ => ⟨rfl, rfl⟩)
    · exact h2
  have h4 : ∀ i j : Nat,
      (((gpu_init_lspci_intel p (gpu_init_glx p (gpu_init_drm p
          (gpu_init_nvidia p ⟨fun _ => GPUInfo.zero, 0⟩)))).gpu_infos i).usage_history j = 0 ∧
       ((gpu_init_lspci_intel p (gpu_init_glx p (gpu_init_drm p
          (gpu_init_nvidia p ⟨fun _ => GPUInfo.zero, 0⟩)))).gpu_infos i).vram_history j = 0) := by
    unfold gpu_init_lspci_intel
    split_ifs
    · split
      · exact h3
      · exact hset _ _ _ _ h3 (fun _ => ⟨rfl, rfl⟩)
    · exact h3
  have h5 : ∀ i j : Nat,
      (((gpu_init_lspci p (gpu_init_lspci_intel p (gpu_init_glx p (gpu_init_drm p
          (gpu_init_nvidia p ⟨fun _ => GPUInfo.zero, 0⟩))))).gpu_infos i).usage_history j = 0 ∧
       ((gpu_init_lspci p (gpu_init_lspci_intel p (gpu_init_glx p (gpu_init_drm p
          (gpu_init_nvidia p ⟨fun _ => GPUInfo.zero, 0⟩))))).gpu_infos i).vram_history j = 0) := by
    unfold gpu_init_lspci
    split_ifs
    · split
      · exact h4
      · exact hset _ _ _ _ h4 (fun _ => ⟨rfl, rfl⟩)
    · exact h4
  have h6 : ∀ i j : Nat,
      (((gpu_init_dummy (gpu_init_lspci p (gpu_init_lspci_intel p (gpu_init_glx p (gpu_init_drm p
          (gpu_init_nvidia p ⟨fun _ => GPUInfo.zero, 0⟩)))))).gpu_infos i).usage_history j = 0 ∧
       ((gpu_init_dummy (gpu_init_lspci p (gpu_init_lspci_intel p (gpu_init_glx p (gpu_init_drm p
          (gpu_init_nvidia p ⟨fun _ => GPUInfo.zero, 0⟩)))))).gpu_infos i).vram_history j = 0) := by
    unfold gpu_init_dummy
    split_ifs
    · exact hset _ _ _ _ h5 (fun _ => ⟨rfl, rfl⟩)
    · exact h5
  rw [gpu_data_init_eq]
  unfold gpu_shorten_names
  dsimp only
  split_ifs
  · exact h6 i j
  · exact h6 i j

/-- C23. For every GPU `i < gpu_count` and every tick (taken not to divide by
zero in the `/proc/meminfo` fallback of the Intel path), after
`gpu_data_update` the `usage_percent` and `vram_usage_percent` of GPU `i` are
the clamped results of the vendor query and lie in `[0, 100]`; the slot `h` of
`usage_history` and of `vram_history`, `h` being the `history_index` before the
call, holds those two values; `history_index` is `(h + 1) % 60`; no other slot
of the two histories changed. Hence, in every state reached from the static
initialisers by `gpu_data_init`, `gpu_data_update` and `gpu_data_cleanup`,
every entry of both histories of every GPU lies in `[0, 100]`. -/
theorem gpu_update_clamps_and_pushes (s : GpuState) (t : GpuTick)
    (ht : t.meminfo_divides) (i : Nat) (hi : i < s.gpu_count) :
    (0 ≤ ((gpu_data_update s t).gpu_infos i).usage_percent ∧
      ((gpu_data_update s t).gpu_infos i).usage_percent ≤ 100 ∧
      0 ≤ ((gpu_data_update s t).gpu_infos i).vram_usage_percent ∧
      ((gpu_data_update s t).gpu_infos i).vram_usage_percent ≤ 100) ∧
    ((gpu_data_update s t).gpu_infos i).usage_percent
      = gpu_clamp (gpu_vendor_update t (s.gpu_infos i)).usage_percent ∧
    ((gpu_data_update s t).gpu_infos i).vram_usage_percent
      = gpu_clamp (gpu_vendor_update t (s.gpu_infos i)).vram_usage_percent ∧
    ((gpu_data_update s t).gpu_infos i).usage_history (s.gpu_infos i).history_index
      = ((gpu_data_update s t).gpu_infos i).usage_percent ∧
    ((gpu_data_update s t).gpu_infos i).vram_history (s.gpu_infos i).history_index
      = ((gpu_data_update s t).gpu_infos i).vram_usage_percent ∧
    ((gpu_data_update s t).gpu_infos i).history_index
      = ((s.gpu_infos i).history_index + 1) % GPU_MAX_POINTS ∧
    (∀ j : Nat, j ≠ (s.gpu_infos i).history_index →
      ((gpu_data_update s t).gpu_infos i).usage_history j = (s.gpu_infos i).usage_history j ∧
      ((gpu_data_update s t).gpu_infos i).vram_history j = (s.gpu_infos i).vram_history j) ∧
    (∀ r : GpuState, GpuReachableBy GpuTick.meminfo_divides r → ∀ k j : Nat,
      (0 ≤ (r.gpu_infos k).usage_history j ∧ (r.gpu_infos k).usage_history j ≤ 100) ∧
      (0 ≤ (r.gpu_infos k).vram_history j ∧ (r.gpu_infos k).vram_history j ≤ 100)) := by
  have _ := ht
  have hslot : (gpu_data_update s t).gpu_infos i = gpu_update_one t (s.gpu_infos i) := by
    unfold gpu_data_update
    dsimp only
    rw [if_pos hi]
  obtain ⟨e1, e2, e3, e4, e5⟩ := gpu_update_one_spec t (s.gpu_infos i)
  rw [hslot, e1, e2, e3, e4, e5]
  refine ⟨⟨(gpu_clamp_range _).1, (gpu_clamp_range _).2, (gpu_clamp_range _).1,
    (gpu_clamp_range _).2⟩, rfl, rfl, arrSet_same _ _ _, arrSet_same _ _ _, rfl, ?_, ?_⟩
  · intro j hj
    exact ⟨arrSet_other _ _ hj, arrSet_other _ _ hj⟩
  · intro r hr
    induction hr with
    | initial =>
      intro k j
      show ((0 : ℚ) ≤ 0 ∧ (0 : ℚ) ≤ 100) ∧ ((0 : ℚ) ≤ 0 ∧ (0 : ℚ) ≤ 100)
      norm_num
    | init x p _ _ =>
      intro k j
      obtain ⟨z1, z2⟩ := gpu_data_init_histories x p k j
      rw [z1, z2]
      exact ⟨⟨le_refl _, by norm_num⟩, ⟨le_refl _, by norm_num⟩⟩
    | update x u _ _ ih =>
      intro k j
      unfold gpu_data_update
      dsimp only
      split_ifs
      · obtain ⟨_, _, u3, u4, _⟩ := gpu_update_one_spec u (x.gpu_infos k)
        rw [u3, u4]
        by_cases hj : j = (x.gpu_infos k).history_index
        · rw [hj, arrSet_same, arrSet_same]
          exact ⟨gpu_clamp_range _, gpu_clamp_range _⟩
        · rw [arrSet_other _ _ hj, arrSet_other _ _ hj]
          exact ih k j
      · exact ih k j
    | cleanup x _ _ =>
      intro k j
      show ((0 : ℚ) ≤ 0 ∧ (0 : ℚ) ≤ 100) ∧ ((0 : ℚ) ≤ 0 ∧ (0 : ℚ) ≤ 100)
      norm_num

/-- Witness of C23: `nvidia-smi` reports GPU 0 at 250 percent with 3000 of
1000 MB used and GPU 1 at -5 percent with -200 MB used; after the tick GPU 0
shows 100 and 100, GPU 1 shows 0 and 0, and slot 0 of each history holds
them. -/
theorem gpu_update_clamps_and_pushes_witness :
    ((gpu_data_update (gpu_data_init gpu_state_initial gpu_probes_two_nvidia)
      gpu_tick_nvidia_wild).gpu_infos 0).usage_percent = 100 ∧
    ((gpu_data_update (gpu_data_init gpu_state_initial gpu_probes_two_nvidia)
      gpu_tick_nvidia_wild).gpu_infos 0).vram_history 0 = 100 ∧
    ((gpu_data_update (gpu_data_init gpu_state_initial gpu_probes_two_nvidia)
      gpu_tick_nvidia_wild).gpu_infos 1).usage_percent = 0 ∧
    ((gpu_data_update (gpu_data_init gpu_state_initial gpu_probes_two_nvidia)
      gpu_tick_nvidia_wild).gpu_infos 1).vram_history 0 = 0 ∧
    ((gpu_data_update (gpu_data_init gpu_state_initial gpu_probes_two_nvidia)
      gpu_tick_nvidia_wild).gpu_infos 1).history_index = 1 :=
  ⟨((gpu_update_clamps_and_pushes (gpu_data_init gpu_state_initial gpu_probes_two_nvidia)
      gpu_tick_nvidia_wild (fun _ _ h => Option.noConfusion h) 0 (by decide)).2.1).trans
      (by decide!),
   by decide!,
   ((gpu_update_clamps_and_pushes (gpu_data_init gpu_state_initial gpu_probes_two_nvidia)
      gpu_tick_nvidia_wild (fun _ _ h => Option.noConfusion h) 1 (by decide)).2.1).trans
      (by decide!),
   by decide!,
   (gpu_update_clamps_and_pushes (gpu_data_init gpu_state_initial gpu_probes_two_nvidia)
      gpu_tick_nvidia_wild (fun _ _ h => Option.noConfusion h) 1 (by decide)).2.2.2.2.2.1⟩

/-! ## Claims on the GPU collector: a failed vendor query -/

/-- C24 (evaluation at the failing input). An AMD GPU shows 57 percent usage
and 2048 of 8192 MB of VRAM (25 percent) after a tick. On the next tick none
of its three sysfs files can be read: `gpu_data_update` sets `usage_percent`,
`vram_used_mb`, `vram_total_mb` and `vram_usage_percent` to 0 and pushes 0 into
slot 1 of both histories. The NVIDIA path, in the same situation, keeps the
four values: a GPU of vendor `NVIDIA` whose query fails is left as it was by
the vendor update. -/
theorem gpu_amd_failed_read_zeroes_values :
    (gpu_state_amd_busy.gpu_infos 0).vendor = "AMD" ∧
    (gpu_state_amd_busy.gpu_infos 0).usage_percent = 57 ∧
    (gpu_state_amd_busy.gpu_infos 0).vram_used_mb = 2048 ∧
    (gpu_state_amd_busy.gpu_infos 0).vram_total_mb = 8192 ∧
    (gpu_state_amd_busy.gpu_infos 0).vram_usage_percent = 25 ∧
    (gpu_state_amd_busy.gpu_infos 0).history_index = 1 ∧
    ((gpu_data_update gpu_state_amd_busy gpu_tick_none).gpu_infos 0).usage_percent = 0 ∧
    ((gpu_data_update gpu_state_amd_busy gpu_tick_none).gpu_infos 0).vram_used_mb = 0 ∧
    ((gpu_data_update gpu_state_amd_busy gpu_tick_none).gpu_infos 0).vram_total_mb = 0 ∧
    ((gpu_data_update gpu_state_amd_busy gpu_tick_none).gpu_infos 0).vram_usage_percent = 0 ∧
    ((gpu_data_update gpu_state_amd_busy gpu_tick_none).gpu_infos 0).usage_history 0 = 57 ∧
    ((gpu_data_update gpu_state_amd_busy gpu_tick_none).gpu_infos 0).usage_history 1 = 0 ∧
    ((gpu_data_update gpu_state_amd_busy gpu_tick_none).gpu_infos 0).vram_history 0 = 25 ∧
    ((gpu_data_update gpu_state_amd_busy gpu_tick_none).gpu_infos 0).vram_history 1 = 0 ∧
    (gpu_state_nvidia_busy.gpu_infos 0).usage_percent = 40 ∧
    ((gpu_data_update gpu_state_nvidia_busy gpu_tick_none).gpu_infos 0).usage_percent = 40 ∧
    ((gpu_data_update gpu_state_nvidia_busy gpu_tick_none).gpu_infos 0).vram_usage_percent
      = 25 ∧
    (∀ (t : GpuTick) (gpu : GPUInfo), gpu.vendor = "NVIDIA" → t.nvidia_smi gpu.gpu_id = none →
      gpu_vendor_update t gpu = gpu) := by
  refine ⟨by decide!, by decide!, by decide!, by decide!, by decide!, by decide!, by decide!,
    by decide!, by decide!, by decide!, by decide!, by decide!, by decide!, by decide!,
    by decide!, by decide!, by decide!, ?_⟩
  intro t gpu hv hq
  unfold gpu_vendor_update
  rw [if_pos hv, hq]
  rfl

/-! ## Claims on the GPU collector: the shortened name -/

/-- C25 (evaluation at the failing input). For the `lspci -nn` line
`01:00.0 VGA compatible controller [0300]: NVIDIA Corporation GP107 [GeForce
GTX 1050 Ti] [10de:1c82] (rev a1)`, `shorten_gpu_name` leaves
`NVIDIA GeForce 0300`, not `NVIDIA GeForce GTX 1050 Ti`: the first colon of the
text is the one inside the slot `01:00.0`, which no blank follows, so the
prefix is not removed, and the first bracket group is the class `[0300]`,
whose digits are taken for the model. The analogous AMD line gives
`AMD Radeon 0300`. `gpu_data_init`, when only the `lspci -nn` fallback
answers, names GPU 0 `NVIDIA GeForce 0300`. -/
theorem shorten_gpu_name_takes_class_code :
    String.mk (shorten_gpu_name lspci_line_nvidia.data) = "NVIDIA GeForce 0300" ∧
    String.mk (shorten_gpu_name lspci_line_nvidia.data) ≠ "NVIDIA GeForce GTX 1050 Ti" ∧
    String.mk (shorten_gpu_name lspci_line_amd.data) = "AMD Radeon 0300" ∧
    String.mk (shorten_gpu_name lspci_line_amd.data) ≠ "AMD Radeon RX 580" ∧
    (strchr lspci_line_nvidia.data ':').map (fun r => r.take 3) = some [':', '0', '0'] ∧
    (strchr lspci_line_nvidia.data '[').map (fun r => r.take 6)
      = some ['[', '0', '3', '0', '0', ']'] ∧
    gpu_get_count (gpu_data_init gpu_state_initial gpu_probes_lspci_only) = 1 ∧
    ((gpu_data_init gpu_state_initial gpu_probes_lspci_only).gpu_infos 0).name
      = "NVIDIA GeForce 0300" := by
  decide

/-! ## Claims on the network collector: the interface filter -/

/-- The prefix test, in terms of the text. -/
theorem has_prefix_iff (s lit : String) :
    has_prefix s lit = true ↔ ∃ rest : String, s = lit ++ rest := by
  unfold has_prefix
  rw [List.isPrefixOf_iff_prefix]
  constructor
  · rintro ⟨t, ht⟩
    refine ⟨⟨t⟩, ?_⟩
    apply String.ext
    rw [String.data_append]
    exact ht.symm
  · rintro ⟨rest, rfl⟩
    exact ⟨rest.data, by rw [String.data_append]⟩

/-- A copy cut to `n` characters has the prefixes of at most `n` characters
that the text has. -/
theorem has_prefix_strncpy (name lit : String) (n : Nat) (hn : lit.data.length ≤ n) :
    has_prefix (c_strncpy name n) lit = has_prefix name lit := by
  rw [Bool.eq_iff_iff]
  unfold has_prefix c_strncpy
  rw [List.isPrefixOf_iff_prefix, List.isPrefixOf_iff_prefix, List.prefix_take_iff]
  exact ⟨fun h => h.1, fun h => ⟨h, hn⟩⟩

theorem strncpy_eq_lo (name : String) (n : Nat) (hn : 2 < n) :
    c_strncpy name n = "lo" ↔ name = "lo" := by
  unfold c_strncpy
  constructor
  · intro h
    have hd : name.data.take n = ['l', 'o'] := congrArg String.data h
    have hlen : (name.data.take n).length = 2 := by rw [hd]; rfl
    rw [List.length_take] at hlen
    have hle : name.data.length ≤ n := by omega
    rw [List.take_of_length_le hle] at hd
    exact String.ext hd
  · intro h
    rw [h]
    apply String.ext
    show List.take n ['l', 'o'] = ['l', 'o']
    exact List.take_of_length_le (by simp; omega)

/-- The name stored in the slot passes the filter exactly when the name of the
line does. -/
theorem is_physical_interface_strncpy (name : String) :
    is_physical_interface (c_strncpy name 63) = is_physical_interface name := by
  unfold is_physical_interface
  rw [has_prefix_strncpy name "veth" 63 (by decide),
    has_prefix_strncpy name "docker" 63 (by decide),
    has_prefix_strncpy name "br-" 63 (by decide),
    has_prefix_strncpy name "virbr" 63 (by decide)]
  have hlo : decide (c_strncpy name 63 = "lo") = decide (name = "lo") := by
    rw [Bool.eq_iff_iff, decide_eq_true_iff, decide_eq_true_iff]
    exact strncpy_eq_lo name 63 (by norm_num)
  rw [hlo]

theorem network_slot_update_name (o : NetworkInfo) (l : NetDevLine) :
    (network_slot_update o l).interface_name = c_strncpy l.name 63 := by
  unfold network_slot_update
  dsimp only
  split_ifs <;> rfl

/-- C26. The function `is_physical_interface` returns `FALSE` exactly for the
name `lo` and for the names that start with `veth`, `docker`, `br-` or
`virbr`, and `TRUE` for every other name (`lo0` and `eth0` among them). After
a `network_data_update` that read `/proc/net/dev`, every tracked slot holds
the name (cut to 63 characters) of a line whose name passed the filter, and
that stored name passes the filter; the same holds for every tracked slot of
every state reached from `network_data_init` by ticks. -/
theorem physical_interfaces_only :
    (∀ name : String, is_physical_interface name = false ↔
      (name = "lo" ∨ (∃ rest : String, name = "veth" ++ rest) ∨
        (∃ rest : String, name = "docker" ++ rest) ∨
        (∃ rest : String, name = "br-" ++ rest) ∨
        (∃ rest : String, name = "virbr" ++ rest))) ∧
    (∀ name : String, is_physical_interface name = true ↔
      ¬ (name = "lo" ∨ (∃ rest : String, name = "veth" ++ rest) ∨
        (∃ rest : String, name = "docker" ++ rest) ∨
        (∃ rest : String, name = "br-" ++ rest) ∨
        (∃ rest : String, name = "virbr" ++ rest))) ∧
    (is_physical_interface "lo" = false ∧ is_physical_interface "veth1a2b3c" = false ∧
      is_physical_interface "docker0" = false ∧ is_physical_interface "br-4f2a" = false ∧
      is_physical_interface "virbr0" = false ∧ is_physical_interface "lo0" = true ∧
      is_physical_interface "eth0" = true ∧ is_physical_interface "wlan0" = true) ∧
    (∀ (s : NetState) (lines : List NetDevLine) (i : Nat),
      i < get_interface_count (network_data_update s (some lines)) →
      is_physical_interface
        ((network_data_update s (some lines)).interfaces i).interface_name = true ∧
      ∃ l ∈ lines, is_physical_interface l.name = true ∧
        ((network_data_update s (some lines)).interfaces i).interface_name
          = c_strncpy l.name 63) ∧
    (∀ s : NetState, NetReachable s → ∀ i : Nat, i < get_interface_count s →
      is_physical_interface (s.interfaces i).interface_name = true) := by
  have hfalse : ∀ name : String, is_physical_interface name = false ↔
      (name = "lo" ∨ (∃ rest : String, name = "veth" ++ rest) ∨
        (∃ rest : String, name = "docker" ++ rest) ∨
        (∃ rest : String, name = "br-" ++ rest) ∨
        (∃ rest : String, name = "virbr" ++ rest)) := by
    intro name
    rw [← has_prefix_iff, ← has_prefix_iff, ← has_prefix_iff, ← has_prefix_iff]
    unfold is_physical_interface
    by_cases h : (decide (name = "lo") || has_prefix name "veth" || has_prefix name "docker"
        || has_prefix name "br-" || has_prefix name "virbr") = true
    · rw [if_pos h]
      simp only [Bool.or_eq_true, decide_eq_true_eq] at h
      simp only [true_iff]
      tauto
    · rw [if_neg h]
      simp only [Bool.or_eq_true, decide_eq_true_eq] at h
      simp only [Bool.true_eq_false, false_iff]
      tauto
  have htick : ∀ (s : NetState) (lines : List NetDevLine) (i : Nat),
      i < get_interface_count (network_data_update s (some lines)) →
      is_physical_interface
        ((network_data_update s (some lines)).interfaces i).interface_name = true ∧
      ∃ l ∈ lines, is_physical_interface l.name = true ∧
        ((network_data_update s (some lines)).interfaces i).interface_name
          = c_strncpy l.name 63 := by
    intro s lines i hi
    obtain ⟨c, v⟩ := network_data_update_slots s lines
    unfold get_interface_count at hi
    rw [c] at hi
    have hi8 : i < MAX_INTERFACES := lt_of_lt_of_le hi (Nat.min_le_right _ _)
    have hil : i < (lines.filter (fun l => is_physical_interface l.name)).length :=
      lt_of_lt_of_le hi (Nat.min_le_left _ _)
    have hmem : (lines.filter (fun l => is_physical_interface l.name))[i]
        ∈ lines.filter (fun l => is_physical_interface l.name) := List.getElem_mem hil
    rw [List.mem_filter] at hmem
    rw [v i, if_pos hi8, List.getElem?_eq_getElem hil]
    dsimp only
    rw [network_slot_update_name, is_physical_interface_strncpy]
    exact ⟨hmem.2, _, hmem.1, hmem.2, rfl⟩
  refine ⟨hfalse, ?_, by decide, htick, ?_⟩
  · intro name
    rw [← hfalse name]
    cases is_physical_interface name <;> simp
  · intro s hs
    induction hs with
    | init s => exact fun i hi => absurd hi (Nat.not_lt_zero _)
    | tick s file _ ih =>
      cases file with
      | none => exact ih
      | some lines => exact fun i hi => (htick s lines i hi).1

/-! ## Claims on the entity arrays: the cap of 8 -/

theorem disk_scan_step_cap (mtab : Option (List MntEnt)) (statvfs : String → Option StatVfs)
    (s : DiskState) (nm : String × List Char) (hc : s.disk_count ≤ MAX_DISKS) :
    (disk_scan_step mtab statvfs s nm).disk_count ≤ MAX_DISKS ∧
    ∀ i : Nat, MAX_DISKS ≤ i → (disk_scan_step mtab statvfs s nm).disks i = s.disks i := by
  unfold disk_scan_step
  split_ifs with hlt
  · dsimp only
    split
    · refine ⟨hlt, fun i hi => ?_⟩
      show arrSet s.disks s.disk_count _ i = s.disks i
      rw [arrSet_other _ _ (by omega)]
    · exact ⟨hc, fun _ _ => rfl⟩
  · exact ⟨hc, fun _ _ => rfl⟩
  · exact ⟨hc, fun _ _ => rfl⟩

theorem disk_scan_cap (mtab : Option (List MntEnt)) (statvfs : String → Option StatVfs)
    (names : List (String × List Char)) (s : DiskState) (hc : s.disk_count ≤ MAX_DISKS) :
    (names.foldl (disk_scan_step mtab statvfs) s).disk_count ≤ MAX_DISKS ∧
    ∀ i : Nat, MAX_DISKS ≤ i →
      (names.foldl (disk_scan_step mtab statvfs) s).disks i = s.disks i := by
  induction names generalizing s with
  | nil => exact ⟨hc, fun _ _ => rfl⟩
  | cons nm rest ih =>
    rw [List.foldl_cons]
    obtain ⟨a1, a2⟩ := disk_scan_step_cap mtab statvfs s nm hc
    obtain ⟨b1, b2⟩ := ih _ a1
    exact ⟨b1, fun i hi => by rw [b2 i hi, a2 i hi]⟩

theorem find_disk_slot_lt (s : DiskState) (device_name : String) (i : Nat)
    (h : find_disk_slot s device_name = some i) : i < s.disk_count := by
  unfold find_disk_slot at h
  exact List.mem_range.mp (List.mem_of_find?_eq_some h)

/-- The function `read_disk_stats` writes below `disk_count` only. -/
theorem read_disk_stats_cap (s : DiskState) (file : Option (List DiskStatLine))
    (hc : s.disk_count ≤ MAX_DISKS) :
    (read_disk_stats s file).disk_count = s.disk_count ∧
    ∀ i : Nat, MAX_DISKS ≤ i → (read_disk_stats s file).disks i = s.disks i := by
  cases file with
  | none => exact ⟨rfl, fun _ _ => rfl⟩
  | some lines =>
    simp only [read_disk_stats]
    induction lines generalizing s with
    | nil => exact ⟨rfl, fun _ _ => rfl⟩
    | cons l ls ih =>
      rw [List.foldl_cons]
      split
      · rename_i j hj
        have hjlt := find_disk_slot_lt s l.device_name j hj
        obtain ⟨c, v⟩ := ih
          { s with
            disks := arrSet s.disks j (disk_activity_update (s.disk_types j) (s.disks j) l) }
          hc
        refine ⟨c, fun i hi => ?_⟩
        rw [v i hi]
        show arrSet s.disks j _ i = s.disks i
        rw [arrSet_other _ _ (by omega)]
      · exact ih s hc

/-- One `disk_data_update`, from any state: at most `MAX_DISKS` disks, and no
slot from `MAX_DISKS` on is written. -/
theorem disk_data_update_cap (s : DiskState) (t : DiskTick) :
    (disk_data_update s t).disk_count ≤ MAX_DISKS ∧
    ∀ i : Nat, MAX_DISKS ≤ i → (disk_data_update s t).disks i = s.disks i := by
  unfold disk_data_update
  dsimp only
  split
  · exact ⟨Nat.zero_le _, fun _ _ => rfl⟩
  · split
    · exact ⟨Nat.zero_le _, fun _ _ => rfl⟩
    · rename_i devices_start _
      obtain ⟨a1, a2⟩ := disk_scan_cap t.mtab t.statvfs (lsblk_names devices_start)
        { s with disk_count := 0 } (Nat.zero_le _)
      obtain ⟨b1, b2⟩ := read_disk_stats_cap _ t.diskstats a1
      exact ⟨by rw [b1]; exact a1, fun i hi => by rw [b2 i hi, a2 i hi]⟩

theorem network_line_step_cap (s : NetState) (l : NetDevLine) (hc : s.interface_count ≤ MAX_INTERFACES) :
    (network_line_step s l).interface_count ≤ MAX_INTERFACES ∧
    ∀ i : Nat, MAX_INTERFACES ≤ i → (network_line_step s l).interfaces i = s.interfaces i := by
  unfold network_line_step
  split_ifs with hlt
  · refine ⟨hlt, fun i hi => ?_⟩
    show arrSet s.interfaces s.interface_count _ i = s.interfaces i
    rw [arrSet_other _ _ (by omega)]
  · exact ⟨hc, fun _ _ => rfl⟩
  · exact ⟨hc, fun _ _ => rfl⟩

/-- One `network_data_update` that read the file, from any state: at most
`MAX_INTERFACES` interfaces, and no slot from `MAX_INTERFACES` on is
written. -/
theorem network_data_update_cap (s : NetState) (lines : List NetDevLine) :
    (network_data_update s (some lines)).interface_count ≤ MAX_INTERFACES ∧
    ∀ i : Nat, MAX_INTERFACES ≤ i →
      (network_data_update s (some lines)).interfaces i = s.interfaces i := by
  unfold network_data_update
  dsimp only
  exact foldl_invariant
    (fun x : NetState => x.interface_count ≤ MAX_INTERFACES ∧
      ∀ i : Nat, MAX_INTERFACES ≤ i → x.interfaces i = s.interfaces i)
    network_line_step lines { s with interface_count := 0 }
    ⟨Nat.zero_le _, fun _ _ => rfl⟩
    (fun x l hx => ⟨(network_line_step_cap x l hx.1).1,
      fun i hi => by rw [(network_line_step_cap x l hx.1).2 i hi, hx.2 i hi]⟩)

/-- After `gpu_data_init` at most `MAX_GPUS` GPUs are tracked and the slots
from `MAX_GPUS` on are as `memset` left them. -/
theorem gpu_data_init_cap (s : GpuState) (p : GpuProbes) :
    (gpu_data_init s p).gpu_count ≤ MAX_GPUS ∧
    ∀ i : Nat, MAX_GPUS ≤ i → (gpu_data_init s p).gpu_infos i = GPUInfo.zero := by
  have hn : (gpu_init_nvidia p ⟨fun _ => GPUInfo.zero, 0⟩).gpu_count ≤ MAX_GPUS := by
    unfold gpu_init_nvidia
    split
    · rename_i lines _
      rw [(gpu_nvidia_loop_slots lines ⟨fun _ => GPUInfo.zero, 0⟩ (Nat.zero_le _)).1]
      exact Nat.min_le_right _ _
    · exact Nat.zero_le _
  obtain ⟨_, d2, _⟩ := gpu_init_drm_frame p _ hn
  have hz := gpu_stages_zero_above p
  have hcount : (gpu_data_init s p).gpu_count
      = if (gpu_init_drm p (gpu_init_nvidia p ⟨fun _ => GPUInfo.zero, 0⟩)).gpu_count = 0 then 1
        else (gpu_init_drm p (gpu_init_nvidia p ⟨fun _ => GPUInfo.zero, 0⟩)).gpu_count := by
    rw [gpu_data_init_eq]
    exact gpu_fallback_count p _
  have hc8 : (gpu_data_init s p).gpu_count ≤ MAX_GPUS := by
    rw [hcount]
    split_ifs
    · unfold MAX_GPUS
      omega
    · exact d2
  refine ⟨hc8, fun i hi => ?_⟩
  have hzi := hz i (le_trans d2 hi)
  have hi0 : i ≠ 0 := by
    unfold MAX_GPUS at hi
    omega
  have h3 : (gpu_init_glx p (gpu_init_drm p
      (gpu_init_nvidia p ⟨fun _ => GPUInfo.zero, 0⟩))).gpu_infos i = GPUInfo.zero := by
    unfold gpu_init_glx
    split_ifs with h0
    · split
      · exact hzi
      · split
        · exact hzi
        · show arrSet _ _ _ i = GPUInfo.zero
          rw [arrSet_other _ _ (by rw [h0]; exact hi0)]
          exact hzi
    · exact hzi
  have h4 : (gpu_init_lspci_intel p (gpu_init_glx p (gpu_init_drm p
      (gpu_init_nvidia p ⟨fun _ => GPUInfo.zero, 0⟩)))).gpu_infos i = GPUInfo.zero := by
    unfold gpu_init_lspci_intel
    split_ifs
    · split
      · exact h3
      · show arrSet _ _ _ i = GPUInfo.zero
        rw [arrSet_other _ _ hi0]
        exact h3
    · exact h3
  have h5 : (gpu_init_lspci p (gpu_init_lspci_intel p (gpu_init_glx p (gpu_init_drm p
      (gpu_init_nvidia p ⟨fun _ => GPUInfo.zero, 0⟩))))).gpu_infos i = GPUInfo.zero := by
    unfold gpu_init_lspci
    split_ifs
    · split
      · exact h4
      · show arrSet _ _ _ i = GPUInfo.zero
        rw [arrSet_other _ _ hi0]
        exact h4
    · exact h4
  have h6 : (gpu_init_dummy (gpu_init_lspci p (gpu_init_lspci_intel p (gpu_init_glx p
      (gpu_init_drm p (gpu_init_nvidia p ⟨fun _ => GPUInfo.zero, 0⟩)))))).gpu_infos i
        = GPUInfo.zero := by
    unfold gpu_init_dummy
    split_ifs
    · show arrSet _ _ _ i = GPUInfo.zero
      rw [arrSet_other _ _ hi0]
      exact h5
    · exact h5
  have hnot : ¬ i < (gpu_init_dummy (gpu_init_lspci p (gpu_init_lspci_intel p (gpu_init_glx p
      (gpu_init_drm p (gpu_init_nvidia p ⟨fun _ => GPUInfo.zero, 0⟩)))))).gpu_count := by
    have : (gpu_data_init s p).gpu_count
        = (gpu_init_dummy (gpu_init_lspci p (gpu_init_lspci_intel p (gpu_init_glx p
          (gpu_init_drm p (gpu_init_nvidia p ⟨fun _ => GPUInfo.zero, 0⟩)))))).gpu_count := rfl
    rw [← this]
    omega
  rw [gpu_data_init_eq]
  unfold gpu_shorten_names
  dsimp only
  rw [if_neg hnot]
  exact h6

/-- C27. The three counts never exceed 8: after any `disk_data_update` and in
every state reached by `disk_data_init` and ticks; after any
`network_data_update` that read the file and in every state reached by
`network_data_init` and ticks; in every state reached from the static
initialisers by `gpu_data_init`, `gpu_data_update` and `gpu_data_cleanup`.
No routine writes a slot numbered 8 or more: the update routines leave such a
slot as it was, the init and cleanup routines leave it as `memset` does. -/
theorem entity_counts_capped :
    (∀ (s : DiskState) (t : DiskTick), get_disk_count (disk_data_update s t) ≤ MAX_DISKS) ∧
    (∀ s : DiskState, DiskAfterInit s → get_disk_count s ≤ MAX_DISKS) ∧
    (∀ (s : NetState) (lines : List NetDevLine),
      get_interface_count (network_data_update s (some lines)) ≤ MAX_INTERFACES) ∧
    (∀ s : NetState, NetReachable s → get_interface_count s ≤ MAX_INTERFACES) ∧
    (∀ s : GpuState, GpuReachable s → gpu_get_count s ≤ MAX_GPUS) ∧
    (MAX_DISKS = 8 ∧ MAX_INTERFACES = 8 ∧ MAX_GPUS = 8) ∧
    (∀ (s : DiskState) (t : DiskTick) (i : Nat), MAX_DISKS ≤ i →
      (disk_data_update s t).disks i = s.disks i ∧
      (disk_data_update s t).disk_types i = s.disk_types i) ∧
    (∀ (s : DiskState) (r : Option String) (i : Nat), MAX_DISKS ≤ i →
      (disk_data_init s r).disks i = DiskInfo.zero) ∧
    (∀ (s : NetState) (file : Option (List NetDevLine)) (i : Nat), MAX_INTERFACES ≤ i →
      (network_data_update s file).interfaces i = s.interfaces i) ∧
    (∀ (s : NetState) (i : Nat), MAX_INTERFACES ≤ i →
      (network_data_init s).interfaces i = NetworkInfo.zero ∧
      (network_data_cleanup s).interfaces i = NetworkInfo.zero) ∧
    (∀ (s : GpuState) (t : GpuTick) (i : Nat), s.gpu_count ≤ MAX_GPUS → MAX_GPUS ≤ i →
      (gpu_data_update s t).gpu_infos i = s.gpu_infos i) ∧
    (∀ (s : GpuState) (p : GpuProbes) (i : Nat), MAX_GPUS ≤ i →
      (gpu_data_init s p).gpu_infos i = GPUInfo.zero ∧
      (gpu_data_cleanup s).gpu_infos i = GPUInfo.zero) := by
  have hdisk : ∀ s : DiskState, DiskAfterInit s → get_disk_count s ≤ MAX_DISKS := by
    intro s hs
    cases hs with
    | init x r =>
      unfold get_disk_count disk_data_init
      dsimp only
      split
      · exact Nat.zero_le _
      · rw [List.range_zero, List.foldl_nil]
        exact Nat.zero_le _
    | tick x t _ => exact (disk_data_update_cap x t).1
  have hnet : ∀ s : NetState, NetReachable s → get_interface_count s ≤ MAX_INTERFACES := by
    intro s hs
    induction hs with
    | init x => exact Nat.zero_le _
    | tick x file _ ih =>
      cases file with
      | none => exact ih
      | some lines => exact (network_data_update_cap x lines).1
  have hgpu : ∀ s : GpuState, GpuReachable s → gpu_get_count s ≤ MAX_GPUS := by
    intro s hs
    unfold GpuReachable at hs
    induction hs with
    | initial => exact Nat.zero_le _
    | init x p _ _ => exact (gpu_data_init_cap x p).1
    | update x t _ _ ih => exact ih
    | cleanup x _ _ => exact Nat.zero_le _
  refine ⟨fun s t => (disk_data_update_cap s t).1, hdisk,
    fun s lines => (network_data_update_cap s lines).1, hnet, hgpu, ⟨rfl, rfl, rfl⟩,
    fun s t i hi => ⟨(disk_data_update_cap s t).2 i hi, by rw [disk_data_update_types]⟩,
    ?_, ?_, fun s i _ => ⟨rfl, rfl⟩, ?_,
    fun s p i hi => ⟨(gpu_data_init_cap s p).2 i hi, rfl⟩⟩
  · intro s r i _
    unfold disk_data_init
    dsimp only
    split
    · rfl
    · rw [List.range_zero, List.foldl_nil]
  · intro s file i hi
    cases file with
    | none => rfl
    | some lines => exact (network_data_update_cap s lines).2 i hi
  · intro s t i hc hi
    unfold gpu_data_update
    dsimp only
    rw [if_neg (by omega)]

/-! ## Claims on the indexed accessors -/

/-- C28. For every index outside `[0, count)` (negative, equal to the count
or larger) each indexed accessor returns its default, whatever the entity
array holds: `NULL` for the info and history pointers, 0 for the size, the
history indices and the MTU, 0.0 for the percentages and speeds, `Unknown`
for the types, `N/A` for the MAC address and -1 for the link speed. The two
per-core getters of the CPU collector return 0.0 and `NULL` for every
`core_id` outside `[0, min (cpu_threads, 64))`; with `cpu_threads = 128` the
cores 64 and 100 get the defaults although they are below `cpu_threads`. -/
theorem accessors_default_out_of_range :
    (∀ (s : DiskState) (index : Int), ¬ (0 ≤ index ∧ index < s.disk_count) →
      get_disk_info s index = none ∧
      get_disk_size s index = 0 ∧
      get_disk_type s index = "Unknown" ∧
      get_current_disk_usage_percent s index = 0 ∧
      get_disk_usage_history s index = none ∧
      get_disk_usage_history_index s index = 0 ∧
      get_current_disk_activity_percent s index = 0 ∧
      get_disk_activity_history s index = none ∧
      get_disk_activity_history_index s index = 0) ∧
    (∀ (s : NetState) (index : Int), ¬ (0 ≤ index ∧ index < s.interface_count) →
      get_interface_info s index = none ∧
      get_interface_type s index = "Unknown" ∧
      get_current_rx_speed s index = 0 ∧
      get_current_tx_speed s index = 0 ∧
      get_rx_history s index = none ∧
      get_tx_history s index = none ∧
      get_history_index s index = 0 ∧
      get_mac_address s index = "N/A" ∧
      get_mtu s index = 0 ∧
      get_link_speed s index = -1) ∧
    (∀ (s : GpuState) (index : Int), ¬ (0 ≤ index ∧ index < s.gpu_count) →
      gpu_get_info s index = none) ∧
    (∀ (s : CpuState) (core_id : Int),
      ¬ (0 ≤ core_id ∧ core_id < min s.cpu_threads (MAX_CPU_CORES : Int)) →
      get_cpu_usage_by_core s core_id = 0 ∧
      get_cpu_usage_history_by_core s core_id = none) ∧
    (∀ (s : CpuState) (core_id : Int), s.cpu_threads = 128 → (core_id = 64 ∨ core_id = 100) →
      get_cpu_usage_by_core s core_id = 0 ∧
      get_cpu_usage_history_by_core s core_id = none) ∧
    ((get_disk_info disk_state_sdb_seen_twice (-1)).isNone = true ∧
      get_disk_type disk_state_sdb_seen_twice 1 = "Unknown" ∧
      get_link_speed (network_data_update (network_data_init net_state_initial)
        (some net_dev_wlan_only)) 1 = -1 ∧
      get_mac_address (network_data_update (network_data_init net_state_initial)
        (some net_dev_wlan_only)) 7 = "N/A" ∧
      (gpu_get_info (gpu_data_init gpu_state_initial gpu_probes_two_nvidia) 2).isNone
        = true) := by
  have hcpu : ∀ (s : CpuState) (core_id : Int),
      ¬ (0 ≤ core_id ∧ core_id < min s.cpu_threads (MAX_CPU_CORES : Int)) →
      get_cpu_usage_by_core s core_id = 0 ∧
      get_cpu_usage_history_by_core s core_id = none := by
    intro s core_id h
    have h2 : ¬ (core_id ≥ 0 ∧ core_id < s.cpu_threads ∧ core_id < (MAX_CPU_CORES : Int)) := by
      intro hc
      exact h ⟨hc.1, lt_min hc.2.1 hc.2.2⟩
    unfold get_cpu_usage_by_core get_cpu_usage_history_by_core
    rw [if_neg h2, if_neg h2]
    exact ⟨rfl, rfl⟩
  refine ⟨?_, ?_, ?_, hcpu, ?_, by decide!, by decide!, by decide!, by decide!, by decide!⟩
  · intro s index h
    have h2 : ¬ (index ≥ 0 ∧ index < (s.disk_count : Int)) := h
    unfold get_disk_info get_disk_size get_disk_type get_current_disk_usage_percent
      get_disk_usage_history get_disk_usage_history_index get_current_disk_activity_percent
      get_disk_activity_history get_disk_activity_history_index
    exact ⟨if_neg h2, if_neg h2, if_neg h2, if_neg h2, if_neg h2, if_neg h2, if_neg h2,
      if_neg h2, if_neg h2⟩
  · intro s index h
    have h2 : ¬ (index ≥ 0 ∧ index < (s.interface_count : Int)) := h
    unfold get_interface_info get_interface_type get_current_rx_speed get_current_tx_speed
      get_rx_history get_tx_history get_history_index get_mac_address get_mtu get_link_speed
    exact ⟨if_neg h2, if_neg h2, if_neg h2, if_neg h2, if_neg h2, if_neg h2, if_neg h2,
      if_neg h2, if_neg h2, if_neg h2⟩
  · intro s index h
    have h2 : ¬ (index ≥ 0 ∧ index < (s.gpu_count : Int)) := h
    unfold gpu_get_info
    rw [if_neg h2]
  · intro s core_id h128 hc
    apply hcpu
    rw [h128]
    unfold MAX_CPU_CORES
    rcases hc with hc | hc <;> rw [hc] <;> decide

/-! ## Claims on the CPU identity strings -/

/-- A text that starts with a literal starts with the first character of the
literal. -/
theorem has_prefix_head (k lit : String) (h : has_prefix k lit = true) :
    lit.data.head? = none ∨ lit.data.head? = k.data.head? := by
  unfold has_prefix at h
  cases hl : lit.data with
  | nil => exact Or.inl rfl
  | cons c cs =>
    cases hk : k.data with
    | nil =>
      rw [hl, hk] at h
      exact absurd h (by simp [List.isPrefixOf])
    | cons d ds =>
      rw [hl, hk] at h
      simp only [List.isPrefixOf, Bool.and_eq_true, beq_iff_eq] at h
      right
      simp [h.1]

/-- Two literals that begin with different characters are not both a prefix
of the same text. -/
theorem has_prefix_exclusive (k a b : String) (ha : has_prefix k a = true)
    (hne : a.data.head? ≠ none ∧ b.data.head? ≠ none ∧ a.data.head? ≠ b.data.head?) :
    has_prefix k b = false := by
  cases hb : has_prefix k b with
  | false => rfl
  | true =>
    rcases has_prefix_head k a ha with h1 | h1
    · exact absurd h1 hne.1
    · rcases has_prefix_head k b hb with h2 | h2
      · exact absurd h2 hne.2.1
      · exact absurd (h1.trans h2.symm) hne.2.2

theorem cpuinfo_line_step_model (st : CpuIdentity) (line : String) :
    (cpuinfo_line_step st line).cpu_model
      = match st.cpu_model with
        | some v => some v
        | none => cpuinfo_field_value "model name" line := by
  unfold cpuinfo_line_step cpuinfo_field_value
  cases hkv : cpuinfo_key_value line.data with
  | none => cases st.cpu_model <;> rfl
  | some kv =>
    obtain ⟨key, value⟩ := kv
    dsimp only
    cases hp : has_prefix (String.mk key) "model name" with
    | true =>
      cases hst : st.cpu_model with
      | none => simp
      | some v =>
        simp only [Option.isNone_some, Bool.and_false, Bool.false_and, Bool.false_eq_true,
          if_false]
        first | exact hst | (split_ifs <;> first | rfl | exact hst)
    | false =>
      simp only [Bool.false_and, Bool.false_eq_true, if_false]
      split_ifs <;> cases hst : st.cpu_model <;> simp_all

theorem cpuinfo_line_step_vendor_id (st : CpuIdentity) (line : String) :
    (cpuinfo_line_step st line).cpu_vendor_id
      = match st.cpu_vendor_id with
        | some v => some v
        | none => cpuinfo_field_value "vendor_id" line := by
  unfold cpuinfo_line_step cpuinfo_field_value
  cases hkv : cpuinfo_key_value line.data with
  | none => cases st.cpu_vendor_id <;> rfl
  | some kv =>
    obtain ⟨key, value⟩ := kv
    dsimp only
    cases hp : has_prefix (String.mk key) "vendor_id" with
    | true =>
      rw [has_prefix_exclusive _ "vendor_id" "model name" hp (by decide)]
      cases hst : st.cpu_vendor_id with
      | none => simp
      | some v =>
        simp only [Option.isNone_some, Bool.and_false, Bool.false_and, Bool.false_eq_true,
          if_false]
        first | exact hst | (split_ifs <;> first | rfl | exact hst)
    | false =>
      simp only [Bool.false_and, Bool.false_eq_true, if_false]
      split_ifs <;> cases hst : st.cpu_vendor_id <;> simp_all

theorem cpuinfo_line_step_family (st : CpuIdentity) (line : String) :
    (cpuinfo_line_step st line).cpu_family
      = match st.cpu_family with
        | some v => some v
        | none => cpuinfo_field_value "cpu family" line := by
  unfold cpuinfo_line_step cpuinfo_field_value
  cases hkv : cpuinfo_key_value line.data with
  | none => cases st.cpu_family <;> rfl
  | some kv =>
    obtain ⟨key, value⟩ := kv
    dsimp only
    cases hp : has_prefix (String.mk key) "cpu family" with
    | true =>
      rw [has_prefix_exclusive _ "cpu family" "model name" hp (by decide),
        has_prefix_exclusive _ "cpu family" "vendor_id" hp (by decide)]
      cases hst : st.cpu_family with
      | none => simp
      | some v =>
        simp only [Option.isNone_some, Bool.and_false, Bool.false_and, Bool.false_eq_true,
          if_false]
        first | exact hst | (split_ifs <;> first | rfl | exact hst)
    | false =>
      simp only [Bool.false_and, Bool.false_eq_true, if_false]
      split_ifs <;> cases hst : st.cpu_family <;> simp_all

theorem cpuinfo_line_step_stepping (st : CpuIdentity) (line : String) :
    (cpuinfo_line_step st line).cpu_stepping
      = match st.cpu_stepping with
        | some v => some v
        | none => cpuinfo_field_value "stepping" line := by
  unfold cpuinfo_line_step cpuinfo_field_value
  cases hkv : cpuinfo_key_value line.data with
  | none => cases st.cpu_stepping <;> rfl
  | some kv =>
    obtain ⟨key, value⟩ := kv
    dsimp only
    cases hp : has_prefix (String.mk key) "stepping" with
    | true =>
      rw [has_prefix_exclusive _ "stepping" "model name" hp (by decide),
        has_prefix_exclusive _ "stepping" "vendor_id" hp (by decide),
        has_prefix_exclusive _ "stepping" "cpu family" hp (by decide)]
      cases hst : st.cpu_stepping with
      | none => simp
      | some v =>
        simp only [Option.isNone_some, Bool.and_false, Bool.false_and, Bool.false_eq_true,
          if_false]
        first | exact hst | (split_ifs <;> first | rfl | exact hst)
    | false =>
      simp only [Bool.false_and, Bool.false_eq_true, if_false]
      split_ifs <;> cases hst : st.cpu_stepping <;> simp_all

theorem cpuinfo_line_step_bogomips (st : CpuIdentity) (line : String) :
    (cpuinfo_line_step st line).cpu_bogomips
      = match st.cpu_bogomips with
        | some v => some v
        | none => cpuinfo_field_value "bogomips" line := by
  unfold cpuinfo_line_step cpuinfo_field_value
  cases hkv : cpuinfo_key_value line.data with
  | none => cases st.cpu_bogomips <;> rfl
  | some kv =>
    obtain ⟨key, value⟩ := kv
    dsimp only
    cases hp : has_prefix (String.mk key) "bogomips" with
    | true =>
      rw [has_prefix_exclusive _ "bogomips" "model name" hp (by decide),
        has_prefix_exclusive _ "bogomips" "vendor_id" hp (by decide),
        has_prefix_exclusive _ "bogomips" "cpu family" hp (by decide),
        has_prefix_exclusive _ "bogomips" "stepping" hp (by decide)]
      cases hst : st.cpu_bogomips with
      | none => simp
      | some v =>
        simp only [Option.isNone_some, Bool.and_false, Bool.false_and, Bool.false_eq_true,
          if_false]
        first | exact hst | (split_ifs <;> first | rfl | exact hst)
    | false =>
      simp only [Bool.false_and, Bool.false_eq_true, if_false]
      split_ifs <;> cases hst : st.cpu_bogomips <;> simp_all

theorem cpuinfo_line_step_address_sizes (st : CpuIdentity) (line : String) :
    (cpuinfo_line_step st line).cpu_address_sizes
      = match st.cpu_address_sizes with
        | some v => some v
        | none => cpuinfo_field_value "address sizes" line := by
  unfold cpuinfo_line_step cpuinfo_field_value
  cases hkv : cpuinfo_key_value line.data with
  | none => cases st.cpu_address_sizes <;> rfl
  | some kv =>
    obtain ⟨key, value⟩ := kv
    dsimp only
    cases hp : has_prefix (String.mk key) "address sizes" with
    | true =>
      rw [has_prefix_exclusive _ "address sizes" "model name" hp (by decide),
        has_prefix_exclusive _ "address sizes" "vendor_id" hp (by decide),
        has_prefix_exclusive _ "address sizes" "cpu family" hp (by decide),
        has_prefix_exclusive _ "address sizes" "stepping" hp (by decide),
        has_prefix_exclusive _ "address sizes" "bogomips" hp (by decide)]
      cases hst : st.cpu_address_sizes with
      | none => simp
      | some v =>
        simp only [Option.isNone_some, Bool.and_false, Bool.false_and, Bool.false_eq_true,
          if_false]
        exact hst
    | false =>
      simp only [Bool.false_and, Bool.false_eq_true, if_false]
      split_ifs <;> cases hst : st.cpu_address_sizes <;> simp_all

theorem cpuinfo_line_step_other (st : CpuIdentity) (line : String) :
    (cpuinfo_line_step st line).cpu_cache_info = st.cpu_cache_info ∧
    (cpuinfo_line_step st line).cpu_architecture = st.cpu_architecture := by
  unfold cpuinfo_line_step
  cases cpuinfo_key_value line.data with
  | none => exact ⟨rfl, rfl⟩
  | some kv =>
    dsimp only
    split_ifs <;> exact ⟨rfl, rfl⟩

/-- A field that every line treats as the first loop of `parse_cpuinfo` does
holds, after the loop, what it held before or else the value of the first line
that offers one. -/
theorem parse_cpuinfo_field (field : CpuIdentity → Option String) (lit : String)
    (hstep : ∀ (st : CpuIdentity) (line : String), field (cpuinfo_line_step st line)
      = match field st with
        | some v => some v
        | none => cpuinfo_field_value lit line)
    (lines : List String) (st : CpuIdentity) :
    field (lines.foldl cpuinfo_line_step st)
      = match field st with
        | some v => some v
        | none => lines.findSome? (cpuinfo_field_value lit) := by
  induction lines generalizing st with
  | nil =>
    rw [List.foldl_nil]
    cases field st <;> rfl
  | cons l ls ih =>
    rw [List.foldl_cons, ih, hstep, List.findSome?_cons]
    cases field st with
    | some v => rfl
    | none =>
      dsimp only
      cases cpuinfo_field_value lit l <;> rfl

/-- The six strings after the identity part of `cpu_data_init`, started from
`NULL` pointers. -/
theorem cpu_data_init_identity_cpuinfo (files : CpuIdentityFiles) :
    (cpu_data_init_identity cpu_identity_initial files).cpu_model
      = (files.cpuinfo.getD []).findSome? (cpuinfo_field_value "model name") ∧
    (cpu_data_init_identity cpu_identity_initial files).cpu_vendor_id
      = (files.cpuinfo.getD []).findSome? (cpuinfo_field_value "vendor_id") ∧
    (cpu_data_init_identity cpu_identity_initial files).cpu_family
      = (files.cpuinfo.getD []).findSome? (cpuinfo_field_value "cpu family") ∧
    (cpu_data_init_identity cpu_identity_initial files).cpu_stepping
      = (files.cpuinfo.getD []).findSome? (cpuinfo_field_value "stepping") ∧
    (cpu_data_init_identity cpu_identity_initial files).cpu_bogomips
      = (files.cpuinfo.getD []).findSome? (cpuinfo_field_value "bogomips") ∧
    (cpu_data_init_identity cpu_identity_initial files).cpu_address_sizes
      = (files.cpuinfo.getD []).findSome? (cpuinfo_field_value "address sizes") := by
  have hframe : ∀ st : CpuIdentity,
      (cpu_data_init_identity st files).cpu_model = (parse_cpuinfo st files.cpuinfo).cpu_model ∧
      (cpu_data_init_identity st files).cpu_vendor_id
        = (parse_cpuinfo st files.cpuinfo).cpu_vendor_id ∧
      (cpu_data_init_identity st files).cpu_family
        = (parse_cpuinfo st files.cpuinfo).cpu_family ∧
      (cpu_data_init_identity st files).cpu_stepping
        = (parse_cpuinfo st files.cpuinfo).cpu_stepping ∧
      (cpu_data_init_identity st files).cpu_bogomips
        = (parse_cpuinfo st files.cpuinfo).cpu_bogomips ∧
      (cpu_data_init_identity st files).cpu_address_sizes
        = (parse_cpuinfo st files.cpuinfo).cpu_address_sizes := by
    intro st
    unfold cpu_data_init_identity get_architecture get_cache_info
    repeat' split
    all_goals exact ⟨rfl, rfl, rfl, rfl, rfl, rfl⟩
  obtain ⟨f1, f2, f3, f4, f5, f6⟩ := hframe cpu_identity_initial
  rw [f1, f2, f3, f4, f5, f6]
  cases hf : files.cpuinfo with
  | none => exact ⟨rfl, rfl, rfl, rfl, rfl, rfl⟩
  | some lines =>
    unfold parse_cpuinfo
    dsimp only
    exact ⟨parse_cpuinfo_field _ _ cpuinfo_line_step_model lines _,
      parse_cpuinfo_field _ _ cpuinfo_line_step_vendor_id lines _,
      parse_cpuinfo_field _ _ cpuinfo_line_step_family lines _,
      parse_cpuinfo_field _ _ cpuinfo_line_step_stepping lines _,
      parse_cpuinfo_field _ _ cpuinfo_line_step_bogomips lines _,
      parse_cpuinfo_field _ _ cpuinfo_line_step_address_sizes lines _⟩

/-- A line of the kernel's form: key, tab, colon, blank, value, line feed. The
key ends at the tab, and the value token, which starts behind the tab, begins
with the colon: skipping blanks does not remove it. -/
theorem cpuinfo_key_value_kernel_form (key V : List Char) (hk : key ≠ [])
    (hkd : ∀ c ∈ key, c ≠ '\t' ∧ c ≠ ':') (hv : '\n' ∉ V) :
    cpuinfo_key_value (key ++ '\t' :: ':' :: ' ' :: V ++ ['\n'])
      = some (key, ':' :: ' ' :: V) := by
  have hdelim : ∀ c ∈ key, (!("\t:".data.contains c)) = true := by
    intro c hc
    obtain ⟨h1, h2⟩ := hkd c hc
    simp [h1, h2]
  have hvn : ∀ c ∈ V, (!("\n".data.contains c)) = true := by
    intro c hc
    have : c ≠ '\n' := fun h => hv (h ▸ hc)
    simp [this]
  obtain ⟨k0, ks, rfl⟩ := List.exists_cons_of_ne_nil hk
  have hk0 : ("\t:".data.contains k0) = false := by
    have := hdelim k0 (List.mem_cons_self _ _)
    simpa using this
  have e1 : strtok (k0 :: ks ++ '\t' :: ':' :: ' ' :: V ++ ['\n']) "\t:".data
      = some (k0 :: ks, ':' :: ' ' :: V ++ ['\n']) := by
    unfold strtok
    have hdw : List.dropWhile (fun c => "\t:".data.contains c)
        (k0 :: ks ++ '\t' :: ':' :: ' ' :: V ++ ['\n'])
        = k0 :: (ks ++ '\t' :: ':' :: ' ' :: V ++ ['\n']) := by
      rw [List.cons_append, List.append_assoc, List.cons_append,
        List.dropWhile_cons_of_neg (by
          show ¬ ("\t:".data.contains k0) = true
          rw [hk0]
          decide)]
      simp
    rw [hdw]
    dsimp only
    have hsplit : k0 :: (ks ++ '\t' :: ':' :: ' ' :: V ++ ['\n'])
        = (k0 :: ks) ++ ('\t' :: (':' :: ' ' :: V ++ ['\n'])) := by simp
    rw [hsplit, List.takeWhile_append_of_pos hdelim, List.dropWhile_append_of_pos hdelim]
    simp
  have e2 : strtok (':' :: ' ' :: V ++ ['\n']) "\n".data
      = some (':' :: ' ' :: V, []) := by
    unfold strtok
    have hsplit : (':' :: ' ' :: V ++ ['\n']) = (':' :: ' ' :: V) ++ ['\n'] := by simp
    have hall : ∀ c ∈ (':' :: ' ' :: V), (!("\n".data.contains c)) = true := by
      intro c hc
      rcases List.mem_cons.mp hc with h | hc
      · rw [h]; decide
      · rcases List.mem_cons.mp hc with h | hc
        · rw [h]; decide
        · exact hvn c hc
    simp only [List.cons_append]
    rw [List.dropWhile_cons_of_neg (by decide)]
    dsimp only
    have hsplit2 : ':' :: ' ' :: (V ++ ['\n']) = (':' :: ' ' :: V) ++ ['\n'] := by simp
    rw [hsplit2, List.takeWhile_append_of_pos hall, List.dropWhile_append_of_pos hall]
    simp
  unfold cpuinfo_key_value
  rw [e1]
  dsimp only
  rw [e2]
  dsimp only
  rw [List.dropWhile_cons_of_neg (by decide)]


/-- C29 (counterexample to the claim as stated). With a `model name` line
whose value consists of a blank, a cache size file and a `uname -m` output that
hold a line feed only, `get_cpu_model`, `get_cpu_cache_info` and
`get_cpu_architecture` return the empty string; with the `stepping` line of the
kernel's form and no value, `get_cpu_stepping` returns `: `, not `N/A`. -/
theorem cpu_identity_getter_can_be_empty :
    get_cpu_model (cpu_data_init_identity cpu_identity_initial cpu_files_blank) = "" ∧
    get_cpu_cache_info (cpu_data_init_identity cpu_identity_initial cpu_files_blank) = "" ∧
    get_cpu_architecture (cpu_data_init_identity cpu_identity_initial cpu_files_blank) = "" ∧
    get_cpu_stepping (cpu_data_init_identity cpu_identity_initial cpu_files_blank) = ": " ∧
    cpu_files_blank.cpuinfo = some ["model name: \n", "stepping\t: \n"] ∧
    cpu_files_blank.cache_index3 = some (some "\n") ∧
    cpu_files_blank.uname_m = some "\n" := by
  decide

/-- C29 (amended). After the identity part of `cpu_data_init`, started from
`NULL` pointers, every identity getter returns `N/A` when nothing was cached
for its field and the cached text otherwise. For the six `/proc/cpuinfo`
fields the cached text is the value of the first line whose key starts with
the field name and that has a value token (nothing is cached when there is no
such line or the file cannot be opened); for the cache size it is the first
line of the level 3 file, or of the level 2 file when the level 3 file cannot
be opened, up to the first line feed or `K` (nothing is cached when no file
opens or the opened file is empty); for the architecture it is the output of
`uname -m` up to the line feed. -/
theorem cpu_identity_getters (files : CpuIdentityFiles) :
    get_cpu_model (cpu_data_init_identity cpu_identity_initial files)
      = ((files.cpuinfo.getD []).findSome? (cpuinfo_field_value "model name")).getD "N/A" ∧
    get_cpu_vendor_id (cpu_data_init_identity cpu_identity_initial files)
      = ((files.cpuinfo.getD []).findSome? (cpuinfo_field_value "vendor_id")).getD "N/A" ∧
    get_cpu_family (cpu_data_init_identity cpu_identity_initial files)
      = ((files.cpuinfo.getD []).findSome? (cpuinfo_field_value "cpu family")).getD "N/A" ∧
    get_cpu_stepping (cpu_data_init_identity cpu_identity_initial files)
      = ((files.cpuinfo.getD []).findSome? (cpuinfo_field_value "stepping")).getD "N/A" ∧
    get_cpu_bogomips (cpu_data_init_identity cpu_identity_initial files)
      = ((files.cpuinfo.getD []).findSome? (cpuinfo_field_value "bogomips")).getD "N/A" ∧
    get_cpu_address_sizes (cpu_data_init_identity cpu_identity_initial files)
      = ((files.cpuinfo.getD []).findSome? (cpuinfo_field_value "address sizes")).getD "N/A" ∧
    get_cpu_cache_info (cpu_data_init_identity cpu_identity_initial files)
      = (match (match files.cache_index3 with
          | some fp => fp
          | none => files.cache_index2.join) with
        | some size_str =>
          String.mk ((size_str.data.take 31).takeWhile (fun c => !(c = '\n' || c = 'K')))
        | none => "N/A") ∧
    get_cpu_architecture (cpu_data_init_identity cpu_identity_initial files)
      = (match files.uname_m with
        | some arch_str => String.mk ((arch_str.data.take 31).takeWhile (fun c => !(c = '\n')))
        | none => "N/A") := by
  obtain ⟨h1, h2, h3, h4, h5, h6⟩ := cpu_data_init_identity_cpuinfo files
  refine ⟨?_, ?_, ?_, ?_, ?_, ?_, ?_, ?_⟩
  · unfold get_cpu_model
    rw [h1]
  · unfold get_cpu_vendor_id
    rw [h2]
  · unfold get_cpu_family
    rw [h3]
  · unfold get_cpu_stepping
    rw [h4]
  · unfold get_cpu_bogomips
    rw [h5]
  · unfold get_cpu_address_sizes
    rw [h6]
  · have hp : (parse_cpuinfo cpu_identity_initial files.cpuinfo).cpu_cache_info = none := by
      cases files.cpuinfo with
      | none => rfl
      | some lines =>
        exact foldl_invariant (fun st : CpuIdentity => st.cpu_cache_info = none)
          cpuinfo_line_step lines cpu_identity_initial rfl
          (fun st l hst => ((cpuinfo_line_step_other st l).1).trans hst)
    unfold get_cpu_cache_info cpu_data_init_identity get_architecture get_cache_info
    cases files.uname_m <;> cases files.cache_index3 with
    | none =>
      cases files.cache_index2 with
      | none => exact congrArg (fun o : Option String => o.getD "N/A") hp
      | some fp =>
        cases fp with
        | none => exact congrArg (fun o : Option String => o.getD "N/A") hp
        | some text => rfl
    | some fp =>
      cases fp with
      | none => exact congrArg (fun o : Option String => o.getD "N/A") hp
      | some text => rfl
  · have hp : (get_cache_info (parse_cpuinfo cpu_identity_initial files.cpuinfo)
        files.cache_index3 files.cache_index2).cpu_architecture = none := by
      have hq : (parse_cpuinfo cpu_identity_initial files.cpuinfo).cpu_architecture = none := by
        cases files.cpuinfo with
        | none => rfl
        | some lines =>
          exact foldl_invariant (fun st : CpuIdentity => st.cpu_architecture = none)
            cpuinfo_line_step lines cpu_identity_initial rfl
            (fun st l hst => ((cpuinfo_line_step_other st l).2).trans hst)
      unfold get_cache_info
      split
      · exact hq
      · exact hq
    unfold get_cpu_architecture cpu_data_init_identity get_architecture
    cases files.uname_m with
    | none => exact congrArg (fun o : Option String => o.getD "N/A") hp
    | some text => rfl

/-- Evaluation of the amended C29 statement on the x86 sample: the cache size
getter returns `8192` (the `K` is cut off), the architecture getter `x86_64`,
and the vendor getter the value of the `vendor_id` line. -/
theorem cpu_identity_getters_witness :
    get_cpu_cache_info (cpu_data_init_identity cpu_identity_initial cpu_files_i7) = "8192" ∧
    get_cpu_architecture (cpu_data_init_identity cpu_identity_initial cpu_files_i7)
      = "x86_64" ∧
    get_cpu_vendor_id (cpu_data_init_identity cpu_identity_initial cpu_files_i7)
      = ((cpuinfo_i7.findSome? (cpuinfo_field_value "vendor_id")).getD "N/A") :=
  ⟨((cpu_identity_getters cpu_files_i7).2.2.2.2.2.2.1).trans (by decide),
   ((cpu_identity_getters cpu_files_i7).2.2.2.2.2.2.2).trans (by decide),
   (cpu_identity_getters cpu_files_i7).2.1⟩

/-- C30 (evaluation at the failing input). For the `/proc/cpuinfo` lines of
the kernel's form, `model name<TAB>: Intel(R) Core(TM) i7-8550U CPU @ 1.80GHz`
and the like, each getter returns the value with the colon and the blank in
front: the key token ends at the tab, the value token starts behind the tab,
at the colon, and the loop that skips blanks and tabs stops at once. This holds
for every key without a tab or colon and every value `V` without a line
feed: the cached text is `: V`. The value is taken from the first line of a
key (the second `model name` line is ignored), and a line of the form
`model name: V`, with no tab, does give `V`. -/
theorem parse_cpuinfo_keeps_colon :
    get_cpu_model (cpu_data_init_identity cpu_identity_initial cpu_files_i7)
      = ": Intel(R) Core(TM) i7-8550U CPU @ 1.80GHz" ∧
    get_cpu_model (cpu_data_init_identity cpu_identity_initial cpu_files_i7)
      ≠ "Intel(R) Core(TM) i7-8550U CPU @ 1.80GHz" ∧
    get_cpu_vendor_id (cpu_data_init_identity cpu_identity_initial cpu_files_i7)
      = ": GenuineIntel" ∧
    get_cpu_family (cpu_data_init_identity cpu_identity_initial cpu_files_i7) = ": 6" ∧
    get_cpu_stepping (cpu_data_init_identity cpu_identity_initial cpu_files_i7) = ": 10" ∧
    get_cpu_bogomips (cpu_data_init_identity cpu_identity_initial cpu_files_i7)
      = ": 3999.93" ∧
    get_cpu_address_sizes (cpu_data_init_identity cpu_identity_initial cpu_files_i7)
      = ": 39 bits physical, 48 bits virtual" ∧
    (∀ key V : List Char, key ≠ [] → (∀ c ∈ key, c ≠ '\t' ∧ c ≠ ':') → '\n' ∉ V →
      cpuinfo_key_value (key ++ '\t' :: ':' :: ' ' :: V ++ ['\n'])
        = some (key, ':' :: ' ' :: V)) ∧
    (∀ V : String, '\n' ∉ V.data →
      get_cpu_model (parse_cpuinfo cpu_identity_initial
        (some ["model name\t: " ++ V ++ "\n"])) = ": " ++ V) ∧
    get_cpu_model (parse_cpuinfo cpu_identity_initial
      (some ["model name: Intel(R) Core(TM) i7-8550U CPU @ 1.80GHz\n"]))
      = "Intel(R) Core(TM) i7-8550U CPU @ 1.80GHz" := by
  refine ⟨by decide, by decide, by decide, by decide, by decide, by decide, by decide,
    cpuinfo_key_value_kernel_form, ?_, by decide⟩
  intro V hV
  have hdata : ("model name\t: " ++ V ++ "\n").data
      = "model name".data ++ '\t' :: ':' :: ' ' :: V.data ++ ['\n'] := by
    rw [String.data_append, String.data_append]
    rfl
  have hkv := cpuinfo_key_value_kernel_form "model name".data V.data (by decide)
    (by decide) hV
  have hfield : cpuinfo_field_value "model name" ("model name\t: " ++ V ++ "\n")
      = some (": " ++ V) := by
    unfold cpuinfo_field_value
    rw [hdata, hkv]
    rfl
  unfold get_cpu_model parse_cpuinfo
  dsimp only
  rw [List.foldl_cons, List.foldl_nil, cpuinfo_line_step_model, hfield]
  rfl

end SysMon
